import Mathlib

/-!
# SecureGuard: telemetry synchronisation and classification

A shallow embedding of the slots of `MainWindow` (src/MainWindow.cpp) and of
`ExecutableMonitorPage` (src/ExecutableMonitorPage.cpp) that poll the inventory
endpoint, cache and filter the snapshot, resolve a selected record and submit
URL scans, followed by theorems about them.

Conventions of the embedding:

* `QString` is a Lean `String` (a list of code points); the Qt operations used by
  the program are written on `String.data`.
* The Unicode tables of Qt (case folding, upper-casing, white space) are not part
  of the repository; they are the fields of `QtText`, and every definition that
  uses them takes a `QtText` as its first argument.  `QtText.ascii` is a concrete
  table used to evaluate the definitions.
* A parsed JSON document is a `QJsonValue`; the parser is Qt's, so a network
  reply carries the outcome of `QJsonDocument::fromJson` rather than raw bytes.
* Child widgets are created by the constructor before any slot can run
  (src/MainWindow.cpp lines 54-57, 198, 519, 623-670), so the null checks on
  `executableMonitorPage`, `execPollTimer`, `urlInput` and the labels always
  succeed and the widgets are plain fields of the state.
-/

namespace SecureGuard

/-! ## Qt text primitives -/

/-- Unicode tables of the Qt library used by the program: simple case folding
(`Qt::CaseInsensitive`), `QString::toUpper` and `QChar::isSpace`. -/
structure QtText where
  toCaseFolded : Char → Char
  toUpper : String → String
  isSpace : Char → Bool

/-- ASCII instance of the tables, used to evaluate the definitions. -/
def QtText.ascii : QtText where
  toCaseFolded := Char.toLower
  toUpper := fun s => String.mk (s.data.map Char.toUpper)
  isSpace := Char.isWhitespace

/-- Case folding of a whole string, character by character. -/
def QtText.foldCase (qt : QtText) (s : String) : List Char :=
  s.data.map qt.toCaseFolded

/-- `QString::isEmpty`. -/
def QString.isEmpty (s : String) : Bool :=
  s.data.isEmpty

/-- Does `needle` occur as a contiguous block of `hay`?  The scan tries every
start position from the left, as `QString::indexOf` does. -/
def hasInfix (needle : List Char) : List Char → Bool
  | [] => needle.isEmpty
  | c :: cs => needle.isPrefixOf (c :: cs) || hasInfix needle cs

/-- `s.contains(needle, Qt::CaseInsensitive)`. -/
def QString.containsCI (qt : QtText) (s needle : String) : Bool :=
  hasInfix (qt.foldCase needle) (qt.foldCase s)

/-- `s.compare(t, Qt::CaseInsensitive) == 0`. -/
def QString.compareCIEqZero (qt : QtText) (s t : String) : Bool :=
  decide (qt.foldCase s = qt.foldCase t)

/-- `s.startsWith(p)` (case sensitive). -/
def QString.startsWith (s p : String) : Bool :=
  p.data.isPrefixOf s.data

/-- `s.endsWith(p)` (case sensitive). -/
def QString.endsWith (s p : String) : Bool :=
  p.data.reverse.isPrefixOf s.data.reverse

/-- `QString::trimmed`: white space removed from both ends. -/
def QString.trimmed (qt : QtText) (s : String) : String :=
  String.mk (((s.data.dropWhile qt.isSpace).reverse.dropWhile qt.isSpace).reverse)

/-- `s.left(n)`. -/
def QString.left (s : String) (n : Nat) : String :=
  String.mk (s.data.take n)

/-! ## JSON values -/

/-- Parsed JSON (`QJsonValue`).  Numbers carry an integer: no slot reads a
number, `toString` of a number is the empty string. -/
inductive QJsonValue where
  | null : QJsonValue
  | undefined : QJsonValue
  | bool (b : Bool) : QJsonValue
  | number (n : Int) : QJsonValue
  | string (s : String) : QJsonValue
  | array (items : List QJsonValue) : QJsonValue
  | object (members : List (String × QJsonValue)) : QJsonValue

/-- Members of a `QJsonObject`, as key/value pairs. -/
abbrev QJsonObject := List (String × QJsonValue)

/-- Elements of a `QJsonArray`. -/
abbrev QJsonArray := List QJsonValue

/-- `QJsonValue::toString`: the string, or the empty string for any other type. -/
def QJsonValue.toString : QJsonValue → String
  | .string s => s
  | _ => ""

/-- `QJsonValue::toObject`: the object, or the empty object for any other type. -/
def QJsonValue.toObject : QJsonValue → QJsonObject
  | .object members => members
  | _ => []

/-- `QJsonValue::toArray`: the array, or the empty array for any other type. -/
def QJsonValue.toArray : QJsonValue → QJsonArray
  | .array items => items
  | _ => []

/-- `QJsonObject::value(key)`: the member stored under `key`, or `undefined`. -/
def QJsonObject.value : QJsonObject → String → QJsonValue
  | [], _ => QJsonValue.undefined
  | (k, v) :: rest, key => if k = key then v else QJsonObject.value rest key

/-- Outcome of `QJsonDocument::fromJson`: a parse error (null document), or a
document that is an array, an object, or empty. -/
inductive QJsonDocument where
  | parseError : QJsonDocument
  | empty : QJsonDocument
  | array (items : QJsonArray) : QJsonDocument
  | object (members : QJsonObject) : QJsonDocument

/-! ## Widgets and Qt objects held by the window -/

/-- The detected-files table and the detail panel of the executable monitor
page (src/ExecutableMonitorPage.cpp).  `analysisDetailsCalls` counts the runs of
`setAnalysisDetails`; it is a trace of the slot, not a widget. -/
structure ExecutableMonitorPage where
  detectedTable : List (List String)
  selectedNameLabel : String
  selectedPathLabel : String
  riskLevelLabel : String
  fileTypeLabel : String
  fileSizeLabel : String
  detectionLabel : String
  mimeLabel : String
  md5Label : String
  sha256Label : String
  stringsContainer : List String
  analysisDetailsCalls : Nat

/-- Constructor of the page: an empty table and the placeholder texts of
`buildRightPanel`. -/
def ExecutableMonitorPage.new : ExecutableMonitorPage where
  detectedTable := []
  selectedNameLabel := "malicious_payload.exe"
  selectedPathLabel := "C:/Users/Admin/Downloads/malicious_payload.exe"
  riskLevelLabel := "CRITICAL"
  fileTypeLabel := "EXE"
  fileSizeLabel := "2.3 MB"
  detectionLabel := "AI + Rules"
  mimeLabel := "MIME: application/vnd.microsoft.portable-executable"
  md5Label := "MD5: d41d8cd98f00b204e9800998ecf8427e"
  sha256Label := "SHA256: e3b0c44298fc1c149afbf4c8..."
  stringsContainer := ["CreateRemoteThread", "SetWindowsHookExA"]
  analysisDetailsCalls := 0

/-- `ExecutableMonitorPage::setDetectedFiles`: the table is emptied, then one
table row is inserted per element of `rows`, holding its first
`qMin(3, r.size())` cells. -/
def ExecutableMonitorPage.setDetectedFiles (page : ExecutableMonitorPage)
    (rows : List (List String)) : ExecutableMonitorPage :=
  { page with detectedTable := rows.map (fun r => r.take (min 3 r.length)) }

/-- `ExecutableMonitorPage::setAnalysisDetails`; `keyFindings` and
`recommendations` are unused by the slot. -/
def ExecutableMonitorPage.setAnalysisDetails (page : ExecutableMonitorPage)
    (fileName filePath riskLevel fileType fileSize detection : String)
    (_keyFindings _recommendations : List String)
    (mime md5 sha256 : String) (suspiciousStrings : List String) : ExecutableMonitorPage :=
  { page with
    selectedNameLabel := fileName
    selectedPathLabel := filePath
    riskLevelLabel := riskLevel
    fileTypeLabel := fileType
    fileSizeLabel := fileSize
    detectionLabel := detection
    mimeLabel := "MIME: " ++ mime
    md5Label := "MD5: " ++ md5
    sha256Label := "SHA256: " ++ sha256
    stringsContainer := suspiciousStrings
    analysisDetailsCalls := page.analysisDetailsCalls + 1 }

/-- A `QTimer`: `remaining` is the number of milliseconds until the next
`timeout` while the timer is active. -/
structure QTimer where
  interval : Nat
  active : Bool
  remaining : Nat
deriving DecidableEq

/-- `QTimer::start()`: (re)starts the timer with its interval. -/
def QTimer.start (t : QTimer) : QTimer :=
  { t with active := true, remaining := t.interval }

/-- `QTimer::stop()`. -/
def QTimer.stop (t : QTimer) : QTimer :=
  { t with active := false }

/-- Verb of a network request. -/
inductive HttpVerb where
  | get : HttpVerb
  | post : HttpVerb
deriving DecidableEq

/-- A request handed to a `QNetworkAccessManager`: verb, URL, content-type
header when set, and the JSON payload of a POST. -/
structure QNetworkRequest where
  verb : HttpVerb
  url : String
  contentType : Option String
  payload : Option QJsonObject

/-- A `QNetworkAccessManager`, seen through the requests it was given (oldest
first) and the number of them that have not yet emitted `finished`. -/
structure QNetworkAccessManager where
  sent : List QNetworkRequest
  inFlight : Nat

/-- `QNetworkAccessManager::get` / `post`: the request is issued. -/
def QNetworkAccessManager.issue (m : QNetworkAccessManager) (req : QNetworkRequest) :
    QNetworkAccessManager :=
  { sent := m.sent ++ [req], inFlight := m.inFlight + 1 }

/-- A finished `QNetworkReply`: `error` is 0 for `QNetworkReply::NoError`,
`document` is the outcome of `QJsonDocument::fromJson(reply->readAll())`, and
`request` is the position, among the requests sent by its manager, of the
request that the reply answers (`QNetworkReply::request()`; no slot reads it). -/
structure QNetworkReply where
  url : String
  error : Nat
  errorString : String
  document : QJsonDocument
  request : Nat := 0

/-- Kind of a `QMessageBox`. -/
inductive MessageKind where
  | information : MessageKind
  | warning : MessageKind
  | critical : MessageKind
deriving DecidableEq

/-- A message box shown to the user. -/
structure MessageBox where
  kind : MessageKind
  title : String
  text : String
deriving DecidableEq

/-- Pages of `contentStack`. -/
inductive Page where
  | dashboard : Page
  | urlDetection : Page
  | analysisDetails : Page
  | executableMonitor : Page
deriving DecidableEq

/-- Navigation buttons of the sidebar. -/
inductive NavButton where
  | dashboardBtn : NavButton
  | urlDetectionBtn : NavButton
  | passwordManagerBtn : NavButton
  | executableMonitorBtn : NavButton
  | systemAnalysisBtn : NavButton
  | networkAnalysisBtn : NavButton
deriving DecidableEq

/-- A `QLabel` of the analysis-details page with the three dynamic properties
that `showAnalysisDetails` looks for (`findChildren<QLabel*>`). -/
structure QLabel where
  text : String
  styleSheet : String
  currentUrl : Bool
  currentScore : Bool
  currentLevel : Bool
deriving DecidableEq

/-- One entry of the scan history: what `addScanResult` shows, and the URL and
risk score captured by its click handler. -/
structure ScanResultItem where
  status : String
  url : String
  type : String
  iconText : String
  riskScore : Int
deriving DecidableEq

/-- An item of `scanResultsLayout`: a result frame or the trailing stretch. -/
inductive LayoutItem where
  | widget (item : ScanResultItem) : LayoutItem
  | stretch : LayoutItem
deriving DecidableEq

/-- A row of `factorsTable`: factor, status text, description, badge colour. -/
structure FactorRow where
  factor : String
  statusText : String
  desc : String
  badgeColor : String
deriving DecidableEq

/-- A label held in a member pointer: its text and style sheet.  These labels
are created without dynamic properties (lines 623-657) and the program never
sets one, so the property loops of `showAnalysisDetails` and
`onAnalyzeUrlFinished` leave them alone. -/
structure MemberLabel where
  text : String
  styleSheet : String
deriving DecidableEq

/-- The state of `MainWindow` (src/MainWindow.h) that the slots read and write.
`analysisDetailsLabels` are the labels of the analysis-details page that are
not held in a member pointer.  Style sheets of the window are presentation only
and are not modelled. -/
structure MainWindow where
  currentPage : Page
  activeNavBtn : NavButton
  isDarkMode : Bool
  executableMonitorPage : ExecutableMonitorPage
  urlInput : String
  scanResultsLayout : List LayoutItem
  networkManager : QNetworkAccessManager
  execNetworkManager : QNetworkAccessManager
  execPollTimer : QTimer
  execFiles : QJsonArray
  execFilterText : String
  currentAnalysisUrl : String
  currentRiskScore : Int
  currentClassification : String
  analysisDetailsLabels : List QLabel
  verdictLabel : MemberLabel
  verdictSubtitleLabel : MemberLabel
  legitimateCountLabel : MemberLabel
  phishingCountLabel : MemberLabel
  neutralCountLabel : MemberLabel
  factorsTable : List FactorRow
  messageBoxes : List MessageBox

/-! ## Executable monitor: polling, filtering, activation -/

/-- Row loop of `onExecPollFinished` (src/MainWindow.cpp lines 403-415): `rows`
is the list built so far, the remaining elements of `execFiles` are visited in
order, a record whose name does not contain the non-empty filter is skipped. -/
def MainWindow.onExecPollFinished_rows (qt : QtText) (execFilterText : String) :
    QJsonArray → List (List String) → List (List String)
  | [], rows => rows
  | v :: rest, rows =>
    let obj := v.toObject
    let name := (QJsonObject.value obj "name").toString
    if !QString.isEmpty execFilterText && !QString.containsCI qt name execFilterText then
      MainWindow.onExecPollFinished_rows qt execFilterText rest rows
    else
      let type := (QJsonObject.value obj "type").toString
      let when := (QJsonObject.value (QJsonObject.value obj "details").toObject "created_at").toString
      let status :=
        if QString.compareCIEqZero qt type "suspicious" then "Suspicious"
        else if QString.compareCIEqZero qt type "error" then "Error"
        else "Safe"
      MainWindow.onExecPollFinished_rows qt execFilterText rest (rows ++ [[name, status, when]])

/-- `MainWindow::onExecPollFinished` (lines 391-420).  `none` is a null reply. -/
def MainWindow.onExecPollFinished (qt : QtText) (w : MainWindow) :
    Option QNetworkReply → MainWindow
  | none => w
  | some reply =>
    if reply.error ≠ 0 then w
    else if QString.endsWith reply.url "/api/files" then
      match reply.document with
      | .array items =>
        let w1 := { w with execFiles := items }
        let rows := MainWindow.onExecPollFinished_rows qt w1.execFilterText w1.execFiles []
        { w1 with executableMonitorPage := w1.executableMonitorPage.setDetectedFiles rows }
      | _ => w
    else w

/-- `MainWindow::onExecMonitoringToggled` (lines 425-428): a placeholder. -/
def MainWindow.onExecMonitoringToggled (w : MainWindow) (_enabled : Bool) : MainWindow :=
  w

/-- Row loop of `onExecFilterChanged` (lines 433-445). -/
def MainWindow.onExecFilterChanged_rows (qt : QtText) (execFilterText : String) :
    QJsonArray → List (List String) → List (List String)
  | [], rows => rows
  | v :: rest, rows =>
    let obj := v.toObject
    let name := (QJsonObject.value obj "name").toString
    if !QString.isEmpty execFilterText && !QString.containsCI qt name execFilterText then
      MainWindow.onExecFilterChanged_rows qt execFilterText rest rows
    else
      let type := (QJsonObject.value obj "type").toString
      let when := (QJsonObject.value (QJsonObject.value obj "details").toObject "created_at").toString
      let status :=
        if QString.compareCIEqZero qt type "suspicious" then "Suspicious"
        else if QString.compareCIEqZero qt type "error" then "Error"
        else "Safe"
      MainWindow.onExecFilterChanged_rows qt execFilterText rest (rows ++ [[name, status, when]])

/-- `MainWindow::onExecFilterChanged` (lines 430-447). -/
def MainWindow.onExecFilterChanged (qt : QtText) (w : MainWindow) (text : String) : MainWindow :=
  let w1 := { w with execFilterText := text }
  let rows := MainWindow.onExecFilterChanged_rows qt w1.execFilterText w1.execFiles []
  { w1 with executableMonitorPage := w1.executableMonitorPage.setDetectedFiles rows }

/-- The body run by `onExecItemActivated` for the record it has found (lines
455-475): the detail fields of `obj` are handed to `setAnalysisDetails`. -/
def MainWindow.onExecItemActivated_show (qt : QtText) (page : ExecutableMonitorPage)
    (obj : QJsonObject) : ExecutableMonitorPage :=
  let d := (QJsonObject.value obj "details").toObject
  let suspiciousStrings :=
    (QJsonObject.value d "suspicious_strings").toArray.map QJsonValue.toString
  page.setAnalysisDetails
    (QJsonObject.value obj "name").toString
    (QJsonObject.value obj "path").toString
    (qt.toUpper (QJsonObject.value obj "type").toString)
    (qt.toUpper (QJsonObject.value d "ext").toString)
    (QJsonObject.value d "size").toString
    (QJsonObject.value d "rule").toString
    []
    []
    (QJsonObject.value d "mime").toString
    (QJsonObject.value d "hash").toString
    (QString.left (QJsonObject.value d "sha256").toString 32 ++ "...")
    suspiciousStrings

/-- Loop of `onExecItemActivated` (lines 451-478): the records are visited in
order; the first one whose name equals `exeName` ignoring case is shown, then
the loop breaks. -/
def MainWindow.onExecItemActivated_loop (qt : QtText) (exeName : String)
    (page : ExecutableMonitorPage) : QJsonArray → ExecutableMonitorPage
  | [] => page
  | v :: rest =>
    let obj := v.toObject
    if QString.compareCIEqZero qt (QJsonObject.value obj "name").toString exeName then
      MainWindow.onExecItemActivated_show qt page obj
    else
      MainWindow.onExecItemActivated_loop qt exeName page rest

/-- `MainWindow::onExecItemActivated` (lines 449-479). -/
def MainWindow.onExecItemActivated (qt : QtText) (w : MainWindow) (exeName : String) : MainWindow :=
  { w with executableMonitorPage :=
      MainWindow.onExecItemActivated_loop qt exeName w.executableMonitorPage w.execFiles }

/-! ## Navigation and the poll timer -/

/-- `MainWindow::setActiveNavButton` (lines 883-898); re-applying the theme changes
style sheets only. -/
def MainWindow.setActiveNavButton (w : MainWindow) (activeBtn : NavButton) : MainWindow :=
  { w with activeNavBtn := activeBtn }

/-- `MainWindow::showDashboard` (lines 904-908). -/
def MainWindow.showDashboard (w : MainWindow) : MainWindow :=
  let w1 := { w with currentPage := Page.dashboard }
  let w2 := w1.setActiveNavButton NavButton.dashboardBtn
  if w2.execPollTimer.active then { w2 with execPollTimer := w2.execPollTimer.stop } else w2

/-- `MainWindow::showUrlDetection` (lines 910-914). -/
def MainWindow.showUrlDetection (w : MainWindow) : MainWindow :=
  let w1 := { w with currentPage := Page.urlDetection }
  let w2 := w1.setActiveNavButton NavButton.urlDetectionBtn
  if w2.execPollTimer.active then { w2 with execPollTimer := w2.execPollTimer.stop } else w2

/-- `MainWindow::onExecutableMonitorClicked` (lines 957-963). -/
def MainWindow.onExecutableMonitorClicked (w : MainWindow) : MainWindow :=
  let w1 := { w with currentPage := Page.executableMonitor }
  let w2 := w1.setActiveNavButton NavButton.executableMonitorBtn
  if !w2.execPollTimer.active then { w2 with execPollTimer := w2.execPollTimer.start } else w2

/-- The request of the lambda connected to `execPollTimer`'s `timeout`. -/
def execPollRequest : QNetworkRequest where
  verb := HttpVerb.get
  url := "http://127.0.0.1:8000/api/files"
  contentType := none
  payload := none

/-- The lambda connected to `QTimer::timeout` in the constructor (lines 59-62):
one GET of the inventory endpoint. -/
def MainWindow.onExecPollTimeout (w : MainWindow) : MainWindow :=
  { w with execNetworkManager := w.execNetworkManager.issue execPollRequest }

/-- One millisecond passes in the event loop: an active poll timer counts down
and, when its interval has elapsed, emits `timeout` and starts the next
interval. -/
def MainWindow.elapse1 (w : MainWindow) : MainWindow :=
  if w.execPollTimer.active then
    if w.execPollTimer.remaining ≤ 1 then
      MainWindow.onExecPollTimeout
        { w with execPollTimer := { w.execPollTimer with remaining := w.execPollTimer.interval } }
    else
      { w with execPollTimer := { w.execPollTimer with remaining := w.execPollTimer.remaining - 1 } }
  else w

/-- `ms` milliseconds pass in the event loop. -/
def MainWindow.elapse : Nat → MainWindow → MainWindow
  | 0, w => w
  | ms + 1, w => MainWindow.elapse ms (MainWindow.elapse1 w)

/-- The reply of an inventory request finishes: `execNetworkManager` emits
`finished`, which is connected to `onExecPollFinished` (line 64). -/
def MainWindow.execReplyFinished (qt : QtText) (w : MainWindow) (reply : QNetworkReply) :
    MainWindow :=
  MainWindow.onExecPollFinished qt
    { w with execNetworkManager :=
        { w.execNetworkManager with inFlight := w.execNetworkManager.inFlight - 1 } }
    (some reply)

/-! ## URL scans -/

/-- `QBoxLayout::insertWidget(index, w)`: a negative index appends. -/
def insertWidget (layout : List LayoutItem) (index : Int) (item : LayoutItem) : List LayoutItem :=
  if index < 0 then layout ++ [item]
  else layout.take index.toNat ++ item :: layout.drop index.toNat

/-- `MainWindow::addScanResult` (lines 807-881): the new frame is inserted at
index `count() - 1` of `scanResultsLayout`; its click handler captures `url` and
the risk score chosen from `type`. -/
def MainWindow.addScanResult (w : MainWindow) (status url type : String) : MainWindow :=
  let iconText : String :=
    if type = "safe" then "✓" else if type = "malicious" then "✗" else "⚠"
  let riskScore : Int :=
    if type = "safe" then 25 else if type = "malicious" then 85 else 55
  let resultItem : ScanResultItem :=
    { status := status, url := url, type := type, iconText := iconText, riskScore := riskScore }
  { w with
    scanResultsLayout :=
      insertWidget w.scanResultsLayout ((w.scanResultsLayout.length : Int) - 1)
        (LayoutItem.widget resultItem) }

/-- The label update of `showAnalysisDetails` (lines 921-940) for one label of
the analysis-details page. -/
def MainWindow.showAnalysisDetails_label (url : String) (riskScore : Int) (label : QLabel) : QLabel :=
  let l1 := if label.currentUrl then { label with text := url } else label
  let l2 := if l1.currentScore then { l1 with text := toString riskScore } else l1
  if l2.currentLevel then
    if riskScore ≥ 70 then
      { l2 with text := "High Risk", styleSheet := "color: #EF4444; font-weight: bold;" }
    else if riskScore ≥ 40 then
      { l2 with text := "Medium Risk", styleSheet := "color: #FAA533; font-weight: bold;" }
    else
      { l2 with text := "Low Risk", styleSheet := "color: #22C55E; font-weight: bold;" }
  else l2

/-- `MainWindow::showAnalysisDetails` (lines 916-943). -/
def MainWindow.showAnalysisDetails (w : MainWindow) (url : String) (riskScore : Int) : MainWindow :=
  { w with
    currentAnalysisUrl := url
    currentRiskScore := riskScore
    analysisDetailsLabels :=
      w.analysisDetailsLabels.map (MainWindow.showAnalysisDetails_label url riskScore)
    currentPage := Page.analysisDetails }

/-- `MainWindow::onScanUrlClicked` (lines 977-994). -/
def MainWindow.onScanUrlClicked (qt : QtText) (w : MainWindow) : MainWindow :=
  let url := QString.trimmed qt w.urlInput
  if QString.isEmpty url then
    { w with messageBoxes := w.messageBoxes ++
        [{ kind := MessageKind.warning, title := "Empty URL", text := "Please enter a URL to scan." }] }
  else
    let payload : QJsonObject := [("url", QJsonValue.string url)]
    let req : QNetworkRequest :=
      { verb := HttpVerb.post, url := "http://127.0.0.1:8000/analyze_url",
        contentType := some "application/json", payload := some payload }
    { w with networkManager := w.networkManager.issue req }

/-- Tallies and table rows built by the factor loop of `onAnalyzeUrlFinished`. -/
structure FactorTally where
  rows : List FactorRow
  legit : Int
  phish : Int
  neutral : Int
deriving DecidableEq

/-- Factor loop of `onAnalyzeUrlFinished` (lines 1076-1086): one table row per
feature; the verdict is read off the leading glyph of the description. -/
def MainWindow.onAnalyzeUrlFinished_factors : QJsonArray → FactorTally → FactorTally
  | [], acc => acc
  | v :: rest, acc =>
    let fo := v.toObject
    let factor := (QJsonObject.value fo "feature").toString
    let meaning := (QJsonObject.value fo "description").toString
    if QString.startsWith meaning "✅" then
      MainWindow.onAnalyzeUrlFinished_factors rest
        { acc with
          rows := acc.rows ++ [{ factor := factor, statusText := "Legitimate", desc := meaning,
                                 badgeColor := "#22C55E" }]
          legit := acc.legit + 1 }
    else if QString.startsWith meaning "⚠️" then
      MainWindow.onAnalyzeUrlFinished_factors rest
        { acc with
          rows := acc.rows ++ [{ factor := factor, statusText := "Phishing", desc := meaning,
                                 badgeColor := "#EF4444" }]
          phish := acc.phish + 1 }
    else
      MainWindow.onAnalyzeUrlFinished_factors rest
        { acc with
          rows := acc.rows ++ [{ factor := factor, statusText := "Neutral", desc := meaning,
                                 badgeColor := "#F59E0B" }]
          neutral := acc.neutral + 1 }

/-- The part of `onAnalyzeUrlFinished` that runs on a reply without error whose
body is a JSON object (lines 1013-1101). -/
def MainWindow.onAnalyzeUrlFinished_object (qt : QtText) (w : MainWindow) (obj : QJsonObject) :
    MainWindow :=
  let classification := (QJsonObject.value obj "classification").toString
  let conclusion := (QJsonObject.value obj "conclusion").toString
  let features := (QJsonObject.value obj "features_table").toArray
  let scannedUrl := QString.trimmed qt w.urlInput
  let trs : String × String × Int :=
    if QString.compareCIEqZero qt classification "Legitimate" then ("safe", "Safe", 20)
    else if QString.compareCIEqZero qt classification "Phishing" then ("malicious", "Malicious", 85)
    else ("suspicious", "Suspicious", 55)
  let type := trs.1
  let status := trs.2.1
  let risk := trs.2.2
  let w1 := w.addScanResult status (if QString.isEmpty scannedUrl then "(unknown)" else scannedUrl) type
  let setUrl : QLabel → QLabel := fun label =>
    if label.currentUrl then { label with text := scannedUrl } else label
  let w2 := { w1 with analysisDetailsLabels := w1.analysisDetailsLabels.map setUrl }
  let w3 := { w2 with currentClassification := classification }
  let w4 :=
    if QString.compareCIEqZero qt classification "Phishing" then
      { w3 with
        verdictLabel := { w3.verdictLabel with
          text := "Phishing", styleSheet := "color:#EF4444; font-weight:700;" }
        verdictSubtitleLabel := { w3.verdictSubtitleLabel with
          text := "This URL is identified as a phishing attempt." } }
    else
      { w3 with
        verdictLabel := { w3.verdictLabel with
          text := "Legitimate", styleSheet := "color:#22C55E; font-weight:700;" }
        verdictSubtitleLabel := { w3.verdictSubtitleLabel with
          text := "This URL appears legitimate." } }
  let tally := MainWindow.onAnalyzeUrlFinished_factors features
    { rows := [], legit := 0, phish := 0, neutral := 0 }
  let w5 := { w4 with
    factorsTable := tally.rows
    legitimateCountLabel := { w4.legitimateCountLabel with text := toString tally.legit }
    phishingCountLabel := { w4.phishingCountLabel with text := toString tally.phish }
    neutralCountLabel := { w4.neutralCountLabel with text := toString tally.neutral } }
  let w6 := w5.showAnalysisDetails scannedUrl risk
  let w7 :=
    if !QString.isEmpty conclusion then
      { w6 with messageBoxes := w6.messageBoxes ++
          [{ kind := MessageKind.information, title := "Scan Complete", text := conclusion }] }
    else w6
  { w7 with urlInput := "" }

/-- `MainWindow::onAnalyzeUrlFinished` (lines 996-1102).  `none` is a null reply. -/
def MainWindow.onAnalyzeUrlFinished (qt : QtText) (w : MainWindow) :
    Option QNetworkReply → MainWindow
  | none => w
  | some reply =>
    if reply.error ≠ 0 then
      { w with messageBoxes := w.messageBoxes ++
          [{ kind := MessageKind.critical, title := "Scan Error",
             text := "Request failed: " ++ reply.errorString }] }
    else
      match reply.document with
      | .object obj => MainWindow.onAnalyzeUrlFinished_object qt w obj
      | _ =>
        { w with messageBoxes := w.messageBoxes ++
            [{ kind := MessageKind.critical, title := "Scan Error",
               text := "Invalid JSON response from server." }] }

/-- The reply of a scan request finishes: `networkManager` emits `finished`,
which is connected to `onAnalyzeUrlFinished` (line 63). -/
def MainWindow.scanReplyFinished (qt : QtText) (w : MainWindow) (reply : QNetworkReply) :
    MainWindow :=
  MainWindow.onAnalyzeUrlFinished qt
    { w with networkManager :=
        { w.networkManager with inFlight := w.networkManager.inFlight - 1 } }
    (some reply)

/-! ## User events of the URL pages -/

/-- The user edits the text of `urlInput` (a `QLineEdit`). -/
def MainWindow.urlInputEdited (w : MainWindow) (text : String) : MainWindow :=
  { w with urlInput := text }

/-- A click on the history entry `item`: the `ClickableFrame` callback installed
by `addScanResult` (lines 876-878) calls `showAnalysisDetails` with the URL and
the risk score captured when the entry was created. -/
def MainWindow.scanResultClicked (w : MainWindow) (item : ScanResultItem) : MainWindow :=
  w.showAnalysisDetails item.url item.riskScore

/-- `MainWindow::onBackButtonClicked` (lines 945-947). -/
def MainWindow.onBackButtonClicked (w : MainWindow) : MainWindow :=
  w.showUrlDetection

/-- `MainWindow::onUrlDetectionClicked` (lines 949-951). -/
def MainWindow.onUrlDetectionClicked (w : MainWindow) : MainWindow :=
  w.showUrlDetection

/-- `MainWindow::onNewScanClicked` (lines 969-971). -/
def MainWindow.onNewScanClicked (w : MainWindow) : MainWindow :=
  w.showUrlDetection

/-- `MainWindow::onPasswordManagerClicked` (lines 953-955). -/
def MainWindow.onPasswordManagerClicked (w : MainWindow) : MainWindow :=
  { w with messageBoxes := w.messageBoxes ++
      [{ kind := MessageKind.information, title := "Password Manager",
         text := "Password Manager feature will be implemented here." }] }

/-- `MainWindow::onSystemAnalysisClicked` (lines 965-967). -/
def MainWindow.onSystemAnalysisClicked (w : MainWindow) : MainWindow :=
  { w with messageBoxes := w.messageBoxes ++
      [{ kind := MessageKind.information, title := "System Analysis",
         text := "System Analysis feature will be implemented here." }] }

/-- `MainWindow::onExportReportClicked` (lines 973-975). -/
def MainWindow.onExportReportClicked (w : MainWindow) : MainWindow :=
  { w with messageBoxes := w.messageBoxes ++
      [{ kind := MessageKind.information, title := "Export Report",
         text := "Exporting security report..." }] }

/-- `MainWindow::onThemeToggle` (lines 1104-1110); the style sheet is not
modelled. -/
def MainWindow.onThemeToggle (w : MainWindow) : MainWindow :=
  { w with isDarkMode := !w.isDarkMode }

/-! ## The event loop -/

/-- The events that reach the window: clicks on the connected buttons (lines
132-183, 244-300, 528, 577), edits of the URL field, clicks on a history
entry, the three signals of the executable monitor page (lines 377-379), one
millisecond of time, and the `finished` signals of the two network managers.
Events are not restricted to the page that shows their widget. -/
inductive Event where
  | dashboardClicked : Event
  | urlDetectionClicked : Event
  | passwordManagerClicked : Event
  | executableMonitorClicked : Event
  | systemAnalysisClicked : Event
  | themeToggled : Event
  | newScanClicked : Event
  | exportReportClicked : Event
  | backClicked : Event
  | urlInputEdited (text : String) : Event
  | scanUrlClicked : Event
  | scanResultClicked (item : ScanResultItem) : Event
  | monitoringToggled (enabled : Bool) : Event
  | filterChanged (text : String) : Event
  | itemActivated (exeName : String) : Event
  | millisecondElapsed : Event
  | execReplyFinished (reply : QNetworkReply) : Event
  | scanReplyFinished (reply : QNetworkReply) : Event

/-- The slot that each event runs.  A history entry can be clicked only while
it is in the layout. -/
def MainWindow.handle (qt : QtText) (w : MainWindow) : Event → MainWindow
  | Event.dashboardClicked => w.showDashboard
  | Event.urlDetectionClicked => w.onUrlDetectionClicked
  | Event.passwordManagerClicked => w.onPasswordManagerClicked
  | Event.executableMonitorClicked => w.onExecutableMonitorClicked
  | Event.systemAnalysisClicked => w.onSystemAnalysisClicked
  | Event.themeToggled => w.onThemeToggle
  | Event.newScanClicked => w.onNewScanClicked
  | Event.exportReportClicked => w.onExportReportClicked
  | Event.backClicked => w.onBackButtonClicked
  | Event.urlInputEdited text => w.urlInputEdited text
  | Event.scanUrlClicked => MainWindow.onScanUrlClicked qt w
  | Event.scanResultClicked item =>
    if LayoutItem.widget item ∈ w.scanResultsLayout then w.scanResultClicked item else w
  | Event.monitoringToggled enabled => w.onExecMonitoringToggled enabled
  | Event.filterChanged text => MainWindow.onExecFilterChanged qt w text
  | Event.itemActivated exeName => MainWindow.onExecItemActivated qt w exeName
  | Event.millisecondElapsed => w.elapse1
  | Event.execReplyFinished reply => MainWindow.execReplyFinished qt w reply
  | Event.scanReplyFinished reply => MainWindow.scanReplyFinished qt w reply

/-- The window after a sequence of events, handled one after the other. -/
def MainWindow.run (qt : QtText) (w : MainWindow) (events : List Event) : MainWindow :=
  events.foldl (MainWindow.handle qt) w

/-! ## Construction -/

/-- A label of the analysis-details page without dynamic properties. -/
def QLabel.plain (text styleSheet : String) : QLabel :=
  { text := text, styleSheet := styleSheet, currentUrl := false, currentScore := false,
    currentLevel := false }

/-- The window right after `MainWindow::MainWindow` (lines 51-66): `setupUI`
builds the pages (the dashboard is current, the history holds the three samples
of `addSampleResults` followed by the stretch, the detected-files table holds the
four seed rows of `createExecutableMonitorPage`), then the managers and the
2000 ms poll timer are created; the timer is not started. -/
def MainWindow.new : MainWindow :=
  let w0 : MainWindow :=
    { currentPage := Page.dashboard
      activeNavBtn := NavButton.dashboardBtn
      isDarkMode := true
      executableMonitorPage := ExecutableMonitorPage.new.setDetectedFiles
        [["svchost.exe", "Safe", "1h ago"],
         ["malicious_payload.exe", "Critical", "2h ago"],
         ["explorer.exe", "Safe", ""],
         ["unknown_installer.msi", "Suspicious", "5h ago"]]
      urlInput := ""
      scanResultsLayout := []
      networkManager := { sent := [], inFlight := 0 }
      execNetworkManager := { sent := [], inFlight := 0 }
      execPollTimer := { interval := 2000, active := false, remaining := 0 }
      execFiles := []
      execFilterText := ""
      currentAnalysisUrl := ""
      currentRiskScore := 0
      currentClassification := ""
      analysisDetailsLabels :=
        [QLabel.plain "Analysis Details" "",
         QLabel.plain "" "background-color: #EF7722; border-radius: 20px;",
         QLabel.plain "Verdict & Details" "",
         QLabel.plain "Legitimate Factors" "color:#22C55E; font-weight:600; font-size:12px;",
         QLabel.plain "Phishing Factors" "color:#EF4444; font-weight:600; font-size:12px;",
         QLabel.plain "Neutral Factors" "color:#F59E0B; font-weight:600; font-size:12px;",
         QLabel.plain "Factors" ""]
      verdictLabel := { text := "Phishing", styleSheet := "color: #EF4444;" }
      verdictSubtitleLabel :=
        { text := "This URL is identified as a phishing attempt.", styleSheet := "" }
      legitimateCountLabel := { text := "0", styleSheet := "color:#22C55E;" }
      phishingCountLabel := { text := "0", styleSheet := "color:#EF4444;" }
      neutralCountLabel := { text := "0", styleSheet := "color:#F59E0B;" }
      factorsTable := []
      messageBoxes := [] }
  let w1 := w0.addScanResult "Safe" "https://example.com/login" "safe"
  let w2 := w1.addScanResult "Malicious" "https://malicious.site/phishing" "malicious"
  let w3 := w2.addScanResult "Suspicious" "https://suspicious.link/unknown" "suspicious"
  { w3 with scanResultsLayout := w3.scanResultsLayout ++ [LayoutItem.stretch] }


/-! ## Vocabulary of the specification -/

/-- The name string that the slots read from a record:
`v.toObject().value("name").toString()`. -/
def recordName (v : QJsonValue) : String :=
  (QJsonObject.value v.toObject "name").toString

/-- The backend type string of a record: `obj.value("type").toString()`. -/
def recordType (v : QJsonValue) : String :=
  (QJsonObject.value v.toObject "type").toString

/-- The timestamp string of a record:
`obj.value("details").toObject().value("created_at").toString()`. -/
def recordWhen (v : QJsonValue) : String :=
  (QJsonObject.value (QJsonObject.value v.toObject "details").toObject "created_at").toString

/-- Specification: `name` contains `f` ignoring case, that is the folded `f` is a
contiguous block of the folded `name` (`l₁ <:+: l₂` unfolds to
`∃ s t, s ++ l₁ ++ t = l₂`). -/
def ContainsIgnoringCase (qt : QtText) (name f : String) : Prop :=
  qt.foldCase f <:+: qt.foldCase name

instance (qt : QtText) (name f : String) : Decidable (ContainsIgnoringCase qt name f) :=
  inferInstanceAs (Decidable (qt.foldCase f <:+: qt.foldCase name))

/-- Specification: `s` equals `t` ignoring case. -/
def EqualIgnoringCase (qt : QtText) (s t : String) : Prop :=
  qt.foldCase s = qt.foldCase t

instance (qt : QtText) (s t : String) : Decidable (EqualIgnoringCase qt s t) :=
  inferInstanceAs (Decidable (qt.foldCase s = qt.foldCase t))

/-- Specification (section 4.1): the inventory category of a backend type
string, as the list shows it. -/
def listStatus (qt : QtText) (t : String) : String :=
  if EqualIgnoringCase qt t "suspicious" then "Suspicious"
  else if EqualIgnoringCase qt t "error" then "Error"
  else "Safe"

/-- Specification: the list row of a record, `[name, status, when]`. -/
def listRow (qt : QtText) (v : QJsonValue) : List String :=
  [recordName v, listStatus qt (recordType v), recordWhen v]

/-- Specification (section 3, FilteredView): the rows of the records of `S`
whose name contains `f` ignoring case, in the order of `S`. -/
def filteredView (qt : QtText) (S : QJsonArray) (f : String) : List (List String) :=
  (S.filter (fun v => decide (ContainsIgnoringCase qt (recordName v) f))).map (listRow qt)

/-- A reply that `onExecPollFinished` accepts as a snapshot: no network error,
the inventory URL, and a body that parses to the JSON array `S`. -/
def QNetworkReply.Delivers (reply : QNetworkReply) (S : QJsonArray) : Prop :=
  reply.error = 0 ∧ QString.endsWith reply.url "/api/files" = true ∧
    reply.document = QJsonDocument.array S

/-- The snapshot of the scenario of section 8. -/
def scenarioSnapshot : QJsonArray :=
  [QJsonValue.object [("name", QJsonValue.string "svchost.exe"), ("type", QJsonValue.string "safe")],
   QJsonValue.object [("name", QJsonValue.string "bad.exe"), ("type", QJsonValue.string "suspicious")]]

/-- A reply of the inventory endpoint carrying the array `S`. -/
def inventoryReply (S : QJsonArray) : QNetworkReply where
  url := "http://127.0.0.1:8000/api/files"
  error := 0
  errorString := ""
  document := QJsonDocument.array S

/-- A reply of the scan endpoint carrying the JSON object `obj`. -/
def scanReply (obj : QJsonObject) : QNetworkReply where
  url := "http://127.0.0.1:8000/analyze_url"
  error := 0
  errorString := ""
  document := QJsonDocument.object obj

/-- A poll reply that is a failure: it carries a network error, or its body is
not parseable JSON, or the parsed document is not a JSON array. -/
def QNetworkReply.Fails (reply : QNetworkReply) : Prop :=
  reply.error ≠ 0 ∨ reply.document = QJsonDocument.parseError ∨
    ∀ S : QJsonArray, reply.document ≠ QJsonDocument.array S

/-- A reply of the inventory endpoint that carries the network error `code`. -/
def errorReply (code : Nat) : QNetworkReply where
  url := "http://127.0.0.1:8000/api/files"
  error := code
  errorString := "Connection refused"
  document := QJsonDocument.parseError

/-- The details object that `onExecItemActivated` reads from a record:
`obj.value("details").toObject()`. -/
def recordDetails (v : QJsonValue) : QJsonObject :=
  (QJsonObject.value v.toObject "details").toObject

/-- A snapshot with two records named `dup.exe`, told apart by their paths. -/
def duplicateSnapshot : QJsonArray :=
  [QJsonValue.object [("name", QJsonValue.string "dup.exe"), ("path", QJsonValue.string "C:/first")],
   QJsonValue.object [("name", QJsonValue.string "dup.exe"), ("path", QJsonValue.string "C:/second")]]

/-- A snapshot whose only record has a name and nothing else. -/
def bareSnapshot : QJsonArray :=
  [QJsonValue.object [("name", QJsonValue.string "bare.exe")]]

/-- The feature name of a factor: `fo.value("feature").toString()`. -/
def featureName (v : QJsonValue) : String :=
  (QJsonObject.value v.toObject "feature").toString

/-- The description of a factor: `fo.value("description").toString()`. -/
def featureDescription (v : QJsonValue) : String :=
  (QJsonObject.value v.toObject "description").toString

/-- Specification (section 4.1): the verdict of a factor, read off the leading
marker of its description. -/
def factorVerdict (d : String) : String :=
  if QString.startsWith d "✅" then "Legitimate"
  else if QString.startsWith d "⚠️" then "Phishing"
  else "Neutral"

/-- The badge colour that goes with a verdict in the factor table. -/
def verdictColor (verdict : String) : String :=
  if verdict = "Legitimate" then "#22C55E"
  else if verdict = "Phishing" then "#EF4444"
  else "#F59E0B"

/-- Specification: the table row of a factor. -/
def factorRow (v : QJsonValue) : FactorRow where
  factor := featureName v
  statusText := factorVerdict (featureDescription v)
  desc := featureDescription v
  badgeColor := verdictColor (factorVerdict (featureDescription v))

/-- The number of rows of a factor table that carry the verdict `verdict`. -/
def verdictCount (verdict : String) (rows : List FactorRow) : Nat :=
  rows.countP (fun r => decide (r.statusText = verdict))

/-- The feature list of a scan response: `obj.value("features_table").toArray()`. -/
def featureList (obj : QJsonObject) : QJsonArray :=
  (QJsonObject.value obj "features_table").toArray

/-- A scan response with one factor of each kind; the last one has no
description. -/
def scenarioFeatures : QJsonObject :=
  [("classification", QJsonValue.string "Phishing"),
   ("features_table", QJsonValue.array
     [QJsonValue.object [("feature", QJsonValue.string "https"),
        ("description", QJsonValue.string "✅ served over https")],
      QJsonValue.object [("feature", QJsonValue.string "ip"),
        ("description", QJsonValue.string "⚠️ raw address in host")],
      QJsonValue.object [("feature", QJsonValue.string "length")]])]

/-- A scan reply that is a failure: it carries a network error, or its body is
not parseable JSON, or the parsed document is not a JSON object. -/
def QNetworkReply.ScanFails (reply : QNetworkReply) : Prop :=
  reply.error ≠ 0 ∨ reply.document = QJsonDocument.parseError ∨
    ∀ obj : QJsonObject, reply.document ≠ QJsonDocument.object obj

/-- The entries of the scan history, in display order: the result frames of
`scanResultsLayout`. -/
def historyEntries (layout : List LayoutItem) : List ScanResultItem :=
  layout.filterMap (fun i => match i with
    | LayoutItem.widget item => some item
    | LayoutItem.stretch => none)

/-- The window after the URL `https://ok.test` was scanned and the backend
answered `Legitimate`. -/
def legitimateScanState : MainWindow :=
  MainWindow.onAnalyzeUrlFinished QtText.ascii
    { MainWindow.new with urlInput := "https://ok.test" }
    (some (scanReply [("classification", QJsonValue.string "Legitimate")]))

/-- The window after the URL `http://odd.test` was scanned and the backend
answered with the classification string `c`. -/
def classifiedScanState (c : String) : MainWindow :=
  MainWindow.onAnalyzeUrlFinished QtText.ascii
    { MainWindow.new with urlInput := "http://odd.test" }
    (some (scanReply [("classification", QJsonValue.string c)]))

/-- The window after the user opened the URL-detection page, typed `typed` into
the URL field and pressed the scan button. -/
def submittedState (typed : String) : MainWindow :=
  MainWindow.onScanUrlClicked QtText.ascii
    (MainWindow.urlInputEdited (MainWindow.showUrlDetection MainWindow.new) typed)

/-- A second snapshot, with one record. -/
def laterSnapshot : QJsonArray :=
  [QJsonValue.object [("name", QJsonValue.string "new.exe"), ("type", QJsonValue.string "error")]]

/-- The window after the monitor was opened and two poll intervals have passed
without any reply: two fetches have been issued. -/
def twoTicksState : MainWindow :=
  MainWindow.onExecPollTimeout
    (MainWindow.onExecPollTimeout MainWindow.new.onExecutableMonitorClicked)

/-- Specification (section 3, FilteredView): the table shows the filtered view
of the cached snapshot under the current filter text. -/
def TableInSync (qt : QtText) (w : MainWindow) : Prop :=
  w.executableMonitorPage.detectedTable = filteredView qt w.execFiles w.execFilterText

/-- An event that rebuilds the table: a filter change or a successful poll,
that is an inventory reply that delivers a snapshot. -/
def Event.RebuildsTable : Event → Prop
  | Event.filterChanged _ => True
  | Event.execReplyFinished reply => ∃ S : QJsonArray, reply.Delivers S
  | _ => False

/-- The history entry of the sample result `Malicious`, which
`addSampleResults` creates with risk score 85. -/
def maliciousSample : ScanResultItem where
  status := "Malicious"
  url := "https://malicious.site/phishing"
  type := "malicious"
  iconText := "✗"
  riskScore := 85

/-- A snapshot whose only record has the backend type `malware`. -/
def malwareSnapshot : QJsonArray :=
  [QJsonValue.object [("name", QJsonValue.string "drop.exe"),
     ("type", QJsonValue.string "malware")]]

/-! ## Lemmas on the text primitives -/

theorem hasInfix_iff (needle hay : List Char) :
    hasInfix needle hay = true ↔ needle <:+: hay := by
  induction hay with
  | nil => simp [hasInfix, List.infix_nil]
  | cons c cs ih =>
    simp only [hasInfix, Bool.or_eq_true, ih, List.infix_cons_iff, List.isPrefixOf_iff_prefix]

theorem containsCI_iff (qt : QtText) (name f : String) :
    QString.containsCI qt name f = true ↔ ContainsIgnoringCase qt name f :=
  hasInfix_iff _ _

theorem compareCIEqZero_iff (qt : QtText) (s t : String) :
    QString.compareCIEqZero qt s t = true ↔ EqualIgnoringCase qt s t := by
  simp [QString.compareCIEqZero, EqualIgnoringCase]

theorem contains_of_isEmpty (qt : QtText) (name f : String) (h : QString.isEmpty f = true) :
    ContainsIgnoringCase qt name f := by
  have hf : f.data = [] := by simpa [QString.isEmpty] using h
  simp [ContainsIgnoringCase, QtText.foldCase, hf]

/-- The guard that skips a record holds exactly when the name does not contain
the filter ignoring case. -/
theorem skip_iff (qt : QtText) (name f : String) :
    (!QString.isEmpty f && !QString.containsCI qt name f) = true ↔
      ¬ ContainsIgnoringCase qt name f := by
  constructor
  · intro h
    simp only [Bool.and_eq_true, Bool.not_eq_true'] at h
    rw [← containsCI_iff]
    simp [h.2]
  · intro h
    have h1 : QString.isEmpty f = false := by
      cases hem : QString.isEmpty f with
      | false => rfl
      | true => exact absurd (contains_of_isEmpty qt name f hem) h
    have h2 : QString.containsCI qt name f = false := by
      cases hc : QString.containsCI qt name f with
      | false => rfl
      | true => exact absurd ((containsCI_iff qt name f).1 hc) h
    simp [h1, h2]

theorem status_eq_listStatus (qt : QtText) (t : String) :
    (if QString.compareCIEqZero qt t "suspicious" then "Suspicious"
      else if QString.compareCIEqZero qt t "error" then "Error" else "Safe")
      = listStatus qt t := by
  unfold listStatus
  by_cases h1 : EqualIgnoringCase qt t "suspicious"
  · simp [h1, (compareCIEqZero_iff qt t "suspicious").2 h1]
  · have h1b : QString.compareCIEqZero qt t "suspicious" = false := by
      cases hc : QString.compareCIEqZero qt t "suspicious" with
      | false => rfl
      | true => exact absurd ((compareCIEqZero_iff _ _ _).1 hc) h1
    by_cases h2 : EqualIgnoringCase qt t "error"
    · simp [h1, h1b, h2, (compareCIEqZero_iff qt t "error").2 h2]
    · have h2b : QString.compareCIEqZero qt t "error" = false := by
        cases hc : QString.compareCIEqZero qt t "error" with
        | false => rfl
        | true => exact absurd ((compareCIEqZero_iff _ _ _).1 hc) h2
      simp [h1, h1b, h2, h2b]

/-! ## Lemmas on the row loops -/

theorem filteredView_cons_of_contains (qt : QtText) (v : QJsonValue) (S : QJsonArray) (f : String)
    (h : ContainsIgnoringCase qt (recordName v) f) :
    filteredView qt (v :: S) f = listRow qt v :: filteredView qt S f := by
  simp [filteredView, List.filter_cons, h]

theorem filteredView_cons_of_not_contains (qt : QtText) (v : QJsonValue) (S : QJsonArray)
    (f : String) (h : ¬ ContainsIgnoringCase qt (recordName v) f) :
    filteredView qt (v :: S) f = filteredView qt S f := by
  simp [filteredView, List.filter_cons, h]

theorem onExecPollFinished_rows_eq (qt : QtText) (f : String) (S : QJsonArray)
    (rows : List (List String)) :
    MainWindow.onExecPollFinished_rows qt f S rows = rows ++ filteredView qt S f := by
  induction S generalizing rows with
  | nil => simp [MainWindow.onExecPollFinished_rows, filteredView]
  | cons v rest ih =>
    by_cases h : ContainsIgnoringCase qt (recordName v) f
    · have hs : (!QString.isEmpty f && !QString.containsCI qt (recordName v) f) = false := by
        cases hc : (!QString.isEmpty f && !QString.containsCI qt (recordName v) f) with
        | false => rfl
        | true => exact absurd h ((skip_iff qt _ f).1 hc)
      unfold recordName at hs
      simp only [MainWindow.onExecPollFinished_rows, hs, status_eq_listStatus, ih,
        filteredView_cons_of_contains qt v rest f h]
      simp [listRow, recordName, recordType, recordWhen]
    · have hs := (skip_iff qt (recordName v) f).2 h
      unfold recordName at hs
      simp only [MainWindow.onExecPollFinished_rows, hs, ih,
        filteredView_cons_of_not_contains qt v rest f h]
      simp

theorem onExecFilterChanged_rows_eq (qt : QtText) (f : String) (S : QJsonArray)
    (rows : List (List String)) :
    MainWindow.onExecFilterChanged_rows qt f S rows = rows ++ filteredView qt S f := by
  induction S generalizing rows with
  | nil => simp [MainWindow.onExecFilterChanged_rows, filteredView]
  | cons v rest ih =>
    by_cases h : ContainsIgnoringCase qt (recordName v) f
    · have hs : (!QString.isEmpty f && !QString.containsCI qt (recordName v) f) = false := by
        cases hc : (!QString.isEmpty f && !QString.containsCI qt (recordName v) f) with
        | false => rfl
        | true => exact absurd h ((skip_iff qt _ f).1 hc)
      unfold recordName at hs
      simp only [MainWindow.onExecFilterChanged_rows, hs, status_eq_listStatus, ih,
        filteredView_cons_of_contains qt v rest f h]
      simp [listRow, recordName, recordType, recordWhen]
    · have hs := (skip_iff qt (recordName v) f).2 h
      unfold recordName at hs
      simp only [MainWindow.onExecFilterChanged_rows, hs, ih,
        filteredView_cons_of_not_contains qt v rest f h]
      simp

/-- `setDetectedFiles` shows three-cell rows as they are. -/
theorem setDetectedFiles_filteredView (qt : QtText) (page : ExecutableMonitorPage)
    (S : QJsonArray) (f : String) :
    (page.setDetectedFiles (filteredView qt S f)).detectedTable = filteredView qt S f := by
  simp only [ExecutableMonitorPage.setDetectedFiles, filteredView, List.map_map]
  apply List.map_congr_left
  intro v _
  simp [listRow]


theorem foldCase_length (qt : QtText) (s : String) : (qt.foldCase s).length = s.data.length := by
  simp [QtText.foldCase]

/-- Strings of different lengths are never equal ignoring case. -/
theorem not_equalIgnoringCase_of_length (qt : QtText) (s t : String)
    (h : s.data.length ≠ t.data.length) : ¬ EqualIgnoringCase qt s t := by
  intro he
  apply h
  rw [← foldCase_length qt s, ← foldCase_length qt t, he]

theorem listStatus_suspicious (qt : QtText) (t : String)
    (h : EqualIgnoringCase qt t "suspicious") : listStatus qt t = "Suspicious" := by
  simp [listStatus, h]

theorem listStatus_error (qt : QtText) (t : String)
    (h : EqualIgnoringCase qt t "error") : listStatus qt t = "Error" := by
  have hne : ¬ EqualIgnoringCase qt t "suspicious" := by
    intro hs
    have h1 := foldCase_length qt "suspicious"
    have h2 := foldCase_length qt "error"
    rw [← hs, h] at h1
    rw [h1] at h2
    exact absurd h2 (by decide)
  simp [listStatus, h, hne]

theorem listStatus_safe (qt : QtText) (t : String)
    (h1 : ¬ EqualIgnoringCase qt t "suspicious") (h2 : ¬ EqualIgnoringCase qt t "error") :
    listStatus qt t = "Safe" := by
  simp [listStatus, h1, h2]

theorem listStatus_empty (qt : QtText) : listStatus qt "" = "Safe" :=
  listStatus_safe qt ""
    (not_equalIgnoringCase_of_length qt "" "suspicious" (by decide))
    (not_equalIgnoringCase_of_length qt "" "error" (by decide))

theorem onExecPollFinished_rows_single (qt : QtText) (v : QJsonValue) (f : String)
    (rows : List (List String)) (h : ContainsIgnoringCase qt (recordName v) f) :
    MainWindow.onExecPollFinished_rows qt f [v] rows
      = rows ++ [[recordName v, listStatus qt (recordType v), recordWhen v]] := by
  rw [onExecPollFinished_rows_eq, filteredView_cons_of_contains qt v [] f h]
  simp [filteredView, listRow]

theorem onExecFilterChanged_rows_single (qt : QtText) (v : QJsonValue) (f : String)
    (rows : List (List String)) (h : ContainsIgnoringCase qt (recordName v) f) :
    MainWindow.onExecFilterChanged_rows qt f [v] rows
      = rows ++ [[recordName v, listStatus qt (recordType v), recordWhen v]] := by
  rw [onExecFilterChanged_rows_eq, filteredView_cons_of_contains qt v [] f h]
  simp [filteredView, listRow]

/-- C1: the rows rendered by a filter change to `f` and by a successful poll
delivering `S` while the filter is `f` are exactly the rows of the records whose
name contains `f` ignoring case, one per record and in the order of the
snapshot; with the empty filter there is one row per record. -/
theorem filtered_rows_exact (qt : QtText) (w : MainWindow) (f : String) (reply : QNetworkReply)
    (S : QJsonArray) (h : reply.Delivers S) :
    (MainWindow.onExecFilterChanged qt w f).executableMonitorPage.detectedTable
        = filteredView qt w.execFiles f ∧
    (MainWindow.onExecPollFinished qt w (some reply)).executableMonitorPage.detectedTable
        = filteredView qt S w.execFilterText ∧
    (MainWindow.onExecFilterChanged qt w "").executableMonitorPage.detectedTable
        = w.execFiles.map (listRow qt) := by
  obtain ⟨he, hu, hd⟩ := h
  refine ⟨?_, ?_, ?_⟩
  · simp only [MainWindow.onExecFilterChanged, onExecFilterChanged_rows_eq, List.nil_append]
    exact setDetectedFiles_filteredView qt _ _ _
  · simp only [MainWindow.onExecPollFinished, he, hu, hd, ne_eq, not_true_eq_false, if_false,
      if_true, onExecPollFinished_rows_eq, List.nil_append]
    exact setDetectedFiles_filteredView qt _ _ _
  · simp only [MainWindow.onExecFilterChanged, onExecFilterChanged_rows_eq, List.nil_append]
    rw [setDetectedFiles_filteredView]
    have : ∀ v ∈ w.execFiles, decide (ContainsIgnoringCase qt (recordName v) "") = true := by
      intro v _
      exact decide_eq_true (contains_of_isEmpty qt _ "" rfl)
    simp only [filteredView, List.filter_eq_self.2 this]

theorem filtered_rows_exact_witness :
    (inventoryReply scenarioSnapshot).Delivers scenarioSnapshot ∧
    ((MainWindow.onExecFilterChanged QtText.ascii
          { MainWindow.new with execFiles := scenarioSnapshot } "svc").executableMonitorPage.detectedTable
        = filteredView QtText.ascii scenarioSnapshot "svc" ∧
      (MainWindow.onExecPollFinished QtText.ascii
          { MainWindow.new with execFiles := scenarioSnapshot }
          (some (inventoryReply scenarioSnapshot))).executableMonitorPage.detectedTable
        = filteredView QtText.ascii scenarioSnapshot "" ∧
      (MainWindow.onExecFilterChanged QtText.ascii
          { MainWindow.new with execFiles := scenarioSnapshot } "").executableMonitorPage.detectedTable
        = scenarioSnapshot.map (listRow QtText.ascii)) ∧
    filteredView QtText.ascii scenarioSnapshot "exe"
      = [["svchost.exe", "Safe", ""], ["bad.exe", "Suspicious", ""]] ∧
    filteredView QtText.ascii scenarioSnapshot "svc" = [["svchost.exe", "Safe", ""]] ∧
    filteredView QtText.ascii scenarioSnapshot ""
      = [["svchost.exe", "Safe", ""], ["bad.exe", "Suspicious", ""]] :=
  ⟨⟨rfl, by decide, rfl⟩,
   filtered_rows_exact QtText.ascii { MainWindow.new with execFiles := scenarioSnapshot } "svc"
     (inventoryReply scenarioSnapshot) scenarioSnapshot ⟨rfl, by decide, rfl⟩,
   by decide, by decide, by decide⟩

/-- C2: the status cell of the list row that either loop builds for a record is
a function of the record's type string `t` alone: "Suspicious" when `t` equals
"suspicious" ignoring case, "Error" when it equals "error" ignoring case, and
"Safe" for every other `t`, the empty string and a missing type included. -/
theorem list_status_of_type (qt : QtText) (v : QJsonValue) (f : String)
    (rows : List (List String)) (hpass : ContainsIgnoringCase qt (recordName v) f) :
    MainWindow.onExecPollFinished_rows qt f [v] rows
        = rows ++ [[recordName v, listStatus qt (recordType v), recordWhen v]] ∧
    MainWindow.onExecFilterChanged_rows qt f [v] rows
        = rows ++ [[recordName v, listStatus qt (recordType v), recordWhen v]] ∧
    (∀ t, EqualIgnoringCase qt t "suspicious" → listStatus qt t = "Suspicious") ∧
    (∀ t, EqualIgnoringCase qt t "error" → listStatus qt t = "Error") ∧
    (∀ t, ¬ EqualIgnoringCase qt t "suspicious" → ¬ EqualIgnoringCase qt t "error" →
      listStatus qt t = "Safe") ∧
    listStatus qt "" = "Safe" ∧
    (QJsonObject.value v.toObject "type" = QJsonValue.undefined →
      listStatus qt (recordType v) = "Safe") := by
  refine ⟨onExecPollFinished_rows_single qt v f rows hpass,
    onExecFilterChanged_rows_single qt v f rows hpass,
    listStatus_suspicious qt, listStatus_error qt, listStatus_safe qt, listStatus_empty qt, ?_⟩
  intro hmiss
  have : recordType v = "" := by simp [recordType, hmiss, QJsonValue.toString]
  rw [this]
  exact listStatus_empty qt

theorem list_status_of_type_witness :
    ContainsIgnoringCase QtText.ascii
      (recordName (QJsonValue.object [("name", QJsonValue.string "Bad.exe"),
        ("type", QJsonValue.string "SUSPICIOUS")])) "bad" ∧
    MainWindow.onExecPollFinished_rows QtText.ascii "bad"
      [QJsonValue.object [("name", QJsonValue.string "Bad.exe"),
        ("type", QJsonValue.string "SUSPICIOUS")]] []
      = [["Bad.exe", "Suspicious", ""]] ∧
    MainWindow.onExecFilterChanged_rows QtText.ascii "bad"
      [QJsonValue.object [("name", QJsonValue.string "Bad.exe"),
        ("type", QJsonValue.string "SUSPICIOUS")]] []
      = [["Bad.exe", "Suspicious", ""]] ∧
    listStatus QtText.ascii "Error" = "Error" ∧
    listStatus QtText.ascii "malware" = "Safe" :=
  have h := list_status_of_type QtText.ascii
    (QJsonValue.object [("name", QJsonValue.string "Bad.exe"),
      ("type", QJsonValue.string "SUSPICIOUS")]) "bad" [] (by decide)
  ⟨by decide, h.1.trans (by decide), h.2.1.trans (by decide),
    h.2.2.2.1 "Error" (by decide), h.2.2.2.2.1 "malware" (by decide) (by decide)⟩

/-! ## URL scan replies -/

/-- The risk score chosen by `onAnalyzeUrlFinished` for a classification string. -/
theorem onAnalyzeUrlFinished_object_risk (qt : QtText) (w : MainWindow) (obj : QJsonObject) :
    (MainWindow.onAnalyzeUrlFinished_object qt w obj).currentRiskScore
      = if QString.compareCIEqZero qt (QJsonObject.value obj "classification").toString
            "Legitimate" then 20
        else if QString.compareCIEqZero qt (QJsonObject.value obj "classification").toString
            "Phishing" then 85
        else 55 := by
  unfold MainWindow.onAnalyzeUrlFinished_object
  dsimp only
  split_ifs <;> rfl

theorem onAnalyzeUrlFinished_object_shown (qt : QtText) (w : MainWindow) (obj : QJsonObject) :
    (MainWindow.onAnalyzeUrlFinished_object qt w obj).currentPage = Page.analysisDetails ∧
    (MainWindow.onAnalyzeUrlFinished_object qt w obj).currentAnalysisUrl
      = QString.trimmed qt w.urlInput := by
  unfold MainWindow.onAnalyzeUrlFinished_object
  dsimp only
  split_ifs <;> exact ⟨rfl, rfl⟩

theorem onAnalyzeUrlFinished_of_object (qt : QtText) (w : MainWindow) (reply : QNetworkReply)
    (obj : QJsonObject) (herr : reply.error = 0)
    (hdoc : reply.document = QJsonDocument.object obj) :
    MainWindow.onAnalyzeUrlFinished qt w (some reply)
      = MainWindow.onAnalyzeUrlFinished_object qt w obj := by
  simp [MainWindow.onAnalyzeUrlFinished, herr, hdoc]

/-- C3: on a successful scan reply with classification string `c` the risk
score stored as the current risk score, with which the analysis-details page is
shown, is 85 when `c` equals "phishing" ignoring case, 20 when it equals
"legitimate" ignoring case and 55 for every other `c`, empty or missing
included.  The case folding is assumed to identify the capitalised literals of
the code with the lower-case words of the specification. -/
theorem scan_risk_score (qt : QtText) (w : MainWindow) (reply : QNetworkReply)
    (obj : QJsonObject) (herr : reply.error = 0)
    (hdoc : reply.document = QJsonDocument.object obj)
    (hP : EqualIgnoringCase qt "Phishing" "phishing")
    (hL : EqualIgnoringCase qt "Legitimate" "legitimate") :
    (EqualIgnoringCase qt (QJsonObject.value obj "classification").toString "phishing" →
      (MainWindow.onAnalyzeUrlFinished qt w (some reply)).currentRiskScore = 85) ∧
    (EqualIgnoringCase qt (QJsonObject.value obj "classification").toString "legitimate" →
      (MainWindow.onAnalyzeUrlFinished qt w (some reply)).currentRiskScore = 20) ∧
    (¬ EqualIgnoringCase qt (QJsonObject.value obj "classification").toString "phishing" →
      ¬ EqualIgnoringCase qt (QJsonObject.value obj "classification").toString "legitimate" →
      (MainWindow.onAnalyzeUrlFinished qt w (some reply)).currentRiskScore = 55) ∧
    ((QJsonObject.value obj "classification").toString = "" →
      (MainWindow.onAnalyzeUrlFinished qt w (some reply)).currentRiskScore = 55) ∧
    (QJsonObject.value obj "classification" = QJsonValue.undefined →
      (MainWindow.onAnalyzeUrlFinished qt w (some reply)).currentRiskScore = 55) ∧
    (MainWindow.onAnalyzeUrlFinished qt w (some reply)).currentPage = Page.analysisDetails := by
  rw [onAnalyzeUrlFinished_of_object qt w reply obj herr hdoc, onAnalyzeUrlFinished_object_risk]
  generalize hc : (QJsonObject.value obj "classification").toString = c
  have hPc : QString.compareCIEqZero qt c "Phishing" = true ↔ EqualIgnoringCase qt c "phishing" := by
    rw [compareCIEqZero_iff]
    unfold EqualIgnoringCase at *
    rw [hP]
  have hLc : QString.compareCIEqZero qt c "Legitimate" = true ↔
      EqualIgnoringCase qt c "legitimate" := by
    rw [compareCIEqZero_iff]
    unfold EqualIgnoringCase at *
    rw [hL]
  have hex : EqualIgnoringCase qt c "phishing" → ¬ EqualIgnoringCase qt c "legitimate" := by
    intro h1 h2
    have e1 := foldCase_length qt "phishing"
    have e2 := foldCase_length qt "legitimate"
    unfold EqualIgnoringCase at h1 h2
    rw [← h1, h2, e2] at e1
    exact absurd e1 (by decide)
  have hempty : ¬ EqualIgnoringCase qt "" "phishing" ∧ ¬ EqualIgnoringCase qt "" "legitimate" :=
    ⟨not_equalIgnoringCase_of_length qt _ _ (by decide),
     not_equalIgnoringCase_of_length qt _ _ (by decide)⟩
  have key : ∀ c : String, ¬ EqualIgnoringCase qt c "phishing" →
      ¬ EqualIgnoringCase qt c "legitimate" →
      (QString.compareCIEqZero qt c "Phishing" = true ↔ EqualIgnoringCase qt c "phishing") →
      (QString.compareCIEqZero qt c "Legitimate" = true ↔ EqualIgnoringCase qt c "legitimate") →
      (if QString.compareCIEqZero qt c "Legitimate" = true then (20 : Int)
        else if QString.compareCIEqZero qt c "Phishing" = true then 85 else 55) = 55 := by
    intro c h1 h2 e1 e2
    rw [if_neg (fun h => h2 (e2.1 h)), if_neg (fun h => h1 (e1.1 h))]
  refine ⟨?_, ?_, ?_, ?_, ?_, ?_⟩
  · intro h
    rw [if_neg (fun hl => hex h (hLc.1 hl)), if_pos (hPc.2 h)]
  · intro h
    rw [if_pos (hLc.2 h)]
  · intro h1 h2
    exact key c h1 h2 hPc hLc
  · intro he
    subst he
    exact key "" hempty.1 hempty.2 hPc hLc
  · intro hmiss
    have he : c = "" := by
      rw [← hc, hmiss]
      rfl
    subst he
    exact key "" hempty.1 hempty.2 hPc hLc
  · exact (onAnalyzeUrlFinished_object_shown qt w obj).1

theorem scan_risk_score_witness :
    (scanReply [("classification", QJsonValue.string "Phishing")]).error = 0 ∧
    (scanReply [("classification", QJsonValue.string "Phishing")]).document
      = QJsonDocument.object [("classification", QJsonValue.string "Phishing")] ∧
    EqualIgnoringCase QtText.ascii "Phishing" "phishing" ∧
    EqualIgnoringCase QtText.ascii "Legitimate" "legitimate" ∧
    (MainWindow.onAnalyzeUrlFinished QtText.ascii
        { MainWindow.new with urlInput := "http://evil.test" }
        (some (scanReply [("classification", QJsonValue.string "Phishing")]))).currentRiskScore
      = 85 ∧
    (MainWindow.onAnalyzeUrlFinished QtText.ascii
        { MainWindow.new with urlInput := "http://evil.test" }
        (some (scanReply [("classification", QJsonValue.string "Phishing")]))).currentAnalysisUrl
      = "http://evil.test" :=
  ⟨rfl, rfl, by decide, by decide,
   (scan_risk_score QtText.ascii { MainWindow.new with urlInput := "http://evil.test" }
      (scanReply [("classification", QJsonValue.string "Phishing")])
      [("classification", QJsonValue.string "Phishing")] rfl rfl (by decide) (by decide)).1
      (by decide),
   by decide⟩

/-! ## Scan submission -/

theorem dropWhile_all_of_forall_mem (p : Char → Bool) (l : List Char)
    (h : ∀ c ∈ l.dropWhile p, p c = true) : ∀ c ∈ l, p c = true := by
  induction l with
  | nil => intro c hc; cases hc
  | cons a t ih =>
    by_cases ha : p a = true
    · rw [List.dropWhile_cons_of_pos ha] at h
      intro c hc
      rcases List.mem_cons.1 hc with rfl | hc
      · exact ha
      · exact ih h c hc
    · rw [List.dropWhile_cons_of_neg ha] at h
      exact h

/-- The trimmed text is empty exactly when every character is white space. -/
theorem trimmed_isEmpty_iff (qt : QtText) (s : String) :
    QString.isEmpty (QString.trimmed qt s) = true ↔ ∀ c ∈ s.data, qt.isSpace c = true := by
  simp only [QString.isEmpty, QString.trimmed, List.isEmpty_iff, List.reverse_eq_nil_iff,
    List.dropWhile_eq_nil_iff, List.mem_reverse]
  constructor
  · exact dropWhile_all_of_forall_mem qt.isSpace s.data
  · intro h c hc
    exact h c ((List.dropWhile_sublist qt.isSpace).subset hc)

/-- C4: a scan submission whose input is empty or white space only issues no
request and changes nothing but the warning shown; a submission whose trimmed
input is not empty issues exactly one POST whose payload `url` is the trimmed
text. -/
theorem scan_submission_validation (qt : QtText) (w : MainWindow) :
    ((∀ c ∈ w.urlInput.data, qt.isSpace c = true) →
      MainWindow.onScanUrlClicked qt w
        = { w with messageBoxes := w.messageBoxes ++
              [{ kind := MessageKind.warning, title := "Empty URL",
                 text := "Please enter a URL to scan." }] } ∧
      (MainWindow.onScanUrlClicked qt w).networkManager = w.networkManager ∧
      (MainWindow.onScanUrlClicked qt w).scanResultsLayout = w.scanResultsLayout ∧
      (MainWindow.onScanUrlClicked qt w).currentAnalysisUrl = w.currentAnalysisUrl ∧
      (MainWindow.onScanUrlClicked qt w).currentRiskScore = w.currentRiskScore ∧
      (MainWindow.onScanUrlClicked qt w).currentClassification = w.currentClassification) ∧
    (¬ (∀ c ∈ w.urlInput.data, qt.isSpace c = true) →
      QString.isEmpty (QString.trimmed qt w.urlInput) = false ∧
      (MainWindow.onScanUrlClicked qt w).networkManager.sent
        = w.networkManager.sent ++
            [{ verb := HttpVerb.post, url := "http://127.0.0.1:8000/analyze_url",
               contentType := some "application/json",
               payload := some [("url", QJsonValue.string (QString.trimmed qt w.urlInput))] }] ∧
      (MainWindow.onScanUrlClicked qt w).networkManager.inFlight
        = w.networkManager.inFlight + 1 ∧
      (MainWindow.onScanUrlClicked qt w).execNetworkManager = w.execNetworkManager) := by
  constructor
  · intro h
    have he := (trimmed_isEmpty_iff qt w.urlInput).2 h
    simp [MainWindow.onScanUrlClicked, he]
  · intro h
    have he : QString.isEmpty (QString.trimmed qt w.urlInput) = false := by
      cases hc : QString.isEmpty (QString.trimmed qt w.urlInput) with
      | false => rfl
      | true => exact absurd ((trimmed_isEmpty_iff qt w.urlInput).1 hc) h
    simp [MainWindow.onScanUrlClicked, he, QNetworkAccessManager.issue]

theorem scan_submission_validation_witness :
    (∀ c ∈ ({ MainWindow.new with urlInput := "   " } : MainWindow).urlInput.data,
      QtText.ascii.isSpace c = true) ∧
    (MainWindow.onScanUrlClicked QtText.ascii
        { MainWindow.new with urlInput := "   " }).networkManager.sent = [] ∧
    ¬ (∀ c ∈ ({ MainWindow.new with urlInput := "  http://evil.test " } : MainWindow).urlInput.data,
      QtText.ascii.isSpace c = true) ∧
    (MainWindow.onScanUrlClicked QtText.ascii
        { MainWindow.new with urlInput := "  http://evil.test " }).networkManager.sent
      = [{ verb := HttpVerb.post, url := "http://127.0.0.1:8000/analyze_url",
           contentType := some "application/json",
           payload := some [("url", QJsonValue.string "http://evil.test")] }] :=
  ⟨by decide,
   congrArg QNetworkAccessManager.sent
     ((scan_submission_validation QtText.ascii
        { MainWindow.new with urlInput := "   " }).1 (by decide)).2.1,
   by decide,
   ((scan_submission_validation QtText.ascii
      { MainWindow.new with urlInput := "  http://evil.test " }).2 (by decide)).2.1⟩

/-! ## Poll replies -/

theorem onExecPollFinished_of_delivers (qt : QtText) (w : MainWindow) (reply : QNetworkReply)
    (S : QJsonArray) (h : reply.Delivers S) :
    MainWindow.onExecPollFinished qt w (some reply)
      = { w with
          execFiles := S
          executableMonitorPage :=
            w.executableMonitorPage.setDetectedFiles (filteredView qt S w.execFilterText) } := by
  obtain ⟨he, hu, hd⟩ := h
  simp [MainWindow.onExecPollFinished, he, hu, hd, onExecPollFinished_rows_eq]

theorem onExecPollFinished_of_fails (qt : QtText) (w : MainWindow) (reply : QNetworkReply)
    (h : reply.Fails) : MainWindow.onExecPollFinished qt w (some reply) = w := by
  simp only [MainWindow.onExecPollFinished]
  by_cases he : reply.error ≠ 0
  · rw [if_pos he]
  · rw [if_neg he]
    by_cases hu : QString.endsWith reply.url "/api/files" = true
    · rw [if_pos hu]
      have hdoc : ∀ S : QJsonArray, reply.document ≠ QJsonDocument.array S := by
        rcases h with h | h | h
        · exact absurd h he
        · intro S hS
          rw [h] at hS
          cases hS
        · exact h
      split
      · next items hd => exact absurd hd (hdoc items)
      · rfl
    · rw [if_neg hu]

theorem foldl_onExecPollFinished_fails (qt : QtText) (fails : List QNetworkReply)
    (hall : ∀ r ∈ fails, r.Fails) (w : MainWindow) :
    fails.foldl (fun s r => MainWindow.onExecPollFinished qt s (some r)) w = w := by
  induction fails generalizing w with
  | nil => rfl
  | cons r rest ih =>
    rw [List.foldl_cons, onExecPollFinished_of_fails qt w r (hall r (List.mem_cons_self r rest))]
    exact ih (fun r' hr' => hall r' (List.mem_cons_of_mem r hr')) w

/-- C5: handling a failed poll reply (network error, unparseable body, or a
document that is not an array) leaves the whole state unchanged, so the cached
snapshot, the filter text, the displayed rows and the poll timer are as before;
hence after a successful poll delivering `A` and any number of failed polls the
cache is still `A`, its rows are still shown and the timer is as it was. -/
theorem failed_poll_keeps_state (qt : QtText) (w : MainWindow) (reply okReply : QNetworkReply)
    (A : QJsonArray) (fails : List QNetworkReply) (hfail : reply.Fails)
    (hok : okReply.Delivers A) (hall : ∀ r ∈ fails, r.Fails) :
    MainWindow.onExecPollFinished qt w (some reply) = w ∧
    (fails.foldl (fun s r => MainWindow.onExecPollFinished qt s (some r))
        (MainWindow.onExecPollFinished qt w (some okReply))).execFiles = A ∧
    (fails.foldl (fun s r => MainWindow.onExecPollFinished qt s (some r))
        (MainWindow.onExecPollFinished qt w (some okReply))).executableMonitorPage.detectedTable
      = filteredView qt A w.execFilterText ∧
    (fails.foldl (fun s r => MainWindow.onExecPollFinished qt s (some r))
        (MainWindow.onExecPollFinished qt w (some okReply))).execFilterText = w.execFilterText ∧
    (fails.foldl (fun s r => MainWindow.onExecPollFinished qt s (some r))
        (MainWindow.onExecPollFinished qt w (some okReply))).execPollTimer = w.execPollTimer := by
  rw [foldl_onExecPollFinished_fails qt fails hall, onExecPollFinished_of_delivers qt w okReply A hok]
  exact ⟨onExecPollFinished_of_fails qt w reply hfail, rfl,
    setDetectedFiles_filteredView qt _ _ _, rfl, rfl⟩

theorem failed_poll_keeps_state_witness :
    (errorReply 1).Fails ∧ (inventoryReply scenarioSnapshot).Delivers scenarioSnapshot ∧
    (∀ r ∈ [errorReply 1, scanReply [], errorReply 99], r.Fails) ∧
    ([errorReply 1, scanReply [], errorReply 99].foldl
        (fun s r => MainWindow.onExecPollFinished QtText.ascii s (some r))
        (MainWindow.onExecPollFinished QtText.ascii MainWindow.new.onExecutableMonitorClicked
          (some (inventoryReply scenarioSnapshot)))).execFiles = scenarioSnapshot ∧
    ([errorReply 1, scanReply [], errorReply 99].foldl
        (fun s r => MainWindow.onExecPollFinished QtText.ascii s (some r))
        (MainWindow.onExecPollFinished QtText.ascii MainWindow.new.onExecutableMonitorClicked
          (some (inventoryReply scenarioSnapshot)))).execPollTimer.active = true :=
  have hfails : ∀ r ∈ [errorReply 1, scanReply [], errorReply 99], r.Fails := by
    intro r hr
    simp only [List.mem_cons, List.mem_singleton, List.not_mem_nil, or_false] at hr
    rcases hr with rfl | rfl | rfl
    · exact Or.inl (by decide)
    · exact Or.inr (Or.inr (fun S h => by cases h))
    · exact Or.inl (by decide)
  have h := failed_poll_keeps_state QtText.ascii MainWindow.new.onExecutableMonitorClicked
    (errorReply 1) (inventoryReply scenarioSnapshot) scenarioSnapshot
    [errorReply 1, scanReply [], errorReply 99] (Or.inl (by decide)) ⟨rfl, by decide, rfl⟩ hfails
  ⟨Or.inl (by decide), ⟨rfl, by decide, rfl⟩, hfails, h.2.1, by rw [h.2.2.2.2]; rfl⟩

/-- C6: after two successful polls delivering `N` and then `M` the cached
snapshot is `M`, the displayed rows are the filtered view of `M` alone, and
the state is the one a single poll delivering `M` would have produced: every
displayed row is the row of a record of `M`. -/
theorem snapshot_replaced_wholesale (qt : QtText) (w : MainWindow) (r1 r2 : QNetworkReply)
    (N M : QJsonArray) (h1 : r1.Delivers N) (h2 : r2.Delivers M) :
    (MainWindow.onExecPollFinished qt (MainWindow.onExecPollFinished qt w (some r1))
        (some r2)).execFiles = M ∧
    (MainWindow.onExecPollFinished qt (MainWindow.onExecPollFinished qt w (some r1))
        (some r2)).executableMonitorPage.detectedTable = filteredView qt M w.execFilterText ∧
    MainWindow.onExecPollFinished qt (MainWindow.onExecPollFinished qt w (some r1)) (some r2)
      = MainWindow.onExecPollFinished qt w (some r2) ∧
    (∀ row ∈ (MainWindow.onExecPollFinished qt (MainWindow.onExecPollFinished qt w (some r1))
        (some r2)).executableMonitorPage.detectedTable,
      ∃ v ∈ M, ContainsIgnoringCase qt (recordName v) w.execFilterText ∧ row = listRow qt v) := by
  rw [onExecPollFinished_of_delivers qt _ r2 M h2, onExecPollFinished_of_delivers qt w r1 N h1,
    onExecPollFinished_of_delivers qt w r2 M h2]
  refine ⟨rfl, setDetectedFiles_filteredView qt _ _ _, rfl, ?_⟩
  intro row hrow
  have hrow2 : row ∈ filteredView qt M w.execFilterText := by
    have := setDetectedFiles_filteredView qt
      (w.executableMonitorPage.setDetectedFiles (filteredView qt N w.execFilterText)) M
      w.execFilterText
    simpa [this] using hrow
  simp only [filteredView, List.mem_map, List.mem_filter, decide_eq_true_eq] at hrow2
  obtain ⟨v, ⟨hv, hc⟩, rfl⟩ := hrow2
  exact ⟨v, hv, hc, rfl⟩

theorem snapshot_replaced_wholesale_witness :
    (inventoryReply scenarioSnapshot).Delivers scenarioSnapshot ∧
    (inventoryReply [QJsonValue.object [("name", QJsonValue.string "new.exe"),
        ("type", QJsonValue.string "error")]]).Delivers
      [QJsonValue.object [("name", QJsonValue.string "new.exe"),
        ("type", QJsonValue.string "error")]] ∧
    (MainWindow.onExecPollFinished QtText.ascii
        (MainWindow.onExecPollFinished QtText.ascii MainWindow.new
          (some (inventoryReply scenarioSnapshot)))
        (some (inventoryReply [QJsonValue.object [("name", QJsonValue.string "new.exe"),
          ("type", QJsonValue.string "error")]]))).executableMonitorPage.detectedTable
      = [["new.exe", "Error", ""]] :=
  ⟨⟨rfl, by decide, rfl⟩, ⟨rfl, by decide, rfl⟩,
   (snapshot_replaced_wholesale QtText.ascii MainWindow.new (inventoryReply scenarioSnapshot)
      (inventoryReply [QJsonValue.object [("name", QJsonValue.string "new.exe"),
        ("type", QJsonValue.string "error")]])
      scenarioSnapshot
      [QJsonValue.object [("name", QJsonValue.string "new.exe"),
        ("type", QJsonValue.string "error")]]
      ⟨rfl, by decide, rfl⟩ ⟨rfl, by decide, rfl⟩).2.1.trans (by decide)⟩

/-! ## The poll timer -/

theorem elapse_add (a b : Nat) (w : MainWindow) :
    MainWindow.elapse (a + b) w = MainWindow.elapse b (MainWindow.elapse a w) := by
  induction a generalizing w with
  | zero => simp [MainWindow.elapse]
  | succ a ih =>
    have : a + 1 + b = (a + b) + 1 := by omega
    rw [this]
    simp only [MainWindow.elapse]
    exact ih _

/-- While less than the remaining time passes, an active timer only counts down. -/
theorem elapse_of_lt (n : Nat) (w : MainWindow) (hact : w.execPollTimer.active = true)
    (hlt : n < w.execPollTimer.remaining) :
    MainWindow.elapse n w
      = { w with execPollTimer :=
            { w.execPollTimer with remaining := w.execPollTimer.remaining - n } } := by
  induction n generalizing w with
  | zero => rfl
  | succ n ih =>
    have h1 : ¬ w.execPollTimer.remaining ≤ 1 := by omega
    have hstep : MainWindow.elapse1 w
        = { w with execPollTimer :=
              { w.execPollTimer with remaining := w.execPollTimer.remaining - 1 } } := by
      simp [MainWindow.elapse1, hact, h1]
    simp only [MainWindow.elapse]
    rw [hstep, ih _ (by exact hact) (by show n < w.execPollTimer.remaining - 1; omega)]
    simp only [Nat.sub_sub]
    rw [Nat.add_comm 1 n]

/-- When exactly the remaining time has passed, the timer fires once and starts
its next interval. -/
theorem elapse_remaining (w : MainWindow) (hact : w.execPollTimer.active = true)
    (hpos : 0 < w.execPollTimer.remaining) :
    MainWindow.elapse w.execPollTimer.remaining w
      = MainWindow.onExecPollTimeout
          { w with execPollTimer :=
              { w.execPollTimer with remaining := w.execPollTimer.interval } } := by
  obtain ⟨k, hk⟩ : ∃ k, w.execPollTimer.remaining = k + 1 := ⟨w.execPollTimer.remaining - 1, by omega⟩
  rw [hk, elapse_add k 1 w, elapse_of_lt k w hact (by omega)]
  simp [MainWindow.elapse, MainWindow.elapse1, hact, hk]

theorem elapse_interval_after_start :
    MainWindow.elapse 2000 MainWindow.new.onExecutableMonitorClicked
      = MainWindow.onExecPollTimeout MainWindow.new.onExecutableMonitorClicked :=
  elapse_remaining MainWindow.new.onExecutableMonitorClicked rfl (by decide)

theorem showDashboard_frame (w : MainWindow) :
    (MainWindow.showDashboard w).execFiles = w.execFiles ∧
    (MainWindow.showDashboard w).execFilterText = w.execFilterText ∧
    (MainWindow.showDashboard w).executableMonitorPage = w.executableMonitorPage ∧
    (MainWindow.showDashboard w).execNetworkManager = w.execNetworkManager ∧
    (MainWindow.showDashboard w).execPollTimer.active = false := by
  cases h : w.execPollTimer.active <;>
    simp [MainWindow.showDashboard, MainWindow.setActiveNavButton, QTimer.stop, h]

theorem showUrlDetection_frame (w : MainWindow) :
    (MainWindow.showUrlDetection w).execFiles = w.execFiles ∧
    (MainWindow.showUrlDetection w).execFilterText = w.execFilterText ∧
    (MainWindow.showUrlDetection w).executableMonitorPage = w.executableMonitorPage ∧
    (MainWindow.showUrlDetection w).execNetworkManager = w.execNetworkManager ∧
    (MainWindow.showUrlDetection w).execPollTimer.active = false := by
  cases h : w.execPollTimer.active <;>
    simp [MainWindow.showUrlDetection, MainWindow.setActiveNavButton, QTimer.stop, h]

theorem execReplyFinished_of_delivers (qt : QtText) (w : MainWindow) (reply : QNetworkReply)
    (S : QJsonArray) (h : reply.Delivers S) :
    (MainWindow.execReplyFinished qt w reply).execFiles = S ∧
    (MainWindow.execReplyFinished qt w reply).executableMonitorPage.detectedTable
      = filteredView qt S w.execFilterText ∧
    (MainWindow.execReplyFinished qt w reply).execPollTimer = w.execPollTimer := by
  unfold MainWindow.execReplyFinished
  rw [onExecPollFinished_of_delivers qt _ reply S h]
  exact ⟨rfl, setDetectedFiles_filteredView qt _ _ _, rfl⟩

/-- C7, as the specification states it, fails: the window is constructed, the
monitor is opened, 2000 ms later the timer issues a fetch, the dashboard is
opened while that fetch is in flight (the timer stops), and the reply then
arrives with the scenario snapshot.  The cache and the table are updated. -/
theorem late_reply_after_stop_counterexample :
    (MainWindow.elapse 2000 MainWindow.new.onExecutableMonitorClicked).execNetworkManager.inFlight
      = 1 ∧
    (MainWindow.showDashboard
      (MainWindow.elapse 2000 MainWindow.new.onExecutableMonitorClicked)).execPollTimer.active
      = false ∧
    (MainWindow.showDashboard
      (MainWindow.elapse 2000 MainWindow.new.onExecutableMonitorClicked)).execFiles.length = 0 ∧
    (MainWindow.execReplyFinished QtText.ascii
      (MainWindow.showDashboard (MainWindow.elapse 2000 MainWindow.new.onExecutableMonitorClicked))
      (inventoryReply scenarioSnapshot)).execFiles.length = 2 ∧
    (MainWindow.showDashboard
      (MainWindow.elapse 2000
        MainWindow.new.onExecutableMonitorClicked)).executableMonitorPage.detectedTable
      = [["svchost.exe", "Safe", "1h ago"], ["malicious_payload.exe", "Critical", "2h ago"],
         ["explorer.exe", "Safe", ""], ["unknown_installer.msi", "Suspicious", "5h ago"]] ∧
    (MainWindow.execReplyFinished QtText.ascii
      (MainWindow.showDashboard (MainWindow.elapse 2000 MainWindow.new.onExecutableMonitorClicked))
      (inventoryReply scenarioSnapshot)).executableMonitorPage.detectedTable
      = [["svchost.exe", "Safe", ""], ["bad.exe", "Suspicious", ""]] := by
  rw [elapse_interval_after_start]
  exact ⟨rfl, rfl, rfl, rfl, by decide, by decide⟩

/-- C7 as amended: stopping the poll timer by a switch to the dashboard or to
the URL-detection view does not discard a fetch in flight; when its reply
delivers the array `A` it is applied like any other: the cache becomes `A` and
the table shows the filtered view of `A`, while the timer stays stopped. -/
theorem late_reply_after_stop_is_applied (qt : QtText) (w : MainWindow) (reply : QNetworkReply)
    (A : QJsonArray) (h : reply.Delivers A) :
    (MainWindow.execReplyFinished qt (MainWindow.showDashboard w) reply).execFiles = A ∧
    (MainWindow.execReplyFinished qt
        (MainWindow.showDashboard w) reply).executableMonitorPage.detectedTable
      = filteredView qt A w.execFilterText ∧
    (MainWindow.execReplyFinished qt (MainWindow.showDashboard w) reply).execPollTimer.active
      = false ∧
    (MainWindow.execReplyFinished qt (MainWindow.showUrlDetection w) reply).execFiles = A ∧
    (MainWindow.execReplyFinished qt
        (MainWindow.showUrlDetection w) reply).executableMonitorPage.detectedTable
      = filteredView qt A w.execFilterText ∧
    (MainWindow.execReplyFinished qt (MainWindow.showUrlDetection w) reply).execPollTimer.active
      = false := by
  have hd := execReplyFinished_of_delivers qt (MainWindow.showDashboard w) reply A h
  have hu := execReplyFinished_of_delivers qt (MainWindow.showUrlDetection w) reply A h
  have fd := showDashboard_frame w
  have fu := showUrlDetection_frame w
  refine ⟨hd.1, ?_, ?_, hu.1, ?_, ?_⟩
  · rw [hd.2.1, fd.2.1]
  · rw [hd.2.2, fd.2.2.2.2]
  · rw [hu.2.1, fu.2.1]
  · rw [hu.2.2, fu.2.2.2.2]

theorem late_reply_after_stop_is_applied_witness :
    (inventoryReply scenarioSnapshot).Delivers scenarioSnapshot ∧
    (MainWindow.execReplyFinished QtText.ascii
      (MainWindow.showDashboard (MainWindow.onExecPollTimeout
        MainWindow.new.onExecutableMonitorClicked))
      (inventoryReply scenarioSnapshot)).executableMonitorPage.detectedTable
      = [["svchost.exe", "Safe", ""], ["bad.exe", "Suspicious", ""]] :=
  ⟨⟨rfl, by decide, rfl⟩,
   (late_reply_after_stop_is_applied QtText.ascii
      (MainWindow.onExecPollTimeout MainWindow.new.onExecutableMonitorClicked)
      (inventoryReply scenarioSnapshot) scenarioSnapshot ⟨rfl, by decide, rfl⟩).2.1.trans
      (by decide)⟩

theorem onExecutableMonitorClicked_idle (w : MainWindow) (hidle : w.execPollTimer.active = false) :
    MainWindow.onExecutableMonitorClicked w
      = { w with
          currentPage := Page.executableMonitor
          activeNavBtn := NavButton.executableMonitorBtn
          execPollTimer := w.execPollTimer.start } := by
  simp [MainWindow.onExecutableMonitorClicked, MainWindow.setActiveNavButton, hidle]

theorem onExecutableMonitorClicked_polling (w : MainWindow)
    (hact : w.execPollTimer.active = true) :
    MainWindow.onExecutableMonitorClicked w
      = { w with
          currentPage := Page.executableMonitor
          activeNavBtn := NavButton.executableMonitorBtn } := by
  simp [MainWindow.onExecutableMonitorClicked, MainWindow.setActiveNavButton, hact]

/-- C8, as the specification states it, fails: opening the monitor on the
freshly constructed window (timer idle) starts the timer but issues no request;
none has been issued 1999 ms later, the first one is issued at 2000 ms. -/
theorem start_issues_no_fetch_counterexample :
    MainWindow.new.execPollTimer.active = false ∧
    MainWindow.new.onExecutableMonitorClicked.execPollTimer.active = true ∧
    MainWindow.new.onExecutableMonitorClicked.execNetworkManager.sent = [] ∧
    MainWindow.new.onExecutableMonitorClicked.execNetworkManager.inFlight = 0 ∧
    (MainWindow.elapse 1999 MainWindow.new.onExecutableMonitorClicked).execNetworkManager.sent
      = [] ∧
    (MainWindow.elapse 2000 MainWindow.new.onExecutableMonitorClicked).execNetworkManager.sent
      = [execPollRequest] := by
  rw [elapse_interval_after_start,
    elapse_of_lt 1999 MainWindow.new.onExecutableMonitorClicked rfl (by decide)]
  exact ⟨rfl, rfl, rfl, rfl, rfl, rfl⟩

/-- C8 as amended: starting polling from the idle state arms the repeating
timer with its interval (2000 ms in the constructed window) and issues no
request; no request is issued before one interval has elapsed, and when it has
elapsed exactly one GET of the inventory endpoint is issued and the timer is
armed again. -/
theorem start_arms_timer_without_fetch (w : MainWindow)
    (hidle : w.execPollTimer.active = false) (hpos : 0 < w.execPollTimer.interval) :
    (MainWindow.onExecutableMonitorClicked w).execPollTimer
      = { interval := w.execPollTimer.interval, active := true,
          remaining := w.execPollTimer.interval } ∧
    (MainWindow.onExecutableMonitorClicked w).execNetworkManager = w.execNetworkManager ∧
    (∀ n, n < w.execPollTimer.interval →
      (MainWindow.elapse n (MainWindow.onExecutableMonitorClicked w)).execNetworkManager
        = w.execNetworkManager) ∧
    (MainWindow.elapse w.execPollTimer.interval
        (MainWindow.onExecutableMonitorClicked w)).execNetworkManager
      = { sent := w.execNetworkManager.sent ++ [execPollRequest],
          inFlight := w.execNetworkManager.inFlight + 1 } ∧
    (MainWindow.elapse w.execPollTimer.interval
        (MainWindow.onExecutableMonitorClicked w)).execPollTimer
      = { interval := w.execPollTimer.interval, active := true,
          remaining := w.execPollTimer.interval } ∧
    MainWindow.new.execPollTimer.interval = 2000 := by
  have hc := onExecutableMonitorClicked_idle w hidle
  have hact : (MainWindow.onExecutableMonitorClicked w).execPollTimer.active = true := by
    rw [hc]; rfl
  have hrem : (MainWindow.onExecutableMonitorClicked w).execPollTimer.remaining
      = w.execPollTimer.interval := by
    rw [hc]; rfl
  refine ⟨by rw [hc]; rfl, by rw [hc], ?_, ?_, ?_, rfl⟩
  · intro n hn
    rw [elapse_of_lt n _ hact (by rw [hrem]; exact hn), hc]
  · have h := elapse_remaining _ hact (by rw [hrem]; exact hpos)
    rw [hrem] at h
    rw [h, hc]
    rfl
  · have h := elapse_remaining _ hact (by rw [hrem]; exact hpos)
    rw [hrem] at h
    rw [h, hc]
    rfl

theorem start_arms_timer_without_fetch_witness :
    MainWindow.new.execPollTimer.active = false ∧ 0 < MainWindow.new.execPollTimer.interval ∧
    (MainWindow.onExecutableMonitorClicked MainWindow.new).execNetworkManager
      = MainWindow.new.execNetworkManager ∧
    (MainWindow.elapse MainWindow.new.execPollTimer.interval
        (MainWindow.onExecutableMonitorClicked MainWindow.new)).execNetworkManager
      = { sent := MainWindow.new.execNetworkManager.sent ++ [execPollRequest],
          inFlight := MainWindow.new.execNetworkManager.inFlight + 1 } :=
  ⟨rfl, by decide,
   (start_arms_timer_without_fetch MainWindow.new rfl (by decide)).2.1,
   (start_arms_timer_without_fetch MainWindow.new rfl (by decide)).2.2.2.1⟩

/-- C9: while the poll timer is active, `onExecutableMonitorClicked` leaves the
timer as it is (its remaining time included) and issues no request, so clicking
twice gives the state of clicking once; while the timer is inactive,
`showDashboard` and `showUrlDetection` change only the displayed page and the
active navigation button, and both are idempotent. -/
theorem start_stop_idempotent (w : MainWindow) :
    (w.execPollTimer.active = true →
      (MainWindow.onExecutableMonitorClicked w).execPollTimer = w.execPollTimer ∧
      (MainWindow.onExecutableMonitorClicked w).execNetworkManager = w.execNetworkManager) ∧
    MainWindow.onExecutableMonitorClicked (MainWindow.onExecutableMonitorClicked w)
      = MainWindow.onExecutableMonitorClicked w ∧
    (w.execPollTimer.active = false →
      MainWindow.showDashboard w
        = { w with currentPage := Page.dashboard, activeNavBtn := NavButton.dashboardBtn } ∧
      MainWindow.showUrlDetection w
        = { w with currentPage := Page.urlDetection,
                   activeNavBtn := NavButton.urlDetectionBtn }) ∧
    MainWindow.showDashboard (MainWindow.showDashboard w) = MainWindow.showDashboard w ∧
    MainWindow.showUrlDetection (MainWindow.showUrlDetection w)
      = MainWindow.showUrlDetection w := by
  refine ⟨?_, ?_, ?_, ?_, ?_⟩
  · intro hact
    rw [onExecutableMonitorClicked_polling w hact]
    exact ⟨rfl, rfl⟩
  · cases h : w.execPollTimer.active
    · rw [onExecutableMonitorClicked_idle w h, onExecutableMonitorClicked_polling _ rfl]
    · rw [onExecutableMonitorClicked_polling w h, onExecutableMonitorClicked_polling _ (by exact h)]
  · intro hidle
    simp [MainWindow.showDashboard, MainWindow.showUrlDetection, MainWindow.setActiveNavButton,
      hidle]
  · cases h : w.execPollTimer.active <;>
      simp [MainWindow.showDashboard, MainWindow.setActiveNavButton, QTimer.stop, h]
  · cases h : w.execPollTimer.active <;>
      simp [MainWindow.showUrlDetection, MainWindow.setActiveNavButton, QTimer.stop, h]

theorem start_stop_idempotent_witness :
    (MainWindow.elapse 700 MainWindow.new.onExecutableMonitorClicked).execPollTimer.active
      = true ∧
    (MainWindow.onExecutableMonitorClicked
      (MainWindow.elapse 700 MainWindow.new.onExecutableMonitorClicked)).execPollTimer
      = { interval := 2000, active := true, remaining := 1300 } ∧
    MainWindow.new.execPollTimer.active = false ∧
    (MainWindow.showDashboard MainWindow.new).execPollTimer = MainWindow.new.execPollTimer := by
  have he := elapse_of_lt 700 MainWindow.new.onExecutableMonitorClicked rfl (by decide)
  have hact : (MainWindow.elapse 700
      MainWindow.new.onExecutableMonitorClicked).execPollTimer.active = true := by
    rw [he]; rfl
  refine ⟨hact, ?_, rfl, ?_⟩
  · rw [((start_stop_idempotent _).1 hact).1, he]
    rfl
  · rw [((start_stop_idempotent MainWindow.new).2.2.1 rfl).1]

/-! ## Row activation -/

theorem onExecItemActivated_loop_eq (qt : QtText) (exeName : String)
    (page : ExecutableMonitorPage) (files : QJsonArray) :
    MainWindow.onExecItemActivated_loop qt exeName page files
      = match files.find? (fun v => decide (EqualIgnoringCase qt (recordName v) exeName)) with
        | some v => MainWindow.onExecItemActivated_show qt page v.toObject
        | none => page := by
  induction files with
  | nil => rfl
  | cons v rest ih =>
    by_cases h : EqualIgnoringCase qt (recordName v) exeName
    · have hc := (compareCIEqZero_iff qt (recordName v) exeName).2 h
      unfold recordName at hc
      simp [MainWindow.onExecItemActivated_loop, List.find?_cons, h, hc]
    · have hc : QString.compareCIEqZero qt (recordName v) exeName = false := by
        cases hb : QString.compareCIEqZero qt (recordName v) exeName with
        | false => rfl
        | true => exact absurd ((compareCIEqZero_iff _ _ _).1 hb) h
      unfold recordName at hc
      simp [MainWindow.onExecItemActivated_loop, List.find?_cons, h, hc, ih]

theorem onExecItemActivated_show_calls (qt : QtText) (page : ExecutableMonitorPage)
    (obj : QJsonObject) :
    (MainWindow.onExecItemActivated_show qt page obj).analysisDetailsCalls
      = page.analysisDetailsCalls + 1 := rfl

/-- C10: row activation hands a record of the snapshot to the detail view
exactly when some record has a name equal to the activated name ignoring case;
the record shown is the first such record of the whole snapshot, whatever the
filter text is, and activation commutes with a filter change, so a record
hidden by the filter is still resolved. -/
theorem activation_resolves_by_name (qt : QtText) (w : MainWindow) (n f : String) :
    ((MainWindow.onExecItemActivated qt w n).executableMonitorPage.analysisDetailsCalls
        = w.executableMonitorPage.analysisDetailsCalls + 1 ↔
      ∃ v ∈ w.execFiles, EqualIgnoringCase qt (recordName v) n) ∧
    (MainWindow.onExecItemActivated qt w n).executableMonitorPage
      = (match w.execFiles.find? (fun v => decide (EqualIgnoringCase qt (recordName v) n)) with
        | some v => MainWindow.onExecItemActivated_show qt w.executableMonitorPage v.toObject
        | none => w.executableMonitorPage) ∧
    MainWindow.onExecItemActivated qt { w with execFilterText := f } n
      = { MainWindow.onExecItemActivated qt w n with execFilterText := f } ∧
    MainWindow.onExecItemActivated qt (MainWindow.onExecFilterChanged qt w f) n
      = MainWindow.onExecFilterChanged qt (MainWindow.onExecItemActivated qt w n) f := by
  have hpage : (MainWindow.onExecItemActivated qt w n).executableMonitorPage
      = (match w.execFiles.find? (fun v => decide (EqualIgnoringCase qt (recordName v) n)) with
        | some v => MainWindow.onExecItemActivated_show qt w.executableMonitorPage v.toObject
        | none => w.executableMonitorPage) := by
    simp only [MainWindow.onExecItemActivated, onExecItemActivated_loop_eq]
  refine ⟨?_, hpage, rfl, ?_⟩
  · rw [hpage]
    cases hfind : w.execFiles.find? (fun v => decide (EqualIgnoringCase qt (recordName v) n)) with
    | none =>
      have hnone := List.find?_eq_none.1 hfind
      constructor
      · intro h
        simp at h
      · rintro ⟨v, hv, hn⟩
        exact absurd (decide_eq_true hn) (hnone v hv)
    | some v =>
      have hp := List.find?_some hfind
      have hm := List.mem_of_find?_eq_some hfind
      constructor
      · intro _
        exact ⟨v, hm, of_decide_eq_true hp⟩
      · intro _
        exact onExecItemActivated_show_calls qt _ _
  · simp only [MainWindow.onExecItemActivated, MainWindow.onExecFilterChanged,
      onExecItemActivated_loop_eq]
    cases w.execFiles.find? (fun v => decide (EqualIgnoringCase qt (recordName v) n)) <;> rfl

theorem activation_resolves_by_name_witness :
    (MainWindow.onExecItemActivated QtText.ascii
      (MainWindow.onExecFilterChanged QtText.ascii
        { MainWindow.new with execFiles := scenarioSnapshot } "svc")
      "BAD.EXE").executableMonitorPage.detectedTable = [["svchost.exe", "Safe", ""]] ∧
    (MainWindow.onExecItemActivated QtText.ascii
      (MainWindow.onExecFilterChanged QtText.ascii
        { MainWindow.new with execFiles := scenarioSnapshot } "svc")
      "BAD.EXE").executableMonitorPage.selectedNameLabel = "bad.exe" ∧
    (MainWindow.onExecItemActivated QtText.ascii
      (MainWindow.onExecFilterChanged QtText.ascii
        { MainWindow.new with execFiles := scenarioSnapshot } "svc")
      "BAD.EXE").executableMonitorPage.riskLevelLabel = "SUSPICIOUS" ∧
    ∃ v ∈ scenarioSnapshot, EqualIgnoringCase QtText.ascii (recordName v) "BAD.EXE" := by
  have h := activation_resolves_by_name QtText.ascii
    (MainWindow.onExecFilterChanged QtText.ascii
      { MainWindow.new with execFiles := scenarioSnapshot } "svc") "BAD.EXE" "svc"
  exact ⟨by decide, by decide, by decide, h.1.1 (by decide)⟩

/-! ## Row activation: absent names, duplicates, missing details -/

theorem onExecItemActivated_of_first_match (qt : QtText) (w : MainWindow) (n : String)
    (pre post : QJsonArray) (v : QJsonValue) (hS : w.execFiles = pre ++ v :: post)
    (hpre : ∀ u ∈ pre, ¬ EqualIgnoringCase qt (recordName u) n)
    (hv : EqualIgnoringCase qt (recordName v) n) :
    (MainWindow.onExecItemActivated qt w n).executableMonitorPage
      = MainWindow.onExecItemActivated_show qt w.executableMonitorPage v.toObject := by
  have hfind : w.execFiles.find? (fun u => decide (EqualIgnoringCase qt (recordName u) n))
      = some v := by
    rw [hS]
    clear hS
    induction pre with
    | nil => simp [List.find?_cons, hv]
    | cons a rest ih =>
      have ha : ¬ EqualIgnoringCase qt (recordName a) n := hpre a (List.mem_cons_self a rest)
      simp only [List.cons_append, List.find?_cons, ha, decide_False]
      exact ih (fun u hu => hpre u (List.mem_cons_of_mem a hu))
  simp only [MainWindow.onExecItemActivated, onExecItemActivated_loop_eq, hfind]

/-- C11: when no record of the snapshot has a name equal to the activated name
ignoring case (in particular when the snapshot is empty), `onExecItemActivated`
does not run `setAnalysisDetails` and leaves the whole state, the detail view
included, exactly as it was. -/
theorem activation_of_absent_name (qt : QtText) (w : MainWindow) (n : String)
    (habs : ∀ v ∈ w.execFiles, ¬ EqualIgnoringCase qt (recordName v) n) :
    MainWindow.onExecItemActivated qt w n = w ∧
    (MainWindow.onExecItemActivated qt w n).executableMonitorPage.analysisDetailsCalls
      = w.executableMonitorPage.analysisDetailsCalls ∧
    (MainWindow.onExecItemActivated qt w n).executableMonitorPage = w.executableMonitorPage := by
  have hfind : w.execFiles.find? (fun u => decide (EqualIgnoringCase qt (recordName u) n))
      = none := by
    rw [List.find?_eq_none]
    intro v hv
    simpa using habs v hv
  have h : MainWindow.onExecItemActivated qt w n = w := by
    simp only [MainWindow.onExecItemActivated, onExecItemActivated_loop_eq, hfind]
  rw [h]
  exact ⟨rfl, rfl, rfl⟩

theorem activation_of_absent_name_witness :
    (∀ v ∈ ({ MainWindow.new with execFiles := scenarioSnapshot } : MainWindow).execFiles,
      ¬ EqualIgnoringCase QtText.ascii (recordName v) "ghost.exe") ∧
    (∀ v ∈ MainWindow.new.execFiles, ¬ EqualIgnoringCase QtText.ascii (recordName v) "bad.exe") ∧
    (MainWindow.onExecItemActivated QtText.ascii
        { MainWindow.new with execFiles := scenarioSnapshot }
        "ghost.exe").executableMonitorPage.selectedNameLabel = "malicious_payload.exe" ∧
    (MainWindow.onExecItemActivated QtText.ascii MainWindow.new
        "bad.exe").executableMonitorPage.analysisDetailsCalls = 0 :=
  ⟨by decide, by decide,
   (congrArg ExecutableMonitorPage.selectedNameLabel
      (activation_of_absent_name QtText.ascii
        { MainWindow.new with execFiles := scenarioSnapshot } "ghost.exe" (by decide)).2.2).trans
      rfl,
   (activation_of_absent_name QtText.ascii MainWindow.new "bad.exe" (by decide)).2.1.trans rfl⟩

/-- C12, as the specification states it, fails: in a snapshot with two records
named `dup.exe` the lookup shows the first one, not the last one. -/
theorem duplicate_name_counterexample :
    (MainWindow.onExecItemActivated QtText.ascii
        { MainWindow.new with execFiles := duplicateSnapshot }
        "dup.exe").executableMonitorPage.selectedPathLabel = "C:/first" ∧
    (MainWindow.onExecItemActivated QtText.ascii
        { MainWindow.new with execFiles := duplicateSnapshot }
        "dup.exe").executableMonitorPage.selectedPathLabel ≠ "C:/second" := by
  constructor <;> decide

/-- C12 as amended: when several records of a snapshot have a name equal to the
looked-up name ignoring case, the lookup resolves to the one that occurs first
in the backend response order, whatever follows it. -/
theorem duplicate_name_first_wins (qt : QtText) (w : MainWindow) (n : String)
    (pre post : QJsonArray) (v : QJsonValue) (hS : w.execFiles = pre ++ v :: post)
    (hpre : ∀ u ∈ pre, ¬ EqualIgnoringCase qt (recordName u) n)
    (hv : EqualIgnoringCase qt (recordName v) n) :
    (MainWindow.onExecItemActivated qt w n).executableMonitorPage
      = MainWindow.onExecItemActivated_show qt w.executableMonitorPage v.toObject ∧
    (MainWindow.onExecItemActivated qt w n).executableMonitorPage.selectedNameLabel
      = recordName v ∧
    (MainWindow.onExecItemActivated qt w n).executableMonitorPage.selectedPathLabel
      = (QJsonObject.value v.toObject "path").toString := by
  rw [onExecItemActivated_of_first_match qt w n pre post v hS hpre hv]
  exact ⟨rfl, rfl, rfl⟩

theorem duplicate_name_first_wins_witness :
    ({ MainWindow.new with execFiles := duplicateSnapshot } : MainWindow).execFiles
      = [] ++ QJsonValue.object [("name", QJsonValue.string "dup.exe"),
            ("path", QJsonValue.string "C:/first")]
          :: [QJsonValue.object [("name", QJsonValue.string "dup.exe"),
            ("path", QJsonValue.string "C:/second")]] ∧
    EqualIgnoringCase QtText.ascii
      (recordName (QJsonValue.object [("name", QJsonValue.string "dup.exe"),
        ("path", QJsonValue.string "C:/first")])) "DUP.EXE" ∧
    (MainWindow.onExecItemActivated QtText.ascii
        { MainWindow.new with execFiles := duplicateSnapshot }
        "DUP.EXE").executableMonitorPage.selectedPathLabel = "C:/first" :=
  ⟨rfl, by decide,
   (duplicate_name_first_wins QtText.ascii { MainWindow.new with execFiles := duplicateSnapshot }
      "DUP.EXE" []
      [QJsonValue.object [("name", QJsonValue.string "dup.exe"),
        ("path", QJsonValue.string "C:/second")]]
      (QJsonValue.object [("name", QJsonValue.string "dup.exe"),
        ("path", QJsonValue.string "C:/first")])
      rfl (fun u hu => by cases hu) (by decide)).2.2.trans rfl⟩

theorem toString_of_undefined (x : QJsonValue) (h : x = QJsonValue.undefined) :
    x.toString = "" := by
  rw [h]; rfl

theorem toArray_of_undefined (x : QJsonValue) (h : x = QJsonValue.undefined) :
    x.toArray = [] := by
  rw [h]; rfl

/-- C13, as the specification states it, fails for the SHA-256 value: for a
record without a details object the value handed to the detail view is the
truncation mark `...`, so the label does not show an empty digest. -/
theorem absent_sha256_counterexample :
    (MainWindow.onExecItemActivated QtText.ascii { MainWindow.new with execFiles := bareSnapshot }
        "bare.exe").executableMonitorPage.md5Label = "MD5: " ∧
    (MainWindow.onExecItemActivated QtText.ascii { MainWindow.new with execFiles := bareSnapshot }
        "bare.exe").executableMonitorPage.sha256Label = "SHA256: ..." ∧
    (MainWindow.onExecItemActivated QtText.ascii { MainWindow.new with execFiles := bareSnapshot }
        "bare.exe").executableMonitorPage.sha256Label ≠ "SHA256: " ++ "" := by
  refine ⟨?_, ?_, ?_⟩ <;> decide

/-- C13 as amended: for the record found by activation, every detail field
that is absent from the payload is handed to the detail view as the empty
value (file type, size, rule, mime and md5 are empty strings, the list of
suspicious strings is empty), except the SHA-256 value, which is the empty
prefix followed by the truncation mark `...`; a record without a details
object lacks every field, and the lookup still runs `setAnalysisDetails`.
Upper-casing is assumed to keep the empty string empty. -/
theorem absent_details_resolve_empty (qt : QtText) (w : MainWindow) (n : String)
    (pre post : QJsonArray) (v : QJsonValue) (hS : w.execFiles = pre ++ v :: post)
    (hpre : ∀ u ∈ pre, ¬ EqualIgnoringCase qt (recordName u) n)
    (hv : EqualIgnoringCase qt (recordName v) n) (hup : qt.toUpper "" = "") :
    (QJsonObject.value (recordDetails v) "ext" = QJsonValue.undefined →
      (MainWindow.onExecItemActivated qt w n).executableMonitorPage.fileTypeLabel = "") ∧
    (QJsonObject.value (recordDetails v) "size" = QJsonValue.undefined →
      (MainWindow.onExecItemActivated qt w n).executableMonitorPage.fileSizeLabel = "") ∧
    (QJsonObject.value (recordDetails v) "rule" = QJsonValue.undefined →
      (MainWindow.onExecItemActivated qt w n).executableMonitorPage.detectionLabel = "") ∧
    (QJsonObject.value (recordDetails v) "mime" = QJsonValue.undefined →
      (MainWindow.onExecItemActivated qt w n).executableMonitorPage.mimeLabel = "MIME: " ++ "") ∧
    (QJsonObject.value (recordDetails v) "hash" = QJsonValue.undefined →
      (MainWindow.onExecItemActivated qt w n).executableMonitorPage.md5Label = "MD5: " ++ "") ∧
    (QJsonObject.value (recordDetails v) "sha256" = QJsonValue.undefined →
      (MainWindow.onExecItemActivated qt w n).executableMonitorPage.sha256Label
        = "SHA256: " ++ "...") ∧
    (QJsonObject.value (recordDetails v) "suspicious_strings" = QJsonValue.undefined →
      (MainWindow.onExecItemActivated qt w n).executableMonitorPage.stringsContainer = []) ∧
    (QJsonObject.value v.toObject "details" = QJsonValue.undefined →
      ∀ key, QJsonObject.value (recordDetails v) key = QJsonValue.undefined) ∧
    (MainWindow.onExecItemActivated qt w n).executableMonitorPage.analysisDetailsCalls
      = w.executableMonitorPage.analysisDetailsCalls + 1 := by
  rw [onExecItemActivated_of_first_match qt w n pre post v hS hpre hv]
  unfold recordDetails
  refine ⟨?_, ?_, ?_, ?_, ?_, ?_, ?_, ?_, rfl⟩
  · intro h
    simp only [MainWindow.onExecItemActivated_show, ExecutableMonitorPage.setAnalysisDetails,
      toString_of_undefined _ h, hup]
  · intro h
    simp only [MainWindow.onExecItemActivated_show, ExecutableMonitorPage.setAnalysisDetails,
      toString_of_undefined _ h]
  · intro h
    simp only [MainWindow.onExecItemActivated_show, ExecutableMonitorPage.setAnalysisDetails,
      toString_of_undefined _ h]
  · intro h
    simp only [MainWindow.onExecItemActivated_show, ExecutableMonitorPage.setAnalysisDetails,
      toString_of_undefined _ h]
  · intro h
    simp only [MainWindow.onExecItemActivated_show, ExecutableMonitorPage.setAnalysisDetails,
      toString_of_undefined _ h]
  · intro h
    simp only [MainWindow.onExecItemActivated_show, ExecutableMonitorPage.setAnalysisDetails,
      toString_of_undefined _ h]
    rfl
  · intro h
    simp only [MainWindow.onExecItemActivated_show, ExecutableMonitorPage.setAnalysisDetails,
      toArray_of_undefined _ h, List.map_nil]
  · intro h key
    rw [h]
    rfl

theorem absent_details_resolve_empty_witness :
    ({ MainWindow.new with execFiles := bareSnapshot } : MainWindow).execFiles
      = [] ++ QJsonValue.object [("name", QJsonValue.string "bare.exe")] :: [] ∧
    EqualIgnoringCase QtText.ascii
      (recordName (QJsonValue.object [("name", QJsonValue.string "bare.exe")])) "bare.exe" ∧
    QtText.ascii.toUpper "" = "" ∧
    (MainWindow.onExecItemActivated QtText.ascii { MainWindow.new with execFiles := bareSnapshot }
        "bare.exe").executableMonitorPage.fileTypeLabel = "" ∧
    (MainWindow.onExecItemActivated QtText.ascii { MainWindow.new with execFiles := bareSnapshot }
        "bare.exe").executableMonitorPage.stringsContainer = [] :=
  have h := absent_details_resolve_empty QtText.ascii
    { MainWindow.new with execFiles := bareSnapshot } "bare.exe" [] []
    (QJsonValue.object [("name", QJsonValue.string "bare.exe")]) rfl
    (fun u hu => by cases hu) (by decide) (by decide)
  ⟨rfl, by decide, by decide, h.1 rfl, h.2.2.2.2.2.2.1 rfl⟩

/-! ## Factors of a scan response -/

theorem factorRow_cases (v : QJsonValue) :
    (QString.startsWith (featureDescription v) "✅" = true ∧
      factorRow v = { factor := featureName v, statusText := "Legitimate",
                      desc := featureDescription v, badgeColor := "#22C55E" }) ∨
    (QString.startsWith (featureDescription v) "✅" = false ∧
      QString.startsWith (featureDescription v) "⚠️" = true ∧
      factorRow v = { factor := featureName v, statusText := "Phishing",
                      desc := featureDescription v, badgeColor := "#EF4444" }) ∨
    (QString.startsWith (featureDescription v) "✅" = false ∧
      QString.startsWith (featureDescription v) "⚠️" = false ∧
      factorRow v = { factor := featureName v, statusText := "Neutral",
                      desc := featureDescription v, badgeColor := "#F59E0B" }) := by
  cases h1 : QString.startsWith (featureDescription v) "✅"
  · cases h2 : QString.startsWith (featureDescription v) "⚠️"
    · right; right
      refine ⟨rfl, rfl, ?_⟩
      simp [factorRow, factorVerdict, verdictColor, h1, h2]
    · right; left
      refine ⟨rfl, rfl, ?_⟩
      simp [factorRow, factorVerdict, verdictColor, h1, h2]
  · left
    refine ⟨rfl, ?_⟩
    simp [factorRow, factorVerdict, verdictColor, h1]

/-- The factor loop appends the row of each feature and counts its verdict. -/
theorem onAnalyzeUrlFinished_factors_eq (F : QJsonArray) (acc : FactorTally) :
    (MainWindow.onAnalyzeUrlFinished_factors F acc).rows = acc.rows ++ F.map factorRow ∧
    (MainWindow.onAnalyzeUrlFinished_factors F acc).legit
      = acc.legit + (verdictCount "Legitimate" (F.map factorRow) : Int) ∧
    (MainWindow.onAnalyzeUrlFinished_factors F acc).phish
      = acc.phish + (verdictCount "Phishing" (F.map factorRow) : Int) ∧
    (MainWindow.onAnalyzeUrlFinished_factors F acc).neutral
      = acc.neutral + (verdictCount "Neutral" (F.map factorRow) : Int) := by
  induction F generalizing acc with
  | nil => simp [MainWindow.onAnalyzeUrlFinished_factors, verdictCount]
  | cons v rest ih =>
    have hcount : ∀ (verdict : String),
        verdictCount verdict (List.map factorRow (v :: rest))
          = verdictCount verdict (List.map factorRow rest)
            + (if (factorRow v).statusText = verdict then 1 else 0) := by
      intro verdict
      simp [verdictCount, List.countP_cons]
    rcases factorRow_cases v with ⟨h1, hr⟩ | ⟨h1, h2, hr⟩ | ⟨h1, h2, hr⟩
    · have hstep : MainWindow.onAnalyzeUrlFinished_factors (v :: rest) acc
          = MainWindow.onAnalyzeUrlFinished_factors rest
              ⟨acc.rows ++ [factorRow v], acc.legit + 1, acc.phish, acc.neutral⟩ := by
        unfold featureDescription at h1
        rw [hr]
        simp [MainWindow.onAnalyzeUrlFinished_factors, h1, featureName, featureDescription]
      obtain ⟨i1, i2, i3, i4⟩ := ih ⟨acc.rows ++ [factorRow v], acc.legit + 1, acc.phish, acc.neutral⟩
      rw [hstep, i1, i2, i3, i4, hcount, hcount, hcount, hr]
      refine ⟨by simp [hr], ?_, ?_, ?_⟩
      · simp only [if_true, Nat.cast_add, Nat.cast_one]; omega
      · simp
      · simp
    · have hstep : MainWindow.onAnalyzeUrlFinished_factors (v :: rest) acc
          = MainWindow.onAnalyzeUrlFinished_factors rest
              ⟨acc.rows ++ [factorRow v], acc.legit, acc.phish + 1, acc.neutral⟩ := by
        unfold featureDescription at h1 h2
        rw [hr]
        simp [MainWindow.onAnalyzeUrlFinished_factors, h1, h2, featureName, featureDescription]
      obtain ⟨i1, i2, i3, i4⟩ := ih ⟨acc.rows ++ [factorRow v], acc.legit, acc.phish + 1, acc.neutral⟩
      rw [hstep, i1, i2, i3, i4, hcount, hcount, hcount, hr]
      refine ⟨by simp [hr], ?_, ?_, ?_⟩
      · simp
      · simp only [if_true, Nat.cast_add, Nat.cast_one]; omega
      · simp
    · have hstep : MainWindow.onAnalyzeUrlFinished_factors (v :: rest) acc
          = MainWindow.onAnalyzeUrlFinished_factors rest
              ⟨acc.rows ++ [factorRow v], acc.legit, acc.phish, acc.neutral + 1⟩ := by
        unfold featureDescription at h1 h2
        rw [hr]
        simp [MainWindow.onAnalyzeUrlFinished_factors, h1, h2, featureName, featureDescription]
      obtain ⟨i1, i2, i3, i4⟩ := ih ⟨acc.rows ++ [factorRow v], acc.legit, acc.phish, acc.neutral + 1⟩
      rw [hstep, i1, i2, i3, i4, hcount, hcount, hcount, hr]
      refine ⟨by simp [hr], ?_, ?_, ?_⟩
      · simp
      · simp
      · simp only [if_true, Nat.cast_add, Nat.cast_one]; omega

theorem verdictCount_cons (verdict : String) (r : FactorRow) (rows : List FactorRow) :
    verdictCount verdict (r :: rows)
      = verdictCount verdict rows + (if r.statusText = verdict then 1 else 0) := by
  simp [verdictCount, List.countP_cons]

/-- Every row carries exactly one of the three verdicts. -/
theorem verdictCount_sum (F : QJsonArray) :
    verdictCount "Legitimate" (F.map factorRow) + verdictCount "Phishing" (F.map factorRow)
      + verdictCount "Neutral" (F.map factorRow) = F.length := by
  induction F with
  | nil => rfl
  | cons v rest ih =>
    simp only [List.map_cons, verdictCount_cons, List.length_cons]
    rcases factorRow_cases v with ⟨_, hr⟩ | ⟨_, _, hr⟩ | ⟨_, _, hr⟩ <;>
      · rw [hr]
        simp only [String.reduceEq, if_true, if_false]
        omega

theorem factorVerdict_empty : factorVerdict "" = "Neutral" := by decide

/-- C14: the verdict of each factor is read off its own description alone:
Legitimate when the description begins with the check mark U+2705, otherwise
Phishing when it begins with the warning sign U+26A0 followed by U+FE0F,
otherwise Neutral; an empty or missing description is Neutral. -/
theorem factor_verdict_of_description (F : QJsonArray) (acc : FactorTally) :
    (MainWindow.onAnalyzeUrlFinished_factors F acc).rows.map FactorRow.statusText
      = acc.rows.map FactorRow.statusText
          ++ F.map (fun v => factorVerdict (featureDescription v)) ∧
    (∀ d, QString.startsWith d "✅" = true → factorVerdict d = "Legitimate") ∧
    (∀ d, QString.startsWith d "✅" = false → QString.startsWith d "⚠️" = true →
      factorVerdict d = "Phishing") ∧
    (∀ d, QString.startsWith d "✅" = false → QString.startsWith d "⚠️" = false →
      factorVerdict d = "Neutral") ∧
    factorVerdict "" = "Neutral" ∧
    (∀ v, QJsonObject.value v.toObject "description" = QJsonValue.undefined →
      factorVerdict (featureDescription v) = "Neutral") ∧
    "✅".data = [Char.ofNat 0x2705] ∧ "⚠️".data = [Char.ofNat 0x26A0, Char.ofNat 0xFE0F] := by
  refine ⟨?_, ?_, ?_, ?_, factorVerdict_empty, ?_, by decide, by decide⟩
  · rw [(onAnalyzeUrlFinished_factors_eq F acc).1]
    simp [factorRow, Function.comp_def]
  · intro d h
    simp [factorVerdict, h]
  · intro d h1 h2
    simp [factorVerdict, h1, h2]
  · intro d h1 h2
    simp [factorVerdict, h1, h2]
  · intro v h
    have : featureDescription v = "" := toString_of_undefined _ h
    rw [this]
    exact factorVerdict_empty

theorem factor_verdict_of_description_witness :
    (MainWindow.onAnalyzeUrlFinished_factors (featureList scenarioFeatures)
        { rows := [], legit := 0, phish := 0, neutral := 0 }).rows.map FactorRow.statusText
      = ["Legitimate", "Phishing", "Neutral"] ∧
    QString.startsWith "⚠ sign without the variation selector" "⚠️" = false ∧
    factorVerdict "⚠ sign without the variation selector" = "Neutral" :=
  ⟨(factor_verdict_of_description (featureList scenarioFeatures)
      { rows := [], legit := 0, phish := 0, neutral := 0 }).1.trans (by decide),
   by decide,
   (factor_verdict_of_description [] { rows := [], legit := 0, phish := 0, neutral := 0 }).2.2.2.1
     "⚠ sign without the variation selector" (by decide) (by decide)⟩

theorem onAnalyzeUrlFinished_object_factors (qt : QtText) (w : MainWindow) (obj : QJsonObject) :
    (MainWindow.onAnalyzeUrlFinished_object qt w obj).factorsTable
      = (MainWindow.onAnalyzeUrlFinished_factors (featureList obj)
          { rows := [], legit := 0, phish := 0, neutral := 0 }).rows ∧
    (MainWindow.onAnalyzeUrlFinished_object qt w obj).legitimateCountLabel.text
      = toString (MainWindow.onAnalyzeUrlFinished_factors (featureList obj)
          { rows := [], legit := 0, phish := 0, neutral := 0 }).legit ∧
    (MainWindow.onAnalyzeUrlFinished_object qt w obj).phishingCountLabel.text
      = toString (MainWindow.onAnalyzeUrlFinished_factors (featureList obj)
          { rows := [], legit := 0, phish := 0, neutral := 0 }).phish ∧
    (MainWindow.onAnalyzeUrlFinished_object qt w obj).neutralCountLabel.text
      = toString (MainWindow.onAnalyzeUrlFinished_factors (featureList obj)
          { rows := [], legit := 0, phish := 0, neutral := 0 }).neutral := by
  unfold MainWindow.onAnalyzeUrlFinished_object featureList
  dsimp only
  split_ifs <;> exact ⟨rfl, rfl, rfl, rfl⟩

/-- C15: on a successful scan reply with feature list `F` the factor table is
the list of the rows of `F`, one per element and in order; the three tally
labels show the numbers of rows with verdict Legitimate, Phishing and Neutral,
which add up to the length of `F`; table and tallies are the same whatever the
state before the reply was. -/
theorem factor_table_and_tallies (qt : QtText) (w w2 : MainWindow) (reply : QNetworkReply)
    (obj : QJsonObject) (herr : reply.error = 0)
    (hdoc : reply.document = QJsonDocument.object obj) :
    (MainWindow.onAnalyzeUrlFinished qt w (some reply)).factorsTable
      = (featureList obj).map factorRow ∧
    (MainWindow.onAnalyzeUrlFinished qt w (some reply)).legitimateCountLabel.text
      = toString (verdictCount "Legitimate"
          (MainWindow.onAnalyzeUrlFinished qt w (some reply)).factorsTable) ∧
    (MainWindow.onAnalyzeUrlFinished qt w (some reply)).phishingCountLabel.text
      = toString (verdictCount "Phishing"
          (MainWindow.onAnalyzeUrlFinished qt w (some reply)).factorsTable) ∧
    (MainWindow.onAnalyzeUrlFinished qt w (some reply)).neutralCountLabel.text
      = toString (verdictCount "Neutral"
          (MainWindow.onAnalyzeUrlFinished qt w (some reply)).factorsTable) ∧
    verdictCount "Legitimate" (MainWindow.onAnalyzeUrlFinished qt w (some reply)).factorsTable
      + verdictCount "Phishing" (MainWindow.onAnalyzeUrlFinished qt w (some reply)).factorsTable
      + verdictCount "Neutral" (MainWindow.onAnalyzeUrlFinished qt w (some reply)).factorsTable
      = (featureList obj).length ∧
    (MainWindow.onAnalyzeUrlFinished qt w2 (some reply)).factorsTable
      = (MainWindow.onAnalyzeUrlFinished qt w (some reply)).factorsTable ∧
    (MainWindow.onAnalyzeUrlFinished qt w2 (some reply)).legitimateCountLabel.text
      = (MainWindow.onAnalyzeUrlFinished qt w (some reply)).legitimateCountLabel.text ∧
    (MainWindow.onAnalyzeUrlFinished qt w2 (some reply)).phishingCountLabel.text
      = (MainWindow.onAnalyzeUrlFinished qt w (some reply)).phishingCountLabel.text ∧
    (MainWindow.onAnalyzeUrlFinished qt w2 (some reply)).neutralCountLabel.text
      = (MainWindow.onAnalyzeUrlFinished qt w (some reply)).neutralCountLabel.text := by
  rw [onAnalyzeUrlFinished_of_object qt w reply obj herr hdoc,
    onAnalyzeUrlFinished_of_object qt w2 reply obj herr hdoc]
  obtain ⟨a1, a2, a3, a4⟩ := onAnalyzeUrlFinished_object_factors qt w obj
  obtain ⟨b1, b2, b3, b4⟩ := onAnalyzeUrlFinished_object_factors qt w2 obj
  obtain ⟨f1, f2, f3, f4⟩ := onAnalyzeUrlFinished_factors_eq (featureList obj)
    { rows := [], legit := 0, phish := 0, neutral := 0 }
  have hrows : (MainWindow.onAnalyzeUrlFinished_object qt w obj).factorsTable
      = (featureList obj).map factorRow := by
    rw [a1, f1]; rfl
  rw [a2, a3, a4, b1, b2, b3, b4, ← a1, hrows, f2, f3, f4]
  refine ⟨rfl, ?_, ?_, ?_, verdictCount_sum _, rfl, rfl, rfl, rfl⟩
  · rw [Int.zero_add]; rfl
  · rw [Int.zero_add]; rfl
  · rw [Int.zero_add]; rfl

theorem factor_table_and_tallies_witness :
    (scanReply scenarioFeatures).error = 0 ∧
    (scanReply scenarioFeatures).document = QJsonDocument.object scenarioFeatures ∧
    (MainWindow.onAnalyzeUrlFinished QtText.ascii MainWindow.new
        (some (scanReply scenarioFeatures))).factorsTable.map FactorRow.factor
      = ["https", "ip", "length"] ∧
    (MainWindow.onAnalyzeUrlFinished QtText.ascii MainWindow.new
        (some (scanReply scenarioFeatures))).legitimateCountLabel.text = "1" ∧
    verdictCount "Legitimate" (List.map factorRow (featureList scenarioFeatures))
      + verdictCount "Phishing" (List.map factorRow (featureList scenarioFeatures))
      + verdictCount "Neutral" (List.map factorRow (featureList scenarioFeatures)) = 3 :=
  have h := factor_table_and_tallies QtText.ascii MainWindow.new MainWindow.new
    (scanReply scenarioFeatures) scenarioFeatures rfl rfl
  ⟨rfl, rfl, (congrArg (List.map FactorRow.factor) h.1).trans (by decide), by decide,
   by decide⟩

/-! ## Failed scan replies -/

/-- C16: a failed scan reply (network error, unparseable body, or a document
that is not an object) only shows a critical message box: the history, the
current URL, risk score and classification, the verdict, the factor table, the
tallies, the displayed page and the URL input text are unchanged. -/
theorem failed_scan_changes_nothing (qt : QtText) (w : MainWindow) (reply : QNetworkReply)
    (hfail : reply.ScanFails) :
    (∃ box : MessageBox, box.kind = MessageKind.critical ∧ box.title = "Scan Error" ∧
      MainWindow.onAnalyzeUrlFinished qt w (some reply)
        = { w with messageBoxes := w.messageBoxes ++ [box] }) ∧
    (MainWindow.onAnalyzeUrlFinished qt w (some reply)).scanResultsLayout
      = w.scanResultsLayout ∧
    (MainWindow.onAnalyzeUrlFinished qt w (some reply)).currentAnalysisUrl
      = w.currentAnalysisUrl ∧
    (MainWindow.onAnalyzeUrlFinished qt w (some reply)).currentRiskScore = w.currentRiskScore ∧
    (MainWindow.onAnalyzeUrlFinished qt w (some reply)).currentClassification
      = w.currentClassification ∧
    (MainWindow.onAnalyzeUrlFinished qt w (some reply)).verdictLabel = w.verdictLabel ∧
    (MainWindow.onAnalyzeUrlFinished qt w (some reply)).verdictSubtitleLabel
      = w.verdictSubtitleLabel ∧
    (MainWindow.onAnalyzeUrlFinished qt w (some reply)).factorsTable = w.factorsTable ∧
    (MainWindow.onAnalyzeUrlFinished qt w (some reply)).legitimateCountLabel
      = w.legitimateCountLabel ∧
    (MainWindow.onAnalyzeUrlFinished qt w (some reply)).phishingCountLabel
      = w.phishingCountLabel ∧
    (MainWindow.onAnalyzeUrlFinished qt w (some reply)).neutralCountLabel
      = w.neutralCountLabel ∧
    (MainWindow.onAnalyzeUrlFinished qt w (some reply)).currentPage = w.currentPage ∧
    (MainWindow.onAnalyzeUrlFinished qt w (some reply)).urlInput = w.urlInput ∧
    MainWindow.onAnalyzeUrlFinished qt w none = w := by
  have key : ∃ box : MessageBox, box.kind = MessageKind.critical ∧ box.title = "Scan Error" ∧
      MainWindow.onAnalyzeUrlFinished qt w (some reply)
        = { w with messageBoxes := w.messageBoxes ++ [box] } := by
    simp only [MainWindow.onAnalyzeUrlFinished]
    by_cases he : reply.error ≠ 0
    · rw [if_pos he]
      exact ⟨_, rfl, rfl, rfl⟩
    · rw [if_neg he]
      have hdoc : ∀ obj : QJsonObject, reply.document ≠ QJsonDocument.object obj := by
        rcases hfail with h | h | h
        · exact absurd h he
        · intro obj hobj
          rw [h] at hobj
          cases hobj
        · exact h
      split
      · next obj hd => exact absurd hd (hdoc obj)
      · exact ⟨_, rfl, rfl, rfl⟩
  obtain ⟨box, hk, ht, heq⟩ := key
  rw [heq]
  exact ⟨⟨box, hk, ht, rfl⟩, rfl, rfl, rfl, rfl, rfl, rfl, rfl, rfl, rfl, rfl, rfl, rfl, rfl⟩

theorem failed_scan_changes_nothing_witness :
    (errorReply 3).ScanFails ∧ (inventoryReply []).ScanFails ∧
    (MainWindow.onAnalyzeUrlFinished QtText.ascii
        { MainWindow.new with urlInput := "http://evil.test" }
        (some (errorReply 3))).urlInput = "http://evil.test" ∧
    (MainWindow.onAnalyzeUrlFinished QtText.ascii
        { MainWindow.new with urlInput := "http://evil.test" }
        (some (inventoryReply []))).scanResultsLayout = MainWindow.new.scanResultsLayout :=
  ⟨Or.inl (by decide), Or.inr (Or.inr (fun obj h => by cases h)),
   (failed_scan_changes_nothing QtText.ascii { MainWindow.new with urlInput := "http://evil.test" }
      (errorReply 3) (Or.inl (by decide))).2.2.2.2.2.2.2.2.2.2.2.2.1,
   (failed_scan_changes_nothing QtText.ascii { MainWindow.new with urlInput := "http://evil.test" }
      (inventoryReply []) (Or.inr (Or.inr (fun obj h => by cases h)))).2.1⟩

/-! ## History entry and detail view of one scan -/

/-- The history entry that a successful scan reply inserts before the stretch. -/
theorem onAnalyzeUrlFinished_object_history (qt : QtText) (w : MainWindow) (obj : QJsonObject) :
    ∃ item : ScanResultItem,
      (MainWindow.onAnalyzeUrlFinished_object qt w obj).scanResultsLayout
        = insertWidget w.scanResultsLayout ((w.scanResultsLayout.length : Int) - 1)
            (LayoutItem.widget item) ∧
      item.url = (if QString.isEmpty (QString.trimmed qt w.urlInput) then "(unknown)"
                  else QString.trimmed qt w.urlInput) ∧
      item.riskScore
        = (if QString.compareCIEqZero qt (QJsonObject.value obj "classification").toString
              "Legitimate" then 25
           else if QString.compareCIEqZero qt (QJsonObject.value obj "classification").toString
              "Phishing" then 85
           else 55) := by
  unfold MainWindow.onAnalyzeUrlFinished_object
  dsimp only
  by_cases hL : QString.compareCIEqZero qt (QJsonObject.value obj "classification").toString
      "Legitimate" = true
  · simp only [hL, if_true]
    split_ifs <;> exact ⟨_, rfl, rfl, rfl⟩
  · by_cases hP : QString.compareCIEqZero qt (QJsonObject.value obj "classification").toString
        "Phishing" = true
    · simp only [hL, hP, if_true]
      split_ifs <;> exact ⟨_, rfl, rfl, rfl⟩
    · simp only [hL, hP]
      split_ifs <;> exact ⟨_, rfl, rfl, rfl⟩

/-- C17 fails on the code for a Legitimate result: the detail view of the call
shows risk 20, but the history entry appended by the same call captured risk
25, which is the score shown when that entry is clicked. -/
theorem history_risk_mismatch_for_legitimate :
    legitimateScanState.currentRiskScore = 20 ∧
    historyEntries legitimateScanState.scanResultsLayout
      = [{ status := "Malicious", url := "https://malicious.site/phishing", type := "malicious",
           iconText := "✗", riskScore := 85 },
         { status := "Suspicious", url := "https://suspicious.link/unknown", type := "suspicious",
           iconText := "⚠", riskScore := 55 },
         { status := "Safe", url := "https://example.com/login", type := "safe",
           iconText := "✓", riskScore := 25 },
         { status := "Safe", url := "https://ok.test", type := "safe",
           iconText := "✓", riskScore := 25 }] ∧
    (MainWindow.scanResultClicked legitimateScanState
        { status := "Safe", url := "https://ok.test", type := "safe",
          iconText := "✓", riskScore := 25 }).currentRiskScore = 25 := by
  refine ⟨?_, ?_, ?_⟩ <;> decide

/-- C18 fails on the code: for a classification that is neither "phishing" nor
"legitimate" (here the empty string and "maybe") the verdict label shows
"Legitimate", while the same reply gets risk 55 and the history status
"Suspicious". -/
theorem unknown_classification_shown_legitimate :
    (classifiedScanState "").verdictLabel.text = "Legitimate" ∧
    (classifiedScanState "").verdictSubtitleLabel.text = "This URL appears legitimate." ∧
    (classifiedScanState "").currentRiskScore = 55 ∧
    (classifiedScanState "maybe").verdictLabel.text = "Legitimate" ∧
    (classifiedScanState "maybe").currentRiskScore = 55 ∧
    (historyEntries (classifiedScanState "maybe").scanResultsLayout).map ScanResultItem.status
      = ["Malicious", "Suspicious", "Safe", "Suspicious"] ∧
    ¬ EqualIgnoringCase QtText.ascii "maybe" "phishing" ∧
    ¬ EqualIgnoringCase QtText.ascii "maybe" "legitimate" := by
  refine ⟨?_, ?_, ?_, ?_, ?_, ?_, ?_, ?_⟩ <;> decide

theorem isEmpty_iff_eq_empty (s : String) : QString.isEmpty s = true ↔ s = "" := by
  constructor
  · intro h
    have hd : s.data = [] := by simpa [QString.isEmpty] using h
    exact String.ext hd
  · intro h
    rw [h]
    rfl

/-- C19, as the specification states it, fails: `http://a.test` is submitted,
the field is then edited to `http://b.test` (or emptied) before the reply
arrives; the detail view and the history entry show the edited text, and for the
emptied field the history entry shows `(unknown)` while the detail view shows
the empty string.  The same happens without any edit when the URL is submitted
twice: the first reply clears the field, so the second reply records
`(unknown)`. -/
theorem url_read_at_reply_time_counterexample :
    (submittedState "http://a.test").networkManager.sent
      = [{ verb := HttpVerb.post, url := "http://127.0.0.1:8000/analyze_url",
           contentType := some "application/json",
           payload := some [("url", QJsonValue.string "http://a.test")] }] ∧
    (MainWindow.scanReplyFinished QtText.ascii
        (MainWindow.urlInputEdited (submittedState "http://a.test") "http://b.test")
        (scanReply [("classification", QJsonValue.string "Phishing")])).currentAnalysisUrl
      = "http://b.test" ∧
    (historyEntries (MainWindow.scanReplyFinished QtText.ascii
        (MainWindow.urlInputEdited (submittedState "http://a.test") "http://b.test")
        (scanReply [("classification", QJsonValue.string "Phishing")])).scanResultsLayout).map
        ScanResultItem.url
      = ["https://malicious.site/phishing", "https://suspicious.link/unknown",
         "https://example.com/login", "http://b.test"] ∧
    (MainWindow.scanReplyFinished QtText.ascii
        (MainWindow.urlInputEdited (submittedState "http://a.test") "")
        (scanReply [("classification", QJsonValue.string "Phishing")])).currentAnalysisUrl
      = "" ∧
    (historyEntries (MainWindow.scanReplyFinished QtText.ascii
        (MainWindow.urlInputEdited (submittedState "http://a.test") "")
        (scanReply [("classification", QJsonValue.string "Phishing")])).scanResultsLayout).map
        ScanResultItem.url
      = ["https://malicious.site/phishing", "https://suspicious.link/unknown",
         "https://example.com/login", "(unknown)"] ∧
    (MainWindow.onScanUrlClicked QtText.ascii
        (submittedState "http://a.test")).networkManager.inFlight = 2 ∧
    (MainWindow.scanReplyFinished QtText.ascii
        (MainWindow.onScanUrlClicked QtText.ascii (submittedState "http://a.test"))
        (scanReply [("classification", QJsonValue.string "Phishing")])).urlInput = "" ∧
    (MainWindow.scanReplyFinished QtText.ascii
        (MainWindow.scanReplyFinished QtText.ascii
          (MainWindow.onScanUrlClicked QtText.ascii (submittedState "http://a.test"))
          (scanReply [("classification", QJsonValue.string "Phishing")]))
        (scanReply [("classification", QJsonValue.string "Phishing")])).currentAnalysisUrl
      = "" ∧
    (historyEntries (MainWindow.scanReplyFinished QtText.ascii
        (MainWindow.scanReplyFinished QtText.ascii
          (MainWindow.onScanUrlClicked QtText.ascii (submittedState "http://a.test"))
          (scanReply [("classification", QJsonValue.string "Phishing")]))
        (scanReply [("classification", QJsonValue.string "Phishing")])).scanResultsLayout).map
        ScanResultItem.url
      = ["https://malicious.site/phishing", "https://suspicious.link/unknown",
         "https://example.com/login", "http://a.test", "(unknown)"] := by
  refine ⟨rfl, ?_, ?_, ?_, ?_, ?_, ?_, ?_, ?_⟩ <;> decide

theorem onAnalyzeUrlFinished_object_clears (qt : QtText) (w : MainWindow) (obj : QJsonObject) :
    (MainWindow.onAnalyzeUrlFinished_object qt w obj).urlInput = "" := by
  unfold MainWindow.onAnalyzeUrlFinished_object
  rfl

theorem onScanUrlClicked_urlInput (qt : QtText) (w : MainWindow) :
    (MainWindow.onScanUrlClicked qt w).urlInput = w.urlInput := by
  unfold MainWindow.onScanUrlClicked
  dsimp only
  split_ifs <;> rfl

theorem onScanUrlClicked_sent (qt : QtText) (w : MainWindow)
    (h : QString.isEmpty (QString.trimmed qt w.urlInput) = false) :
    (MainWindow.onScanUrlClicked qt w).networkManager.sent
      = w.networkManager.sent ++
          [{ verb := HttpVerb.post, url := "http://127.0.0.1:8000/analyze_url",
             contentType := some "application/json",
             payload := some [("url", QJsonValue.string (QString.trimmed qt w.urlInput))] }] := by
  simp [MainWindow.onScanUrlClicked, h, QNetworkAccessManager.issue]

/-- C19 as amended: on a successful scan reply the URL shown in the detail view
is the trimmed text of the URL input field at the time the reply is handled,
and the URL of the appended history entry is that same text, or `(unknown)`
when it is empty (the detail view then shows the empty string); handling the
reply clears the field.  A submission leaves the field as it is, so for a
submission of `u` (the trimmed, non-empty text of the field, sent as the
payload of the POST) followed by any events after which the field again holds
the submitted text, the detail view and the history entry both show `u`. -/
theorem scan_url_is_input_at_reply_time (qt : QtText) (w w0 : MainWindow)
    (between : List Event) (reply : QNetworkReply)
    (obj : QJsonObject) (herr : reply.error = 0)
    (hdoc : reply.document = QJsonDocument.object obj) :
    (MainWindow.onAnalyzeUrlFinished qt w (some reply)).currentAnalysisUrl
      = QString.trimmed qt w.urlInput ∧
    (∃ item : ScanResultItem,
      (MainWindow.onAnalyzeUrlFinished qt w (some reply)).scanResultsLayout
        = insertWidget w.scanResultsLayout ((w.scanResultsLayout.length : Int) - 1)
            (LayoutItem.widget item) ∧
      (QString.isEmpty (QString.trimmed qt w.urlInput) = false →
        item.url = QString.trimmed qt w.urlInput ∧
        item.url = (MainWindow.onAnalyzeUrlFinished qt w (some reply)).currentAnalysisUrl) ∧
      (QString.isEmpty (QString.trimmed qt w.urlInput) = true →
        item.url = "(unknown)" ∧
        (MainWindow.onAnalyzeUrlFinished qt w (some reply)).currentAnalysisUrl = "")) ∧
    (MainWindow.onAnalyzeUrlFinished qt w (some reply)).urlInput = "" ∧
    (MainWindow.onScanUrlClicked qt w0).urlInput = w0.urlInput ∧
    (QString.isEmpty (QString.trimmed qt w0.urlInput) = false →
      (MainWindow.run qt (MainWindow.onScanUrlClicked qt w0) between).urlInput = w0.urlInput →
      (MainWindow.onScanUrlClicked qt w0).networkManager.sent
        = w0.networkManager.sent ++
            [{ verb := HttpVerb.post, url := "http://127.0.0.1:8000/analyze_url",
               contentType := some "application/json",
               payload := some [("url", QJsonValue.string (QString.trimmed qt w0.urlInput))] }] ∧
      (MainWindow.onAnalyzeUrlFinished qt
          (MainWindow.run qt (MainWindow.onScanUrlClicked qt w0) between)
          (some reply)).currentAnalysisUrl = QString.trimmed qt w0.urlInput ∧
      ∃ item : ScanResultItem,
        (MainWindow.onAnalyzeUrlFinished qt
            (MainWindow.run qt (MainWindow.onScanUrlClicked qt w0) between)
            (some reply)).scanResultsLayout
          = insertWidget (MainWindow.run qt (MainWindow.onScanUrlClicked qt w0)
                between).scanResultsLayout
              (((MainWindow.run qt (MainWindow.onScanUrlClicked qt w0)
                between).scanResultsLayout.length : Int) - 1)
              (LayoutItem.widget item) ∧
        item.url = QString.trimmed qt w0.urlInput) := by
  have hgen : ∀ x : MainWindow,
      (MainWindow.onAnalyzeUrlFinished qt x (some reply)).currentAnalysisUrl
        = QString.trimmed qt x.urlInput ∧
      ∃ item : ScanResultItem,
        (MainWindow.onAnalyzeUrlFinished qt x (some reply)).scanResultsLayout
          = insertWidget x.scanResultsLayout ((x.scanResultsLayout.length : Int) - 1)
              (LayoutItem.widget item) ∧
        item.url = (if QString.isEmpty (QString.trimmed qt x.urlInput) then "(unknown)"
                    else QString.trimmed qt x.urlInput) := by
    intro x
    rw [onAnalyzeUrlFinished_of_object qt x reply obj herr hdoc]
    obtain ⟨item, hl, hu, _⟩ := onAnalyzeUrlFinished_object_history qt x obj
    exact ⟨(onAnalyzeUrlFinished_object_shown qt x obj).2, item, hl, hu⟩
  obtain ⟨hurl, item, hl, hu⟩ := hgen w
  refine ⟨hurl, ⟨item, hl, ?_, ?_⟩, ?_, onScanUrlClicked_urlInput qt w0, ?_⟩
  · intro hne
    rw [hu, hurl]
    simp [hne]
  · intro he
    rw [hu, hurl]
    exact ⟨by simp [he], (isEmpty_iff_eq_empty _).1 he⟩
  · rw [onAnalyzeUrlFinished_of_object qt w reply obj herr hdoc]
    exact onAnalyzeUrlFinished_object_clears qt w obj
  · intro hne hfield
    obtain ⟨hurl2, item2, hl2, hu2⟩ :=
      hgen (MainWindow.run qt (MainWindow.onScanUrlClicked qt w0) between)
    rw [hfield] at hurl2 hu2
    refine ⟨onScanUrlClicked_sent qt w0 hne, hurl2, item2, hl2, ?_⟩
    rw [hu2]
    simp [hne]

theorem scan_url_is_input_at_reply_time_witness :
    (scanReply [("classification", QJsonValue.string "Phishing")]).error = 0 ∧
    (scanReply [("classification", QJsonValue.string "Phishing")]).document
      = QJsonDocument.object [("classification", QJsonValue.string "Phishing")] ∧
    QString.isEmpty (QString.trimmed QtText.ascii
      (MainWindow.urlInputEdited (MainWindow.showUrlDetection MainWindow.new)
        " http://a.test ").urlInput) = false ∧
    (MainWindow.run QtText.ascii (submittedState " http://a.test ")
      [Event.executableMonitorClicked, Event.millisecondElapsed]).urlInput
      = (MainWindow.urlInputEdited (MainWindow.showUrlDetection MainWindow.new)
          " http://a.test ").urlInput ∧
    (MainWindow.onAnalyzeUrlFinished QtText.ascii
        (MainWindow.run QtText.ascii (submittedState " http://a.test ")
          [Event.executableMonitorClicked, Event.millisecondElapsed])
        (some (scanReply [("classification", QJsonValue.string "Phishing")]))).currentAnalysisUrl
      = "http://a.test" ∧
    (historyEntries (MainWindow.onAnalyzeUrlFinished QtText.ascii
        (submittedState " http://a.test ")
        (some (scanReply [("classification", QJsonValue.string "Phishing")]))).scanResultsLayout).map
        ScanResultItem.url
      = ["https://malicious.site/phishing", "https://suspicious.link/unknown",
         "https://example.com/login", "http://a.test"] :=
  ⟨rfl, rfl, by decide, by decide,
   ((scan_url_is_input_at_reply_time QtText.ascii MainWindow.new
      (MainWindow.urlInputEdited (MainWindow.showUrlDetection MainWindow.new) " http://a.test ")
      [Event.executableMonitorClicked, Event.millisecondElapsed]
      (scanReply [("classification", QJsonValue.string "Phishing")])
      [("classification", QJsonValue.string "Phishing")] rfl rfl).2.2.2.2
      (by decide) (by decide)).2.1.trans (by decide),
   by decide⟩

/-! ## The poll timer and the displayed page -/

/-- C20 fails on the code: `showAnalysisDetails` switches to the
analysis-details page and leaves the poll timer as it is.  A URL is submitted,
the executable monitor is opened while the scan is in flight (the timer
starts), and the scan reply arrives: the analysis-details page is displayed
with the timer still active.  The two sibling switches stop the timer. -/
theorem timer_active_on_analysis_page :
    (∀ (w : MainWindow) (url : String) (riskScore : Int),
      (w.showAnalysisDetails url riskScore).currentPage = Page.analysisDetails ∧
      (w.showAnalysisDetails url riskScore).execPollTimer = w.execPollTimer) ∧
    (∀ w : MainWindow, (MainWindow.showDashboard w).execPollTimer.active = false ∧
      (MainWindow.showUrlDetection w).execPollTimer.active = false) ∧
    (submittedState "http://evil.test").networkManager.inFlight = 1 ∧
    (MainWindow.onExecutableMonitorClicked
      (submittedState "http://evil.test")).currentPage = Page.executableMonitor ∧
    (MainWindow.onExecutableMonitorClicked
      (submittedState "http://evil.test")).execPollTimer.active = true ∧
    (MainWindow.scanReplyFinished QtText.ascii
      (MainWindow.onExecutableMonitorClicked (submittedState "http://evil.test"))
      (scanReply [("classification", QJsonValue.string "Phishing")])).currentPage
      = Page.analysisDetails ∧
    (MainWindow.scanReplyFinished QtText.ascii
      (MainWindow.onExecutableMonitorClicked (submittedState "http://evil.test"))
      (scanReply [("classification", QJsonValue.string "Phishing")])).execPollTimer.active
      = true := by
  refine ⟨fun w url riskScore => ⟨rfl, rfl⟩,
    fun w => ⟨(showDashboard_frame w).2.2.2.2, (showUrlDetection_frame w).2.2.2.2⟩,
    ?_, ?_, ?_, ?_, ?_⟩ <;> decide

/-! ## Several fetches in flight -/

theorem onExecPollTimeout_timer (w : MainWindow) :
    (MainWindow.onExecPollTimeout w).execPollTimer = w.execPollTimer := rfl

/-- When one full interval passes on a freshly armed timer, exactly the timeout
handler runs. -/
theorem elapse_interval (w : MainWindow) (hact : w.execPollTimer.active = true)
    (hpos : 0 < w.execPollTimer.interval)
    (hrem : w.execPollTimer.remaining = w.execPollTimer.interval) :
    MainWindow.elapse w.execPollTimer.interval w = MainWindow.onExecPollTimeout w := by
  have h := elapse_remaining w hact (by rw [hrem]; exact hpos)
  rw [hrem] at h
  rw [h]
  have hw : ({ w with execPollTimer :=
      { w.execPollTimer with remaining := w.execPollTimer.interval } } : MainWindow) = w := by
    cases w with
    | mk a1 a2 a3 a4 a5 a6 a7 a8 timer a10 a11 a12 a13 a14 a15 a16 a17 a18 a19 a20 a21 a22 =>
      cases timer with
      | mk interval active remaining =>
        simp only at hrem
        subst hrem
        rfl
  rw [hw]

/-- After `k` full intervals without a reply the timeout handler has run `k`
times. -/
theorem elapse_intervals (k : Nat) (w : MainWindow) (hact : w.execPollTimer.active = true)
    (hpos : 0 < w.execPollTimer.interval)
    (hrem : w.execPollTimer.remaining = w.execPollTimer.interval) :
    MainWindow.elapse (k * w.execPollTimer.interval) w
      = (MainWindow.onExecPollTimeout)^[k] w := by
  induction k generalizing w with
  | zero => simp [MainWindow.elapse]
  | succ k ih =>
    have hmul : (k + 1) * w.execPollTimer.interval
        = w.execPollTimer.interval + k * w.execPollTimer.interval := by
      rw [Nat.succ_mul, Nat.add_comm]
    rw [hmul, elapse_add, elapse_interval w hact hpos hrem, Function.iterate_succ_apply]
    have h := ih (MainWindow.onExecPollTimeout w) hact hpos hrem
    exact h

theorem iterate_onExecPollTimeout_inFlight (k : Nat) (w : MainWindow) :
    ((MainWindow.onExecPollTimeout)^[k] w).execNetworkManager.inFlight
      = w.execNetworkManager.inFlight + k ∧
    ((MainWindow.onExecPollTimeout)^[k] w).execNetworkManager.sent.length
      = w.execNetworkManager.sent.length + k := by
  induction k generalizing w with
  | zero => exact ⟨rfl, rfl⟩
  | succ k ih =>
    rw [Function.iterate_succ_apply]
    obtain ⟨h1, h2⟩ := ih (MainWindow.onExecPollTimeout w)
    rw [h1, h2]
    simp [MainWindow.onExecPollTimeout, QNetworkAccessManager.issue]
    omega

theorem elapse_two_intervals_after_start :
    MainWindow.elapse 4000 MainWindow.new.onExecutableMonitorClicked = twoTicksState :=
  elapse_intervals 2 MainWindow.new.onExecutableMonitorClicked rfl (by decide) rfl

/-- C21, as the specification states it, fails: the monitor is opened and two
intervals pass, so two fetches are in flight; the reply to the second fetch
(delivering `laterSnapshot`) is handled first, then the reply to the first
fetch (delivering `scenarioSnapshot`).  The cache ends up with the snapshot of
the older fetch. -/
theorem older_reply_overwrites_counterexample :
    MainWindow.elapse 4000 MainWindow.new.onExecutableMonitorClicked = twoTicksState ∧
    twoTicksState.execNetworkManager.inFlight = 2 ∧
    twoTicksState.execNetworkManager.sent = [execPollRequest, execPollRequest] ∧
    ({ inventoryReply scenarioSnapshot with request := 0 } : QNetworkReply).request
      < ({ inventoryReply laterSnapshot with request := 1 } : QNetworkReply).request ∧
    (MainWindow.execReplyFinished QtText.ascii
      (MainWindow.execReplyFinished QtText.ascii twoTicksState
        { inventoryReply laterSnapshot with request := 1 })
      { inventoryReply scenarioSnapshot with request := 0 }).execFiles.map recordName
      = ["svchost.exe", "bad.exe"] ∧
    (MainWindow.execReplyFinished QtText.ascii
      (MainWindow.execReplyFinished QtText.ascii twoTicksState
        { inventoryReply laterSnapshot with request := 1 })
      { inventoryReply scenarioSnapshot with request := 0 }).executableMonitorPage.detectedTable
      = [["svchost.exe", "Safe", ""], ["bad.exe", "Suspicious", ""]] ∧
    laterSnapshot.map recordName = ["new.exe"] := by
  refine ⟨elapse_two_intervals_after_start, rfl, rfl, ?_, ?_, ?_, ?_⟩ <;> decide

/-- C21 as amended: snapshot replacement follows the order in which the replies
are handled, not the order in which their fetches were issued: when the reply
to fetch `j` is handled before the reply to an older fetch `i`, the cache and
the table end up with the snapshot delivered by `i`, the reply handled last. -/
theorem last_handled_reply_wins (qt : QtText) (w : MainWindow) (ri rj : QNetworkReply)
    (A B : QJsonArray) (hi : ri.Delivers A) (hj : rj.Delivers B)
    (_hissue : ri.request < rj.request) :
    (MainWindow.execReplyFinished qt (MainWindow.execReplyFinished qt w rj) ri).execFiles = A ∧
    (MainWindow.execReplyFinished qt
        (MainWindow.execReplyFinished qt w rj) ri).executableMonitorPage.detectedTable
      = filteredView qt A w.execFilterText ∧
    (MainWindow.execReplyFinished qt (MainWindow.execReplyFinished qt w ri) rj).execFiles = B ∧
    (MainWindow.execReplyFinished qt
        (MainWindow.execReplyFinished qt w ri) rj).executableMonitorPage.detectedTable
      = filteredView qt B w.execFilterText := by
  have h1 := execReplyFinished_of_delivers qt (MainWindow.execReplyFinished qt w rj) ri A hi
  have h2 := execReplyFinished_of_delivers qt (MainWindow.execReplyFinished qt w ri) rj B hj
  have f1 : (MainWindow.execReplyFinished qt w rj).execFilterText = w.execFilterText := by
    unfold MainWindow.execReplyFinished
    rw [onExecPollFinished_of_delivers qt _ rj B hj]
  have f2 : (MainWindow.execReplyFinished qt w ri).execFilterText = w.execFilterText := by
    unfold MainWindow.execReplyFinished
    rw [onExecPollFinished_of_delivers qt _ ri A hi]
  exact ⟨h1.1, by rw [h1.2.1, f1], h2.1, by rw [h2.2.1, f2]⟩

theorem last_handled_reply_wins_witness :
    ({ inventoryReply scenarioSnapshot with request := 0 } : QNetworkReply).Delivers
      scenarioSnapshot ∧
    ({ inventoryReply laterSnapshot with request := 1 } : QNetworkReply).Delivers laterSnapshot ∧
    ({ inventoryReply scenarioSnapshot with request := 0 } : QNetworkReply).request
      < ({ inventoryReply laterSnapshot with request := 1 } : QNetworkReply).request ∧
    (MainWindow.execReplyFinished QtText.ascii
      (MainWindow.execReplyFinished QtText.ascii twoTicksState
        { inventoryReply laterSnapshot with request := 1 })
      { inventoryReply scenarioSnapshot with request := 0 }).executableMonitorPage.detectedTable
      = [["svchost.exe", "Safe", ""], ["bad.exe", "Suspicious", ""]] :=
  ⟨⟨rfl, by decide, rfl⟩, ⟨rfl, by decide, rfl⟩, by decide,
   (last_handled_reply_wins QtText.ascii twoTicksState
      { inventoryReply scenarioSnapshot with request := 0 }
      { inventoryReply laterSnapshot with request := 1 }
      scenarioSnapshot laterSnapshot ⟨rfl, by decide, rfl⟩ ⟨rfl, by decide, rfl⟩
      (by decide)).2.1.trans (by decide)⟩

/-- C22, as the specification states it, fails: after the monitor is opened
and two intervals pass without a reply, two fetches are in flight. -/
theorem two_fetches_in_flight_counterexample :
    (MainWindow.elapse 2000 MainWindow.new.onExecutableMonitorClicked).execNetworkManager.inFlight
      = 1 ∧
    (MainWindow.elapse 4000 MainWindow.new.onExecutableMonitorClicked).execNetworkManager.inFlight
      = 2 ∧
    (MainWindow.elapse 4000 MainWindow.new.onExecutableMonitorClicked).execNetworkManager.sent
      = [execPollRequest, execPollRequest] := by
  rw [elapse_two_intervals_after_start, elapse_interval_after_start]
  exact ⟨rfl, rfl, rfl⟩

/-- C22 as amended: the timeout handler issues one fetch at every tick, whether
or not earlier fetches are still outstanding: a tick raises the number of
fetches in flight by one, a finished reply lowers it by one, and after `k`
intervals without a reply `k` more fetches are in flight. -/
theorem every_tick_issues_a_fetch (qt : QtText) (w : MainWindow) (k : Nat)
    (reply : QNetworkReply) (hact : w.execPollTimer.active = true)
    (hpos : 0 < w.execPollTimer.interval)
    (hrem : w.execPollTimer.remaining = w.execPollTimer.interval) :
    (MainWindow.onExecPollTimeout w).execNetworkManager.inFlight
      = w.execNetworkManager.inFlight + 1 ∧
    (MainWindow.onExecPollTimeout w).execNetworkManager.sent
      = w.execNetworkManager.sent ++ [execPollRequest] ∧
    (MainWindow.elapse (k * w.execPollTimer.interval) w).execNetworkManager.inFlight
      = w.execNetworkManager.inFlight + k ∧
    (MainWindow.elapse (k * w.execPollTimer.interval) w).execNetworkManager.sent.length
      = w.execNetworkManager.sent.length + k ∧
    (MainWindow.execReplyFinished qt w reply).execNetworkManager.inFlight
      = w.execNetworkManager.inFlight - 1 := by
  rw [elapse_intervals k w hact hpos hrem]
  obtain ⟨h1, h2⟩ := iterate_onExecPollTimeout_inFlight k w
  refine ⟨rfl, rfl, h1, h2, ?_⟩
  unfold MainWindow.execReplyFinished MainWindow.onExecPollFinished
  dsimp only
  split_ifs
  · rfl
  · split <;> rfl
  · rfl

theorem every_tick_issues_a_fetch_witness :
    MainWindow.new.onExecutableMonitorClicked.execPollTimer.active = true ∧
    0 < MainWindow.new.onExecutableMonitorClicked.execPollTimer.interval ∧
    MainWindow.new.onExecutableMonitorClicked.execPollTimer.remaining
      = MainWindow.new.onExecutableMonitorClicked.execPollTimer.interval ∧
    (MainWindow.elapse (5 * MainWindow.new.onExecutableMonitorClicked.execPollTimer.interval)
        MainWindow.new.onExecutableMonitorClicked).execNetworkManager.inFlight = 5 :=
  ⟨rfl, by decide, rfl,
   (every_tick_issues_a_fetch QtText.ascii MainWindow.new.onExecutableMonitorClicked 5
      (inventoryReply []) rfl (by decide) rfl).2.2.1.trans rfl⟩

/-! ## The two row-building paths; frame conditions; monotone filtering -/

theorem onExecFilterChanged_eq (qt : QtText) (w : MainWindow) (f : String) :
    MainWindow.onExecFilterChanged qt w f
      = { w with
          execFilterText := f
          executableMonitorPage :=
            w.executableMonitorPage.setDetectedFiles (filteredView qt w.execFiles f) } := by
  simp [MainWindow.onExecFilterChanged, onExecFilterChanged_rows_eq]

theorem onExecFilterChanged_table (qt : QtText) (w : MainWindow) (f : String) :
    (MainWindow.onExecFilterChanged qt w f).executableMonitorPage.detectedTable
      = filteredView qt w.execFiles f := by
  rw [onExecFilterChanged_eq]
  exact setDetectedFiles_filteredView qt _ _ _

theorem onExecPollFinished_table (qt : QtText) (w : MainWindow) (reply : QNetworkReply)
    (S : QJsonArray) (h : reply.Delivers S) :
    (MainWindow.onExecPollFinished qt w (some reply)).executableMonitorPage.detectedTable
      = filteredView qt S w.execFilterText := by
  rw [onExecPollFinished_of_delivers qt w reply S h]
  exact setDetectedFiles_filteredView qt _ _ _

/-- C23: the row loop of `onExecPollFinished` and the row loop of
`onExecFilterChanged` build the same list for every array, filter text and
start list, so the table after a successful poll carrying `S` under filter `f`
equals, row for row, the table after a filter change to `f` with `S` cached. -/
theorem row_paths_agree (qt : QtText) (w : MainWindow) (S : QJsonArray) (f : String)
    (rows : List (List String)) (reply : QNetworkReply) (h : reply.Delivers S) :
    MainWindow.onExecPollFinished_rows qt f S rows
      = MainWindow.onExecFilterChanged_rows qt f S rows ∧
    (MainWindow.onExecPollFinished qt { w with execFilterText := f }
        (some reply)).executableMonitorPage.detectedTable
      = (MainWindow.onExecFilterChanged qt { w with execFiles := S }
          f).executableMonitorPage.detectedTable := by
  constructor
  · rw [onExecPollFinished_rows_eq, onExecFilterChanged_rows_eq]
  · rw [onExecPollFinished_table qt { w with execFilterText := f } reply S h,
      onExecFilterChanged_table qt { w with execFiles := S } f]

theorem row_paths_agree_witness :
    (inventoryReply scenarioSnapshot).Delivers scenarioSnapshot ∧
    MainWindow.onExecPollFinished_rows QtText.ascii "SVC" scenarioSnapshot []
      = [["svchost.exe", "Safe", ""]] ∧
    MainWindow.onExecFilterChanged_rows QtText.ascii "SVC" scenarioSnapshot []
      = [["svchost.exe", "Safe", ""]] :=
  ⟨⟨rfl, by decide, rfl⟩, by decide,
   (row_paths_agree QtText.ascii MainWindow.new scenarioSnapshot "SVC" []
      (inventoryReply scenarioSnapshot) ⟨rfl, by decide, rfl⟩).1.symm.trans (by decide)⟩

/-- C26: a filter change sets the filter text to the given text and leaves the
cached snapshot, the poll timer and the issued requests unchanged; a row
activation changes neither the cached snapshot, nor the filter text, nor the
displayed rows, nor the timer. -/
theorem filter_and_activation_frame (qt : QtText) (w : MainWindow) (t n : String) :
    (MainWindow.onExecFilterChanged qt w t).execFilterText = t ∧
    (MainWindow.onExecFilterChanged qt w t).execFiles = w.execFiles ∧
    (MainWindow.onExecFilterChanged qt w t).execPollTimer = w.execPollTimer ∧
    (MainWindow.onExecFilterChanged qt w t).execNetworkManager = w.execNetworkManager ∧
    (MainWindow.onExecItemActivated qt w n).execFiles = w.execFiles ∧
    (MainWindow.onExecItemActivated qt w n).execFilterText = w.execFilterText ∧
    (MainWindow.onExecItemActivated qt w n).executableMonitorPage.detectedTable
      = w.executableMonitorPage.detectedTable ∧
    (MainWindow.onExecItemActivated qt w n).execPollTimer = w.execPollTimer := by
  refine ⟨rfl, rfl, rfl, rfl, rfl, rfl, ?_, rfl⟩
  simp only [MainWindow.onExecItemActivated, onExecItemActivated_loop_eq]
  cases w.execFiles.find? (fun v => decide (EqualIgnoringCase qt (recordName v) n)) <;> rfl

/-- C29: for every state and either value of `enabled`,
`onExecMonitoringToggled` leaves the whole state unchanged, so the poll timer,
the cached snapshot, the filter text and the displayed rows are as before; in
particular, with monitoring switched off an active timer still issues its next
fetch when its remaining time has passed. -/
theorem monitoring_toggle_is_inert (w : MainWindow) (enabled : Bool) :
    MainWindow.onExecMonitoringToggled w enabled = w ∧
    (MainWindow.onExecMonitoringToggled w enabled).execPollTimer = w.execPollTimer ∧
    (MainWindow.onExecMonitoringToggled w enabled).execFiles = w.execFiles ∧
    (MainWindow.onExecMonitoringToggled w enabled).execFilterText = w.execFilterText ∧
    (MainWindow.onExecMonitoringToggled w enabled).executableMonitorPage.detectedTable
      = w.executableMonitorPage.detectedTable ∧
    (w.execPollTimer.active = true → 0 < w.execPollTimer.remaining →
      (MainWindow.elapse w.execPollTimer.remaining
          (MainWindow.onExecMonitoringToggled w false)).execNetworkManager.sent
        = w.execNetworkManager.sent ++ [execPollRequest]) := by
  refine ⟨rfl, rfl, rfl, rfl, rfl, ?_⟩
  intro hact hpos
  show (MainWindow.elapse w.execPollTimer.remaining w).execNetworkManager.sent = _
  rw [elapse_remaining w hact hpos]
  rfl

theorem monitoring_toggle_is_inert_witness :
    MainWindow.onExecMonitoringToggled MainWindow.new false = MainWindow.new ∧
    (MainWindow.onExecMonitoringToggled MainWindow.new true).execPollTimer.active = false ∧
    MainWindow.new.onExecutableMonitorClicked.execPollTimer.active = true ∧
    0 < MainWindow.new.onExecutableMonitorClicked.execPollTimer.remaining ∧
    (MainWindow.onExecMonitoringToggled MainWindow.new.onExecutableMonitorClicked
        false).execPollTimer.active = true ∧
    (MainWindow.elapse MainWindow.new.onExecutableMonitorClicked.execPollTimer.remaining
        (MainWindow.onExecMonitoringToggled MainWindow.new.onExecutableMonitorClicked
          false)).execNetworkManager.sent = [execPollRequest] :=
  ⟨(monitoring_toggle_is_inert MainWindow.new false).1,
   (congrArg QTimer.active (monitoring_toggle_is_inert MainWindow.new true).2.1).trans rfl,
   rfl, by decide, rfl,
   (monitoring_toggle_is_inert MainWindow.new.onExecutableMonitorClicked false).2.2.2.2.2 rfl
      (by decide)⟩

theorem containsIgnoringCase_trans (qt : QtText) (name f1 f2 : String)
    (h12 : ContainsIgnoringCase qt f2 f1) (h2 : ContainsIgnoringCase qt name f2) :
    ContainsIgnoringCase qt name f1 :=
  List.IsInfix.trans h12 h2

theorem filteredView_sublist (qt : QtText) (S : QJsonArray) (f1 f2 : String)
    (h : ContainsIgnoringCase qt f2 f1) :
    List.Sublist (filteredView qt S f2) (filteredView qt S f1) := by
  unfold filteredView
  apply List.Sublist.map
  induction S with
  | nil => exact List.Sublist.slnil
  | cons v rest ih =>
    by_cases h2 : ContainsIgnoringCase qt (recordName v) f2
    · have h1 := containsIgnoringCase_trans qt (recordName v) f1 f2 h h2
      simp only [List.filter_cons, h1, h2, decide_True, if_true]
      exact ih.cons₂ v
    · by_cases h1 : ContainsIgnoringCase qt (recordName v) f1
      · simp only [List.filter_cons, h1, h2, decide_True, decide_False, if_true]
        exact List.Sublist.cons v ih
      · simp only [List.filter_cons, h1, h2, decide_False]
        exact ih

theorem filteredView_length_le (qt : QtText) (S : QJsonArray) (f : String) :
    (filteredView qt S f).length ≤ S.length := by
  unfold filteredView
  rw [List.length_map]
  exact List.length_filter_le _ S

/-- C28: filtering is monotone in the filter text: when `f1` occurs in `f2`
ignoring case, the rows shown after a filter change to `f2` are an
order-preserving subsequence of the rows shown after a filter change to `f1`;
and the number of rows shown is at most the number of records. -/
theorem filtering_is_monotone (qt : QtText) (w : MainWindow) (f1 f2 : String)
    (h : ContainsIgnoringCase qt f2 f1) :
    List.Sublist (MainWindow.onExecFilterChanged qt w f2).executableMonitorPage.detectedTable
      (MainWindow.onExecFilterChanged qt w f1).executableMonitorPage.detectedTable ∧
    (MainWindow.onExecFilterChanged qt w f1).executableMonitorPage.detectedTable.length
      ≤ w.execFiles.length ∧
    (MainWindow.onExecFilterChanged qt w f2).executableMonitorPage.detectedTable.length
      ≤ (MainWindow.onExecFilterChanged qt w f1).executableMonitorPage.detectedTable.length := by
  rw [onExecFilterChanged_table, onExecFilterChanged_table]
  exact ⟨filteredView_sublist qt _ f1 f2 h, filteredView_length_le qt _ f1,
    (filteredView_sublist qt _ f1 f2 h).length_le⟩

theorem filtering_is_monotone_witness :
    ContainsIgnoringCase QtText.ascii "SVCH" "vc" ∧
    (MainWindow.onExecFilterChanged QtText.ascii
        { MainWindow.new with execFiles := scenarioSnapshot }
        "SVCH").executableMonitorPage.detectedTable = [["svchost.exe", "Safe", ""]] ∧
    List.Sublist
      (MainWindow.onExecFilterChanged QtText.ascii
        { MainWindow.new with execFiles := scenarioSnapshot }
        "SVCH").executableMonitorPage.detectedTable
      (MainWindow.onExecFilterChanged QtText.ascii
        { MainWindow.new with execFiles := scenarioSnapshot }
        "vc").executableMonitorPage.detectedTable :=
  ⟨by decide, by decide,
   (filtering_is_monotone QtText.ascii { MainWindow.new with execFiles := scenarioSnapshot }
      "vc" "SVCH" (by decide)).1⟩

/-! ## The table and the cache along the event loop -/

theorem onExecutableMonitorClicked_frame (w : MainWindow) :
    (MainWindow.onExecutableMonitorClicked w).execFiles = w.execFiles ∧
    (MainWindow.onExecutableMonitorClicked w).execFilterText = w.execFilterText ∧
    (MainWindow.onExecutableMonitorClicked w).executableMonitorPage = w.executableMonitorPage := by
  cases h : w.execPollTimer.active <;>
    simp [MainWindow.onExecutableMonitorClicked, MainWindow.setActiveNavButton, h]

theorem onScanUrlClicked_frame (qt : QtText) (w : MainWindow) :
    (MainWindow.onScanUrlClicked qt w).execFiles = w.execFiles ∧
    (MainWindow.onScanUrlClicked qt w).execFilterText = w.execFilterText ∧
    (MainWindow.onScanUrlClicked qt w).executableMonitorPage = w.executableMonitorPage := by
  unfold MainWindow.onScanUrlClicked
  dsimp only
  split_ifs <;> exact ⟨rfl, rfl, rfl⟩

theorem elapse1_frame (w : MainWindow) :
    (MainWindow.elapse1 w).execFiles = w.execFiles ∧
    (MainWindow.elapse1 w).execFilterText = w.execFilterText ∧
    (MainWindow.elapse1 w).executableMonitorPage = w.executableMonitorPage := by
  unfold MainWindow.elapse1
  split_ifs <;> exact ⟨rfl, rfl, rfl⟩

theorem onAnalyzeUrlFinished_frame (qt : QtText) (w : MainWindow) (reply : Option QNetworkReply) :
    (MainWindow.onAnalyzeUrlFinished qt w reply).execFiles = w.execFiles ∧
    (MainWindow.onAnalyzeUrlFinished qt w reply).execFilterText = w.execFilterText ∧
    (MainWindow.onAnalyzeUrlFinished qt w reply).executableMonitorPage
      = w.executableMonitorPage := by
  cases reply with
  | none => exact ⟨rfl, rfl, rfl⟩
  | some r =>
    simp only [MainWindow.onAnalyzeUrlFinished]
    split_ifs
    · exact ⟨rfl, rfl, rfl⟩
    · split
      · unfold MainWindow.onAnalyzeUrlFinished_object
        dsimp only
        split_ifs <;> exact ⟨rfl, rfl, rfl⟩
      · exact ⟨rfl, rfl, rfl⟩

theorem onExecItemActivated_frame (qt : QtText) (w : MainWindow) (n : String) :
    (MainWindow.onExecItemActivated qt w n).execFiles = w.execFiles ∧
    (MainWindow.onExecItemActivated qt w n).execFilterText = w.execFilterText ∧
    (MainWindow.onExecItemActivated qt w n).executableMonitorPage.detectedTable
      = w.executableMonitorPage.detectedTable := by
  refine ⟨rfl, rfl, ?_⟩
  simp only [MainWindow.onExecItemActivated, onExecItemActivated_loop_eq]
  cases w.execFiles.find? (fun v => decide (EqualIgnoringCase qt (recordName v) n)) <;> rfl

/-- An inventory reply that delivers no snapshot leaves the cache, the filter
text and the table as they are. -/
theorem execReplyFinished_frame (qt : QtText) (w : MainWindow) (reply : QNetworkReply)
    (h : ¬ ∃ S : QJsonArray, reply.Delivers S) :
    (MainWindow.execReplyFinished qt w reply).execFiles = w.execFiles ∧
    (MainWindow.execReplyFinished qt w reply).execFilterText = w.execFilterText ∧
    (MainWindow.execReplyFinished qt w reply).executableMonitorPage.detectedTable
      = w.executableMonitorPage.detectedTable := by
  unfold MainWindow.execReplyFinished MainWindow.onExecPollFinished
  dsimp only
  split_ifs with he hu
  · exact ⟨rfl, rfl, rfl⟩
  · split
    · next items hd =>
      exact absurd ⟨items, not_not.1 he, hu, hd⟩ h
    · exact ⟨rfl, rfl, rfl⟩
  · exact ⟨rfl, rfl, rfl⟩

/-- An event that is neither a filter change nor a successful poll leaves the
cache, the filter text and the table as they are. -/
theorem handle_frame (qt : QtText) (w : MainWindow) (e : Event) (he : ¬ e.RebuildsTable) :
    (MainWindow.handle qt w e).execFiles = w.execFiles ∧
    (MainWindow.handle qt w e).execFilterText = w.execFilterText ∧
    (MainWindow.handle qt w e).executableMonitorPage.detectedTable
      = w.executableMonitorPage.detectedTable := by
  cases e with
  | dashboardClicked =>
    have h := showDashboard_frame w
    exact ⟨h.1, h.2.1, congrArg _ h.2.2.1⟩
  | urlDetectionClicked =>
    have h := showUrlDetection_frame w
    exact ⟨h.1, h.2.1, congrArg _ h.2.2.1⟩
  | passwordManagerClicked => exact ⟨rfl, rfl, rfl⟩
  | executableMonitorClicked =>
    have h := onExecutableMonitorClicked_frame w
    exact ⟨h.1, h.2.1, congrArg _ h.2.2⟩
  | systemAnalysisClicked => exact ⟨rfl, rfl, rfl⟩
  | themeToggled => exact ⟨rfl, rfl, rfl⟩
  | newScanClicked =>
    have h := showUrlDetection_frame w
    exact ⟨h.1, h.2.1, congrArg _ h.2.2.1⟩
  | exportReportClicked => exact ⟨rfl, rfl, rfl⟩
  | backClicked =>
    have h := showUrlDetection_frame w
    exact ⟨h.1, h.2.1, congrArg _ h.2.2.1⟩
  | urlInputEdited text => exact ⟨rfl, rfl, rfl⟩
  | scanUrlClicked =>
    have h := onScanUrlClicked_frame qt w
    exact ⟨h.1, h.2.1, congrArg _ h.2.2⟩
  | scanResultClicked item =>
    simp only [MainWindow.handle]
    split_ifs <;> exact ⟨rfl, rfl, rfl⟩
  | monitoringToggled enabled => exact ⟨rfl, rfl, rfl⟩
  | filterChanged text => exact absurd trivial he
  | itemActivated exeName =>
    exact onExecItemActivated_frame qt w exeName
  | millisecondElapsed =>
    have h := elapse1_frame w
    exact ⟨h.1, h.2.1, congrArg _ h.2.2⟩
  | execReplyFinished reply => exact execReplyFinished_frame qt w reply he
  | scanReplyFinished reply =>
    have h := onAnalyzeUrlFinished_frame qt
      { w with networkManager :=
          { w.networkManager with inFlight := w.networkManager.inFlight - 1 } } (some reply)
    exact ⟨h.1, h.2.1, congrArg _ h.2.2⟩

/-- An inventory reply either leaves the state as it is, apart from the count of
fetches in flight, or replaces the cache and rebuilds the table from it. -/
theorem execReplyFinished_inSync (qt : QtText) (w : MainWindow) (reply : QNetworkReply)
    (h : TableInSync qt w) : TableInSync qt (MainWindow.execReplyFinished qt w reply) := by
  unfold MainWindow.execReplyFinished MainWindow.onExecPollFinished
  dsimp only
  split_ifs
  · exact h
  · split
    · next items _ =>
      unfold TableInSync
      simp only [onExecPollFinished_rows_eq, List.nil_append]
      exact setDetectedFiles_filteredView qt _ _ _
    · exact h
  · exact h

theorem handle_inSync (qt : QtText) (w : MainWindow) (e : Event) (h : TableInSync qt w) :
    TableInSync qt (MainWindow.handle qt w e) := by
  by_cases he : e.RebuildsTable
  · cases e with
    | filterChanged text => exact onExecFilterChanged_table qt w text
    | execReplyFinished reply => exact execReplyFinished_inSync qt w reply h
    | _ => exact absurd he (by simp [Event.RebuildsTable])
  · obtain ⟨h1, h2, h3⟩ := handle_frame qt w e he
    unfold TableInSync at *
    rw [h1, h2, h3]
    exact h

theorem run_inSync (qt : QtText) (events : List Event) (w : MainWindow)
    (h : TableInSync qt w) : TableInSync qt (MainWindow.run qt w events) := by
  induction events generalizing w with
  | nil => exact h
  | cons e rest ih => exact ih (MainWindow.handle qt w e) (handle_inSync qt w e h)

theorem run_frame (qt : QtText) (events : List Event) (w : MainWindow)
    (h : ∀ e ∈ events, ¬ e.RebuildsTable) :
    (MainWindow.run qt w events).execFiles = w.execFiles ∧
    (MainWindow.run qt w events).execFilterText = w.execFilterText ∧
    (MainWindow.run qt w events).executableMonitorPage.detectedTable
      = w.executableMonitorPage.detectedTable := by
  induction events generalizing w with
  | nil => exact ⟨rfl, rfl, rfl⟩
  | cons e rest ih =>
    obtain ⟨a1, a2, a3⟩ := handle_frame qt w e (h e (List.mem_cons_self e rest))
    obtain ⟨b1, b2, b3⟩ := ih (MainWindow.handle qt w e)
      (fun e' he' => h e' (List.mem_cons_of_mem e he'))
    exact ⟨b1.trans a1, b2.trans a2, b3.trans a3⟩

/-- C24, as the specification states it, fails in the initial state: right
after construction the table shows the four seed rows while the cache is
empty, so the rows are not the filtered view of the cache. -/
theorem seed_rows_counterexample :
    MainWindow.new.executableMonitorPage.detectedTable
      = [["svchost.exe", "Safe", "1h ago"], ["malicious_payload.exe", "Critical", "2h ago"],
         ["explorer.exe", "Safe", ""], ["unknown_installer.msi", "Suspicious", "5h ago"]] ∧
    MainWindow.new.execFiles.length = 0 ∧
    filteredView QtText.ascii MainWindow.new.execFiles MainWindow.new.execFilterText = [] ∧
    ¬ TableInSync QtText.ascii MainWindow.new := by
  refine ⟨by decide, rfl, by decide, ?_⟩
  unfold TableInSync
  decide

/-- C24 as amended: in every state reached from the constructed window the
table shows the four seed rows of the constructor, which are not the filtered
view of the (empty) cache, as long as no filter change and no successful poll
has happened (failed polls change nothing); a filter change and a successful
poll each make the table equal to the filtered view of the cached snapshot
under the current filter text, whatever happened before, and from then on every
event keeps it so. -/
theorem table_in_sync_after_first_rebuild (qt : QtText) (before after : List Event)
    (t : String) (reply : QNetworkReply) (w : MainWindow) (e : Event) :
    ((∀ e' ∈ before, ¬ e'.RebuildsTable) →
      (MainWindow.run qt MainWindow.new before).executableMonitorPage.detectedTable
        = MainWindow.new.executableMonitorPage.detectedTable ∧
      (MainWindow.run qt MainWindow.new before).execFiles = [] ∧
      ¬ TableInSync qt (MainWindow.run qt MainWindow.new before)) ∧
    TableInSync qt
      (MainWindow.run qt MainWindow.new (before ++ Event.filterChanged t :: after)) ∧
    ((∃ S : QJsonArray, reply.Delivers S) →
      TableInSync qt
        (MainWindow.run qt MainWindow.new (before ++ Event.execReplyFinished reply :: after))) ∧
    (TableInSync qt w → TableInSync qt (MainWindow.handle qt w e)) := by
  refine ⟨?_, ?_, ?_, handle_inSync qt w e⟩
  · intro hbefore
    obtain ⟨h1, _, h3⟩ := run_frame qt before MainWindow.new hbefore
    refine ⟨h3, h1, ?_⟩
    unfold TableInSync
    rw [h3, h1]
    intro h
    have hnil : MainWindow.new.execFiles = [] := rfl
    rw [hnil] at h
    have hview : filteredView qt []
        (MainWindow.run qt MainWindow.new before).execFilterText = [] := rfl
    rw [hview] at h
    exact absurd h (by decide)
  · simp only [MainWindow.run, List.foldl_append, List.foldl_cons]
    exact run_inSync qt after _ (onExecFilterChanged_table qt _ t)
  · rintro ⟨S, hreply⟩
    have hd := execReplyFinished_of_delivers qt (MainWindow.run qt MainWindow.new before)
      reply S hreply
    have hsync : TableInSync qt (MainWindow.handle qt (MainWindow.run qt MainWindow.new before)
        (Event.execReplyFinished reply)) := by
      unfold TableInSync
      simp only [MainWindow.handle]
      rw [hd.2.1, hd.1]
      unfold MainWindow.execReplyFinished
      rw [onExecPollFinished_of_delivers qt _ reply S hreply]
    simp only [MainWindow.run, List.foldl_append, List.foldl_cons]
    exact run_inSync qt after _ hsync

theorem table_in_sync_after_first_rebuild_witness :
    (∀ e' ∈ [Event.executableMonitorClicked, Event.execReplyFinished (errorReply 1),
        Event.itemActivated "svchost.exe"], ¬ e'.RebuildsTable) ∧
    (MainWindow.run QtText.ascii MainWindow.new
        [Event.executableMonitorClicked, Event.execReplyFinished (errorReply 1),
          Event.itemActivated "svchost.exe"]).executableMonitorPage.detectedTable
      = MainWindow.new.executableMonitorPage.detectedTable ∧
    (∃ S : QJsonArray, (inventoryReply scenarioSnapshot).Delivers S) ∧
    TableInSync QtText.ascii
      (MainWindow.run QtText.ascii MainWindow.new
        ([Event.executableMonitorClicked, Event.execReplyFinished (errorReply 1),
            Event.itemActivated "svchost.exe"]
          ++ Event.execReplyFinished (inventoryReply scenarioSnapshot)
            :: [Event.dashboardClicked])) ∧
    (MainWindow.run QtText.ascii MainWindow.new
        ([Event.executableMonitorClicked, Event.execReplyFinished (errorReply 1),
            Event.itemActivated "svchost.exe"]
          ++ Event.execReplyFinished (inventoryReply scenarioSnapshot)
            :: [Event.dashboardClicked])).executableMonitorPage.detectedTable
      = [["svchost.exe", "Safe", ""], ["bad.exe", "Suspicious", ""]] :=
  have hb : ∀ e' ∈ [Event.executableMonitorClicked, Event.execReplyFinished (errorReply 1),
      Event.itemActivated "svchost.exe"], ¬ e'.RebuildsTable := by
    intro e' he'
    simp only [List.mem_cons, List.mem_singleton, List.not_mem_nil, or_false] at he'
    rcases he' with rfl | rfl | rfl
    · simp [Event.RebuildsTable]
    · rintro ⟨S, h, _⟩
      exact absurd h (by decide)
    · simp [Event.RebuildsTable]
  have hd : ∃ S : QJsonArray, (inventoryReply scenarioSnapshot).Delivers S :=
    ⟨scenarioSnapshot, rfl, by decide, rfl⟩
  have h := table_in_sync_after_first_rebuild QtText.ascii
    [Event.executableMonitorClicked, Event.execReplyFinished (errorReply 1),
      Event.itemActivated "svchost.exe"] [Event.dashboardClicked] "exe"
    (inventoryReply scenarioSnapshot) MainWindow.new Event.dashboardClicked
  ⟨hb, (h.1 hb).1, hd, h.2.2.1 hd, by decide⟩

/-! ## Order of the scan history -/

/-- Once the layout ends with the stretch, `addScanResult` places the new entry
after all entries of the history and keeps the others as they are. -/
theorem addScanResult_appends (w : MainWindow) (status url type : String)
    (layout : List LayoutItem) (h : w.scanResultsLayout = layout ++ [LayoutItem.stretch]) :
    ∃ (iconText : String) (riskScore : Int),
      (w.addScanResult status url type).scanResultsLayout
        = layout ++ [LayoutItem.widget { status := status, url := url, type := type,
                                         iconText := iconText, riskScore := riskScore },
                     LayoutItem.stretch] ∧
      historyEntries (w.addScanResult status url type).scanResultsLayout
        = historyEntries w.scanResultsLayout
            ++ [{ status := status, url := url, type := type,
                  iconText := iconText, riskScore := riskScore }] := by
  have hlen : ¬ ((layout.length + 1 : Nat) : Int) - 1 < 0 := by omega
  have hn : (((layout.length + 1 : Nat) : Int) - 1).toNat = layout.length := by omega
  refine ⟨if type = "safe" then "✓" else if type = "malicious" then "✗" else "⚠",
    if type = "safe" then 25 else if type = "malicious" then 85 else 55, ?_⟩
  have hlay : (w.addScanResult status url type).scanResultsLayout
      = layout ++ [LayoutItem.widget ⟨status, url, type,
          if type = "safe" then "✓" else if type = "malicious" then "✗" else "⚠",
          if type = "safe" then 25 else if type = "malicious" then 85 else 55⟩,
        LayoutItem.stretch] := by
    simp only [MainWindow.addScanResult, h, insertWidget, List.length_append,
      List.length_singleton]
    rw [if_neg hlen, hn]
    simp
  refine ⟨hlay, ?_⟩
  rw [hlay, h]
  simp [historyEntries, List.filterMap_append]

/-- C25 fails on the code during construction: `addSampleResults` adds Safe,
Malicious, Suspicious in that order while the layout has no stretch yet, and
`insertWidget(count() - 1, ...)` puts the second sample before the first and
the third between them, so the history shows Malicious, Suspicious, Safe. -/
theorem sample_results_out_of_order :
    (historyEntries MainWindow.new.scanResultsLayout).map ScanResultItem.status
      = ["Malicious", "Suspicious", "Safe"] ∧
    (historyEntries MainWindow.new.scanResultsLayout).map ScanResultItem.status
      ≠ ["Safe", "Malicious", "Suspicious"] ∧
    insertWidget [] (((([] : List LayoutItem).length : Nat) : Int) - 1) LayoutItem.stretch
      = [LayoutItem.stretch] ∧
    (historyEntries
      ((({ MainWindow.new with scanResultsLayout := [] } : MainWindow).addScanResult
          "Safe" "https://example.com/login" "safe").addScanResult
          "Malicious" "https://malicious.site/phishing" "malicious").scanResultsLayout).map
        ScanResultItem.status
      = ["Malicious", "Safe"] ∧
    MainWindow.new.scanResultsLayout.getLast? = some LayoutItem.stretch := by
  refine ⟨?_, ?_, ?_, ?_, ?_⟩ <;> decide

/-! ## Risk levels -/

theorem showAnalysisDetails_label_level (url : String) (r : Int) (l : QLabel)
    (hlevel : l.currentLevel = true) :
    (MainWindow.showAnalysisDetails_label url r l).text
      = if r ≥ 70 then "High Risk" else if r ≥ 40 then "Medium Risk" else "Low Risk" := by
  obtain ⟨text, style, cu, cs, cl⟩ := l
  simp only at hlevel
  subst hlevel
  cases cu <;> cases cs <;>
    · simp only [MainWindow.showAnalysisDetails_label]
      split_ifs <;> first | rfl | contradiction

/-- A label without dynamic properties is left alone by the label update of
`showAnalysisDetails`. -/
theorem showAnalysisDetails_label_plain (url : String) (r : Int) (l : QLabel)
    (h1 : l.currentUrl = false) (h2 : l.currentScore = false) (h3 : l.currentLevel = false) :
    MainWindow.showAnalysisDetails_label url r l = l := by
  simp [MainWindow.showAnalysisDetails_label, h1, h2, h3]

theorem new_labels_plain :
    ∀ l ∈ MainWindow.new.analysisDetailsLabels,
      l.currentUrl = false ∧ l.currentScore = false ∧ l.currentLevel = false := by
  decide

theorem map_showAnalysisDetails_label_new (url : String) (r : Int) :
    MainWindow.new.analysisDetailsLabels.map (MainWindow.showAnalysisDetails_label url r)
      = MainWindow.new.analysisDetailsLabels := by
  have h : ∀ l ∈ MainWindow.new.analysisDetailsLabels,
      MainWindow.showAnalysisDetails_label url r l = l := by
    intro l hl
    obtain ⟨h1, h2, h3⟩ := new_labels_plain l hl
    exact showAnalysisDetails_label_plain url r l h1 h2 h3
  rw [List.map_congr_left h, List.map_id']

theorem map_setUrl_new (url : String) :
    MainWindow.new.analysisDetailsLabels.map
        (fun label : QLabel => if label.currentUrl then { label with text := url } else label)
      = MainWindow.new.analysisDetailsLabels := by
  have h : ∀ l ∈ MainWindow.new.analysisDetailsLabels,
      (fun label : QLabel => if label.currentUrl then { label with text := url } else label) l
        = l := by
    intro l hl
    obtain ⟨h1, _, _⟩ := new_labels_plain l hl
    simp [h1]
  rw [List.map_congr_left h, List.map_id']

theorem showAnalysisDetails_labels (w : MainWindow) (url : String) (r : Int)
    (h : w.analysisDetailsLabels = MainWindow.new.analysisDetailsLabels) :
    (w.showAnalysisDetails url r).analysisDetailsLabels
      = MainWindow.new.analysisDetailsLabels := by
  simp only [MainWindow.showAnalysisDetails, h]
  exact map_showAnalysisDetails_label_new url r

theorem onAnalyzeUrlFinished_labels (qt : QtText) (w : MainWindow) (reply : QNetworkReply)
    (h : w.analysisDetailsLabels = MainWindow.new.analysisDetailsLabels) :
    (MainWindow.onAnalyzeUrlFinished qt w (some reply)).analysisDetailsLabels
      = MainWindow.new.analysisDetailsLabels := by
  simp only [MainWindow.onAnalyzeUrlFinished]
  split_ifs
  · exact h
  · split
    · unfold MainWindow.onAnalyzeUrlFinished_object MainWindow.addScanResult
      dsimp only
      split_ifs <;>
        · simp only [MainWindow.showAnalysisDetails, h, map_setUrl_new]
          exact map_showAnalysisDetails_label_new _ _
    · exact h

/-- No event changes the labels of the analysis-details page that are created
by the constructor: none of them carries a dynamic property. -/
theorem handle_labels (qt : QtText) (w : MainWindow) (e : Event)
    (h : w.analysisDetailsLabels = MainWindow.new.analysisDetailsLabels) :
    (MainWindow.handle qt w e).analysisDetailsLabels
      = MainWindow.new.analysisDetailsLabels := by
  have hstop : (MainWindow.showUrlDetection w).analysisDetailsLabels
      = MainWindow.new.analysisDetailsLabels := by
    rw [← h]
    cases ht : w.execPollTimer.active <;>
      simp [MainWindow.showUrlDetection, MainWindow.setActiveNavButton, ht]
  cases e with
  | dashboardClicked =>
    rw [← h]
    cases ht : w.execPollTimer.active <;>
      simp [MainWindow.handle, MainWindow.showDashboard, MainWindow.setActiveNavButton, ht]
  | urlDetectionClicked => exact hstop
  | passwordManagerClicked => exact h
  | executableMonitorClicked =>
    rw [← h]
    cases ht : w.execPollTimer.active <;>
      simp [MainWindow.handle, MainWindow.onExecutableMonitorClicked,
        MainWindow.setActiveNavButton, ht]
  | systemAnalysisClicked => exact h
  | themeToggled => exact h
  | newScanClicked => exact hstop
  | exportReportClicked => exact h
  | backClicked => exact hstop
  | urlInputEdited text => exact h
  | scanUrlClicked =>
    rw [← h]
    simp only [MainWindow.handle, MainWindow.onScanUrlClicked]
    split_ifs <;> rfl
  | scanResultClicked item =>
    simp only [MainWindow.handle]
    split_ifs
    · exact showAnalysisDetails_labels w item.url item.riskScore h
    · exact h
  | monitoringToggled enabled => exact h
  | filterChanged text => exact h
  | itemActivated exeName => exact h
  | millisecondElapsed =>
    rw [← h]
    simp only [MainWindow.handle, MainWindow.elapse1]
    split_ifs <;> rfl
  | execReplyFinished reply =>
    rw [← h]
    simp only [MainWindow.handle, MainWindow.execReplyFinished, MainWindow.onExecPollFinished]
    split_ifs
    · rfl
    · split <;> rfl
    · rfl
  | scanReplyFinished reply =>
    exact onAnalyzeUrlFinished_labels qt _ reply h

theorem run_labels (qt : QtText) (events : List Event) (w : MainWindow)
    (h : w.analysisDetailsLabels = MainWindow.new.analysisDetailsLabels) :
    (MainWindow.run qt w events).analysisDetailsLabels
      = MainWindow.new.analysisDetailsLabels := by
  induction events generalizing w with
  | nil => exact h
  | cons e rest ih => exact ih (MainWindow.handle qt w e) (handle_labels qt w e h)

/-- C27 fails on the code: `showAnalysisDetails` stores the risk score, but the
level text is written only to labels that carry the `currentLevel` property, and
in every state reached from the constructed window the labels of the
analysis-details page are the seven labels of the constructor, none of which
carries it.  So no label is changed: after a click on the sample entry
`Malicious` (risk 85) no label shows "High Risk". -/
theorem risk_level_is_never_shown (qt : QtText) (events : List Event) (url : String) (r : Int) :
    (MainWindow.run qt MainWindow.new events).analysisDetailsLabels
      = MainWindow.new.analysisDetailsLabels ∧
    ((MainWindow.run qt MainWindow.new events).showAnalysisDetails url r).analysisDetailsLabels
      = MainWindow.new.analysisDetailsLabels ∧
    ((MainWindow.run qt MainWindow.new events).showAnalysisDetails url r).verdictLabel
      = (MainWindow.run qt MainWindow.new events).verdictLabel ∧
    ((MainWindow.run qt MainWindow.new events).showAnalysisDetails url r).verdictSubtitleLabel
      = (MainWindow.run qt MainWindow.new events).verdictSubtitleLabel ∧
    ((MainWindow.run qt MainWindow.new events).showAnalysisDetails url r).legitimateCountLabel
      = (MainWindow.run qt MainWindow.new events).legitimateCountLabel ∧
    ((MainWindow.run qt MainWindow.new events).showAnalysisDetails url r).phishingCountLabel
      = (MainWindow.run qt MainWindow.new events).phishingCountLabel ∧
    ((MainWindow.run qt MainWindow.new events).showAnalysisDetails url r).neutralCountLabel
      = (MainWindow.run qt MainWindow.new events).neutralCountLabel ∧
    ((MainWindow.run qt MainWindow.new events).showAnalysisDetails url r).currentRiskScore = r ∧
    MainWindow.new.analysisDetailsLabels.map QLabel.currentLevel
      = [false, false, false, false, false, false, false] ∧
    MainWindow.new.analysisDetailsLabels.map QLabel.text
      = ["Analysis Details", "", "Verdict & Details", "Legitimate Factors", "Phishing Factors",
         "Neutral Factors", "Factors"] ∧
    LayoutItem.widget maliciousSample ∈ MainWindow.new.scanResultsLayout ∧
    (MainWindow.handle QtText.ascii MainWindow.new
      (Event.scanResultClicked maliciousSample)).currentRiskScore = 85 ∧
    (MainWindow.handle QtText.ascii MainWindow.new
      (Event.scanResultClicked maliciousSample)).currentPage = Page.analysisDetails ∧
    (MainWindow.handle QtText.ascii MainWindow.new
      (Event.scanResultClicked maliciousSample)).analysisDetailsLabels.map QLabel.text
      = ["Analysis Details", "", "Verdict & Details", "Legitimate Factors", "Phishing Factors",
         "Neutral Factors", "Factors"] ∧
    (MainWindow.handle QtText.ascii MainWindow.new
      (Event.scanResultClicked maliciousSample)).verdictLabel.text = "Phishing" := by
  have hrun := run_labels qt events MainWindow.new rfl
  refine ⟨hrun, showAnalysisDetails_labels _ url r hrun, rfl, rfl, rfl, rfl, rfl, rfl,
    ?_, ?_, ?_, ?_, ?_, ?_, ?_⟩ <;> decide

/-! ## Lemmas on the ASCII tables -/

theorem toNat_ofNat_of_lt (n : Nat) (h : n < 55296) : (Char.ofNat n).toNat = n := by
  unfold Char.ofNat
  rw [dif_pos (Or.inl h)]
  rfl

theorem toNat_toLower (c : Char) :
    c.toLower.toNat = if 65 ≤ c.toNat ∧ c.toNat ≤ 90 then c.toNat + 32 else c.toNat := by
  unfold Char.toLower
  dsimp only
  split_ifs with h
  · exact toNat_ofNat_of_lt _ (by omega)
  · rfl

theorem toNat_toUpper (c : Char) :
    c.toUpper.toNat = if 97 ≤ c.toNat ∧ c.toNat ≤ 122 then c.toNat - 32 else c.toNat := by
  unfold Char.toUpper
  dsimp only
  split_ifs with h
  · exact toNat_ofNat_of_lt _ (by omega)
  · rfl

theorem char_eq_of_toNat_eq (c d : Char) (h : c.toNat = d.toNat) : c = d := by
  rw [← Char.ofNat_toNat c, ← Char.ofNat_toNat d, h]

/-- Two characters with the same ASCII lower case have the same ASCII upper
case, and conversely. -/
theorem toLower_eq_iff_toUpper_eq (c d : Char) :
    c.toLower = d.toLower ↔ c.toUpper = d.toUpper := by
  constructor
  · intro h
    have hn := congrArg Char.toNat h
    rw [toNat_toLower, toNat_toLower] at hn
    apply char_eq_of_toNat_eq
    rw [toNat_toUpper, toNat_toUpper]
    split_ifs at hn ⊢ <;> omega
  · intro h
    have hn := congrArg Char.toNat h
    rw [toNat_toUpper, toNat_toUpper] at hn
    apply char_eq_of_toNat_eq
    rw [toNat_toLower, toNat_toLower]
    split_ifs at hn ⊢ <;> omega

theorem map_toLower_eq_iff_map_toUpper_eq (l1 l2 : List Char) :
    l1.map Char.toLower = l2.map Char.toLower ↔ l1.map Char.toUpper = l2.map Char.toUpper := by
  induction l1 generalizing l2 with
  | nil => cases l2 <;> simp
  | cons a t ih =>
    cases l2 with
    | nil => simp
    | cons b u => simp [toLower_eq_iff_toUpper_eq a b, ih u]

/-- For the ASCII tables, the upper-cased forms of two strings agree exactly
when the strings are equal ignoring case. -/
theorem ascii_toUpper_eq_iff (s t : String) :
    QtText.ascii.toUpper s = QtText.ascii.toUpper t ↔ EqualIgnoringCase QtText.ascii s t := by
  unfold EqualIgnoringCase QtText.foldCase
  show String.mk (s.data.map Char.toUpper) = String.mk (t.data.map Char.toUpper) ↔
    s.data.map Char.toLower = t.data.map Char.toLower
  rw [map_toLower_eq_iff_map_toUpper_eq]
  constructor
  · intro h
    exact congrArg String.data h
  · intro h
    rw [h]

/-! ## Risk level of the detail view and status of the list row -/

/-- C30: for the record found by activation the risk level handed to the detail
view is the upper-cased raw type string.  It equals the upper-cased list status
of the record exactly when the type equals "suspicious", "error" or "safe"
ignoring case; for any other type the list shows "Safe" and the detail view
shows a different label.  The tables are assumed to upper-case every string
that equals "suspicious" or "error" ignoring case like the capitalised status,
and to upper-case a string like "Safe" exactly when it equals "safe" ignoring
case. -/
theorem detail_risk_level_is_raw_type (qt : QtText) (w : MainWindow) (n : String)
    (pre post : QJsonArray) (v : QJsonValue) (hS : w.execFiles = pre ++ v :: post)
    (hpre : ∀ u ∈ pre, ¬ EqualIgnoringCase qt (recordName u) n)
    (hv : EqualIgnoringCase qt (recordName v) n)
    (h1 : ∀ t, EqualIgnoringCase qt t "suspicious" → qt.toUpper t = qt.toUpper "Suspicious")
    (h2 : ∀ t, EqualIgnoringCase qt t "error" → qt.toUpper t = qt.toUpper "Error")
    (h3 : ∀ t, qt.toUpper t = qt.toUpper "Safe" ↔ EqualIgnoringCase qt t "safe") :
    (MainWindow.onExecItemActivated qt w n).executableMonitorPage.riskLevelLabel
      = qt.toUpper (recordType v) ∧
    ((MainWindow.onExecItemActivated qt w n).executableMonitorPage.riskLevelLabel
        = qt.toUpper (listStatus qt (recordType v)) ↔
      (EqualIgnoringCase qt (recordType v) "suspicious" ∨
        EqualIgnoringCase qt (recordType v) "error" ∨
        EqualIgnoringCase qt (recordType v) "safe")) ∧
    (¬ EqualIgnoringCase qt (recordType v) "suspicious" →
      ¬ EqualIgnoringCase qt (recordType v) "error" →
      ¬ EqualIgnoringCase qt (recordType v) "safe" →
      listStatus qt (recordType v) = "Safe" ∧
      (MainWindow.onExecItemActivated qt w n).executableMonitorPage.riskLevelLabel
        ≠ qt.toUpper "Safe") := by
  have hlabel : (MainWindow.onExecItemActivated qt w n).executableMonitorPage.riskLevelLabel
      = qt.toUpper (recordType v) := by
    rw [onExecItemActivated_of_first_match qt w n pre post v hS hpre hv]
    rfl
  rw [hlabel]
  refine ⟨rfl, ?_, ?_⟩
  · by_cases hs : EqualIgnoringCase qt (recordType v) "suspicious"
    · rw [listStatus_suspicious qt _ hs]
      exact ⟨fun _ => Or.inl hs, fun _ => h1 _ hs⟩
    · by_cases he : EqualIgnoringCase qt (recordType v) "error"
      · rw [listStatus_error qt _ he]
        exact ⟨fun _ => Or.inr (Or.inl he), fun _ => h2 _ he⟩
      · rw [listStatus_safe qt _ hs he, h3]
        constructor
        · intro h
          exact Or.inr (Or.inr h)
        · rintro (h | h | h)
          · exact absurd h hs
          · exact absurd h he
          · exact h
  · intro hs he hsafe
    refine ⟨listStatus_safe qt _ hs he, ?_⟩
    intro h
    exact hsafe ((h3 _).1 h)

theorem detail_risk_level_is_raw_type_witness :
    ({ MainWindow.new with execFiles := malwareSnapshot } : MainWindow).execFiles
      = [] ++ QJsonValue.object [("name", QJsonValue.string "drop.exe"),
            ("type", QJsonValue.string "malware")] :: [] ∧
    EqualIgnoringCase QtText.ascii
      (recordName (QJsonValue.object [("name", QJsonValue.string "drop.exe"),
        ("type", QJsonValue.string "malware")])) "drop.exe" ∧
    (∀ t, EqualIgnoringCase QtText.ascii t "suspicious" →
      QtText.ascii.toUpper t = QtText.ascii.toUpper "Suspicious") ∧
    (∀ t, EqualIgnoringCase QtText.ascii t "error" →
      QtText.ascii.toUpper t = QtText.ascii.toUpper "Error") ∧
    (∀ t, QtText.ascii.toUpper t = QtText.ascii.toUpper "Safe" ↔
      EqualIgnoringCase QtText.ascii t "safe") ∧
    (MainWindow.onExecItemActivated QtText.ascii
        { MainWindow.new with execFiles := malwareSnapshot }
        "drop.exe").executableMonitorPage.riskLevelLabel = "MALWARE" ∧
    (MainWindow.onExecFilterChanged QtText.ascii
        { MainWindow.new with execFiles := malwareSnapshot }
        "").executableMonitorPage.detectedTable = [["drop.exe", "Safe", ""]] :=
  have e1 : ∀ t, EqualIgnoringCase QtText.ascii t "suspicious" →
      QtText.ascii.toUpper t = QtText.ascii.toUpper "Suspicious" := by
    intro t ht
    rw [ascii_toUpper_eq_iff]
    exact ht.trans (by decide)
  have e2 : ∀ t, EqualIgnoringCase QtText.ascii t "error" →
      QtText.ascii.toUpper t = QtText.ascii.toUpper "Error" := by
    intro t ht
    rw [ascii_toUpper_eq_iff]
    exact ht.trans (by decide)
  have e3 : ∀ t, QtText.ascii.toUpper t = QtText.ascii.toUpper "Safe" ↔
      EqualIgnoringCase QtText.ascii t "safe" := by
    intro t
    rw [ascii_toUpper_eq_iff]
    constructor
    · intro ht
      exact ht.trans (by decide)
    · intro ht
      exact ht.trans (by decide)
  ⟨rfl, by decide, e1, e2, e3,
   (detail_risk_level_is_raw_type QtText.ascii
      { MainWindow.new with execFiles := malwareSnapshot } "drop.exe" [] []
      (QJsonValue.object [("name", QJsonValue.string "drop.exe"),
        ("type", QJsonValue.string "malware")])
      rfl (fun u hu => by cases hu) (by decide) e1 e2 e3).1.trans (by decide),
   by decide⟩

end SecureGuard
